import Mathlib

/-!
# PlayAttack front-end: the auth synchronisation layer

A shallow embedding of `frontend/exemplu/src/hooks/useAuth.js`.

* Browser-side state (React state, refs, the module-level profile cache,
  session/local storage, the clock) is the record `Local`.
* An `async` function is a value of `Prog α`: a tree whose nodes are the
  synchronous reads and writes of `Local`, the requests it awaits, and the
  requests it issues without awaiting.  `try / catch / finally` are functions on
  such trees.
* The auth provider, its `app_user` table and the REST backend are outside the
  repository: they are a `Provider`, any deterministic machine that answers a
  request with a response envelope or a rejection.
-/

namespace PlayAttack

/-! ## Values -/

/-- A thrown value or the `error` member of a response envelope.  It is an
object with a `name` and a `message`, unless `nullish` is set: then it stands
for a thrown `null` or `undefined` (a promise may reject with any value), which
has neither, and reading a property of it throws a `TypeError`.  The `error`
member of an envelope is never nullish: a `null` there is `none`. -/
structure JsError where
  name : String
  message : String
  nullish : Bool
deriving DecidableEq, Repr

/-- The value held by `userIdRef.current` and by `session?.user?.id`:
`undefined`, `null` or a string.  `===` on these is structural equality. -/
inductive JsId where
  | undefined
  | null
  | str (s : String)
deriving DecidableEq, Repr

/-- The provider-issued identity (`data.user`, `session.user`). -/
structure AuthUser where
  id : String
  email : String
deriving DecidableEq, Repr

/-- The provider session object; only its `user` member is inspected. -/
structure Session where
  user : Option AuthUser
  access_token : String
deriving DecidableEq, Repr

/-- A row of the `app_user` table, with the members `createUserProfile` writes.
`date_joined` holds the instant whose ISO rendering the source stores. -/
structure Profile where
  id : String
  email : String
  username : String
  role : String
  is_staff : Bool
  is_active : Bool
  is_superuser : Bool
  date_joined : Int
deriving DecidableEq, Repr

/-- The `updates` object handed to `updateProfile`. -/
structure ProfileUpdates where
  username : Option String
  email : Option String
  role : Option String
deriving DecidableEq, Repr

/-- A value of the module-level `profileCache` map: `{ data, timestamp }`. -/
structure CacheEntry where
  data : Option Profile
  timestamp : Int
deriving DecidableEq, Repr

/-- The `data` member of a sign-in / sign-up envelope. -/
structure AuthData where
  user : Option AuthUser
  session : Option Session
deriving DecidableEq, Repr

/-- Envelope `{ data, error }` of `auth.signUp` and `auth.signInWithPassword`. -/
structure AuthResp where
  data : AuthData
  error : Option JsError
deriving DecidableEq, Repr

/-- Envelope `{ error }` of `auth.signOut`. -/
structure SignOutResp where
  error : Option JsError
deriving DecidableEq, Repr

/-- Envelope `{ data, error }` of a `.single()` query on `app_user`. -/
structure RowResp where
  data : Option Profile
  error : Option JsError
deriving DecidableEq, Repr

/-- Envelope of `auth.getSession`: `{ data: { session }, error }`, with the
`session` member of `data` lifted to the top. -/
structure SessionResp where
  session : Option Session
  error : Option JsError
deriving DecidableEq, Repr

/-- The JSON body of a session-tracking response. -/
structure TrackData where
  session_id : Option String
deriving DecidableEq, Repr

/-- The `fetch` response of the session-tracking call together with the outcome
of `response.json()` (a parsed body, `null`, or a thrown parse error). -/
structure HttpResp where
  ok : Bool
  status : Nat
  json : Except JsError (Option TrackData)

/-- Requests sent to the outside world. -/
inductive Req where
  | authSignUp (email password emailRedirectTo : String)
  | authSignInWithPassword (email password : String)
  | authSignOut
  | selectProfile (id : String)
  | insertProfile (row : Profile)
  | updateProfileRow (id : String) (updates : ProfileUpdates)
  | trackingPost (action email : String) (session_id : Option String)
  | authGetSession
  | authExchangeCodeForSession (code : String)
  | authSetSession (access_token refresh_token : String)
deriving DecidableEq, Repr

/-- The type of the value a request resolves to. -/
def Req.Resp : Req → Type
  | .authSignUp _ _ _ => AuthResp
  | .authSignInWithPassword _ _ => AuthResp
  | .authSignOut => SignOutResp
  | .selectProfile _ => RowResp
  | .insertProfile _ => RowResp
  | .updateProfileRow _ _ => RowResp
  | .trackingPost _ _ _ => HttpResp
  | .authGetSession => SessionResp
  | .authExchangeCodeForSession _ => AuthResp
  | .authSetSession _ _ => AuthResp

/-- An observable effect, recorded in order of occurrence. -/
inductive Event where
  | request (r : Req)
  | sessionStorageSet (key value : String)
  | sessionStorageClear
  | localStorageRemove (key : String)
  | historyReplaceState (url : String)
deriving DecidableEq, Repr

/-! ## Browser-side state -/

/-- Everything the hook reads and writes inside the browser tab.  `mounted` is
the flag of the effect that runs the bootstrap; `pathname`, `search` and `hash`
are the members of `window.location`. -/
structure Local where
  user : Option AuthUser
  userProfile : Option Profile
  loading : Bool
  session : Option Session
  userIdRef : JsId
  fetchInProgress : Bool
  profileCache : String → Option CacheEntry
  sessionStorage : List (String × String)
  localStorage : List (String × String)
  origin : String
  now : Int
  randoms : List Nat
  log : List Event
  mounted : Bool
  pathname : String
  search : String
  hash : String

/-- Settlement of an awaited promise: the clock advance until it settles, and
either the value it fulfils with or the reason it rejects with. -/
structure Answer (r : Req) where
  elapsed : Int
  result : Except JsError r.Resp

/-- The outside world: a deterministic machine over a state `σ`. -/
structure Provider (σ : Type) where
  respond : (r : Req) → σ → σ × Answer r

/-! ## Asynchronous programs -/

/-- An `async` function body. -/
inductive Prog (α : Type) where
  | pure (a : α)
  | throw (e : JsError)
  | read (k : Local → Prog α)
  | modify (f : Local → Local) (k : Prog α)
  | await (r : Req) (k : Except JsError r.Resp → Prog α)
  | post (r : Req) (k : Prog α)

namespace Prog

/-- Sequencing. -/
def bind {α β : Type} : Prog α → (α → Prog β) → Prog β
  | .pure a, f => f a
  | .throw e, _ => .throw e
  | .read k, f => .read fun s => (k s).bind f
  | .modify g k, f => .modify g (k.bind f)
  | .await r k, f => .await r fun x => (k x).bind f
  | .post r k, f => .post r (k.bind f)

/-- The block `try { p } catch (error) { h error }`. -/
def tryCatch {α : Type} : Prog α → (JsError → Prog α) → Prog α
  | .pure a, _ => .pure a
  | .throw e, h => h e
  | .read k, h => .read fun s => (k s).tryCatch h
  | .modify g k, h => .modify g (k.tryCatch h)
  | .await r k, h => .await r fun x => (k x).tryCatch h
  | .post r k, h => .post r (k.tryCatch h)

/-- The block `try { p } finally { fin }`: `fin` runs after `p` completes
either way; if `fin` itself throws, that exception replaces the outcome. -/
def tryFinally {α : Type} : Prog α → Prog Unit → Prog α
  | .pure a, fin => fin.bind fun _ => .pure a
  | .throw e, fin => fin.bind fun _ => .throw e
  | .read k, fin => .read fun s => (k s).tryFinally fin
  | .modify g k, fin => .modify g (k.tryFinally fin)
  | .await r k, fin => .await r fun x => (k x).tryFinally fin
  | .post r k, fin => .post r (k.tryFinally fin)

/-- The expression `await <request>`: the request is issued, the caller is
suspended, and resumes with the value or with the rejection thrown. -/
def call (r : Req) : Prog r.Resp :=
  .modify (fun s => { s with log := s.log ++ [Event.request r] })
    (.await r fun x =>
      match x with
      | .ok v => .pure v
      | .error e => .throw e)

/-- A request issued without awaiting its promise. -/
def fire (r : Req) : Prog Unit :=
  .modify (fun s => { s with log := s.log ++ [Event.request r] }) (.post r (.pure ()))

/-- A synchronous write of the browser-side state. -/
def update (f : Local → Local) : Prog Unit :=
  .modify f (.pure ())

/-- A synchronous read of the browser-side state. -/
def get : Prog Local :=
  .read fun s => .pure s

/-- The loop `xs.forEach(f)`. -/
def forEach {α : Type} : List α → (α → Prog Unit) → Prog Unit
  | [], _ => .pure ()
  | x :: xs, f => (f x).bind fun _ => forEach xs f

end Prog

instance : Monad Prog where
  pure := Prog.pure
  bind := Prog.bind

/-- Run an `async` function to completion with nothing else interleaved: every
request is answered by the provider as soon as it is issued. -/
def run {σ α : Type} (P : Provider σ) : Prog α → σ → Local → σ × Local × Except JsError α
  | .pure a, p, s => (p, s, .ok a)
  | .throw e, p, s => (p, s, .error e)
  | .read k, p, s => run P (k s) p s
  | .modify f k, p, s => run P k p (f s)
  | .await r k, p, s =>
      run P (k (P.respond r p).2.result) (P.respond r p).1
        { s with now := s.now + (P.respond r p).2.elapsed }
  | .post r k, p, s => run P k (P.respond r p).1 s

/-- Run a task from where it stands up to its next `await`, or to its end. -/
def settle {σ α : Type} (P : Provider σ) : Prog α → σ → Local → σ × Local × Prog α
  | .read k, p, s => settle P (k s) p s
  | .modify f k, p, s => settle P k p (f s)
  | .post r k, p, s => settle P k (P.respond r p).1 s
  | .pure a, p, s => (p, s, .pure a)
  | .throw e, p, s => (p, s, .throw e)
  | .await r k, p, s => (p, s, .await r k)

/-- Give a task its turn: if it is suspended at an `await`, the provider answers
the request and the task runs on to its next `await`; if it has not started
yet, it runs to its first `await`; if it has ended, nothing happens. -/
def resume {σ α : Type} (P : Provider σ) : Prog α → σ → Local → σ × Local × Prog α
  | .await r k, p, s =>
      settle P (k (P.respond r p).2.result) (P.respond r p).1
        { s with now := s.now + (P.respond r p).2.elapsed }
  | t, p, s => settle P t p s

/-- The completion of a task that has ended: its value or the exception it
threw; `none` for a task still under way. -/
def Prog.completion {α : Type} : Prog α → Option (Except JsError α)
  | .pure a => some (Except.ok a)
  | .throw e => some (Except.error e)
  | _ => none

/-- Two calls in flight in the same tab against the same provider. -/
structure Duo (σ α : Type) where
  prov : σ
  tab : Local
  first : Prog α
  second : Prog α

/-- One turn of the event loop: the first call's turn when `which` is false,
the second call's when it is true. -/
def Duo.turn {σ α : Type} (P : Provider σ) (d : Duo σ α) (which : Bool) : Duo σ α :=
  if which then
    { prov := (resume P d.second d.prov d.tab).1
      tab := (resume P d.second d.prov d.tab).2.1
      first := d.first
      second := (resume P d.second d.prov d.tab).2.2 }
  else
    { prov := (resume P d.first d.prov d.tab).1
      tab := (resume P d.first d.prov d.tab).2.1
      first := (resume P d.first d.prov d.tab).2.2
      second := d.second }

/-- A sequence of turns. -/
def Duo.turns {σ α : Type} (P : Provider σ) (d : Duo σ α) (schedule : List Bool) : Duo σ α :=
  schedule.foldl (Duo.turn P) d

/-- The schedule in which two calls overlap, taking turns one `await` at a time. -/
def overlapping : List Bool :=
  [false, true, false, true, false, true, false, true, false, true]

/-- Whether a request is an insert into `app_user`. -/
def isInsert : Req → Bool
  | Req.insertProfile _ => true
  | _ => false

/-- The outcome of a run followed by a second run when the first completed
normally. -/
def andThen {σ α β : Type} (r : σ × Local × Except JsError α)
    (f : α → σ → Local → σ × Local × Except JsError β) : σ × Local × Except JsError β :=
  match r with
  | (p, s, Except.ok a) => f a p s
  | (p, s, Except.error e) => (p, s, Except.error e)

/-- The outcome of a run followed by a handler when it threw. -/
def orElse {σ α : Type} (r : σ × Local × Except JsError α)
    (h : JsError → σ → Local → σ × Local × Except JsError α) : σ × Local × Except JsError α :=
  match r with
  | (p, s, Except.ok a) => (p, s, Except.ok a)
  | (p, s, Except.error e) => h e p s

/-- The outcome of a run followed by a `finally` block. -/
def andFinally {σ α : Type} (r : σ × Local × Except JsError α)
    (fin : σ → Local → σ × Local × Except JsError Unit) : σ × Local × Except JsError α :=
  match r with
  | (p, s, x) =>
    match fin p s with
    | (p1, s1, Except.ok _) => (p1, s1, x)
    | (p1, s1, Except.error e) => (p1, s1, Except.error e)

/-! ## `useAuth.js` -/

/-- The constant `PROFILE_CACHE_TTL = 5 * 60 * 1000`, five minutes in milliseconds. -/
def PROFILE_CACHE_TTL : Int := 5 * 60 * 1000

def setUser (u : Option AuthUser) : Prog Unit :=
  Prog.update fun s => { s with user := u }

def setUserProfile (p : Option Profile) : Prog Unit :=
  Prog.update fun s => { s with userProfile := p }

def setLoading (b : Bool) : Prog Unit :=
  Prog.update fun s => { s with loading := b }

def setSession (x : Option Session) : Prog Unit :=
  Prog.update fun s => { s with session := x }

def setUserIdRef (i : JsId) : Prog Unit :=
  Prog.update fun s => { s with userIdRef := i }

def setFetchInProgress (b : Bool) : Prog Unit :=
  Prog.update fun s => { s with fetchInProgress := b }

/-- The call `profileCache.set(userId, entry)`. -/
def cacheSet (userId : String) (entry : CacheEntry) : Prog Unit :=
  Prog.update fun s =>
    { s with profileCache := fun k => if k = userId then some entry else s.profileCache k }

/-- The test `cached && Date.now() - cached.timestamp < PROFILE_CACHE_TTL` on
`cached = profileCache.get(userId)`: the entry when the test passes. -/
def freshCached (s : Local) (userId : String) : Option CacheEntry :=
  match s.profileCache userId with
  | some cached => if s.now - cached.timestamp < PROFILE_CACHE_TTL then some cached else none
  | none => none

/-- The function `fetchUserProfile(userId)`.  The result is `none` for
`undefined`, `some none` for `null` and `some (some p)` for a profile. -/
def fetchUserProfile (userId : String) : Prog (Option (Option Profile)) :=
  Prog.read fun s =>
    match freshCached s userId with
    | some cached => do
        setUserProfile cached.data
        pure (some cached.data)
    | none =>
      if s.fetchInProgress then pure none
      else
        Prog.tryFinally
          (Prog.tryCatch
            (do
              setFetchInProgress true
              let resp ← Prog.call (Req.selectProfile userId)
              match resp.error with
              | some _ => pure none
              | none =>
                Prog.read fun s1 => do
                  cacheSet userId { data := resp.data, timestamp := s1.now }
                  setUserProfile resp.data
                  pure (some resp.data))
            (fun _ => pure none))
          (setFetchInProgress false)

/-- The state in which a fetch that was issued and answered leaves the tab. -/
def fetchSettled (s : Local) (userId : String) (a : Answer (Req.selectProfile userId)) :
    Local × Option (Option Profile) :=
  let s1 : Local :=
    { s with fetchInProgress := true
             log := s.log ++ [Event.request (Req.selectProfile userId)]
             now := s.now + a.elapsed }
  match a.result with
  | Except.error _ => ({ s1 with fetchInProgress := false }, none)
  | Except.ok resp =>
    match resp.error with
    | some _ => ({ s1 with fetchInProgress := false }, none)
    | none =>
      ({ s1 with
          profileCache := fun k =>
            if k = userId then some { data := resp.data, timestamp := s1.now }
            else s.profileCache k
          userProfile := resp.data
          fetchInProgress := false }, some resp.data)

/-- The value `session?.user?.id`. -/
def sessionUserId (session : Option Session) : JsId :=
  match session with
  | some x =>
    match x.user with
    | some u => JsId.str u.id
    | none => JsId.undefined
  | none => JsId.undefined

/-- The value `session?.user`. -/
def sessionUser (session : Option Session) : Option AuthUser :=
  match session with
  | some x => x.user
  | none => none

/-- The callback registered with `supabase.auth.onAuthStateChange`. -/
def onAuthStateChange (event : String) (session : Option Session) : Prog Unit :=
  if event = "SIGNED_OUT" then do
    setUser none
    setUserProfile none
    setSession none
    setUserIdRef JsId.null
    setLoading false
  else if event = "TOKEN_REFRESHED" then pure ()
  else
    Prog.read fun s =>
      if sessionUserId session = s.userIdRef then pure ()
      else do
        match sessionUser session with
        | some u => do
            setSession session
            setUser (some u)
            setUserIdRef (JsId.str u.id)
            let _ ← fetchUserProfile u.id
        | none => do
            setUser none
            setUserProfile none
            setSession none
            setUserIdRef JsId.null
        setLoading false

/-- The requests recorded in a log. -/
def requestsOf (log : List Event) : List Req :=
  log.filterMap fun e =>
    match e with
    | Event.request r => some r
    | _ => none

/-- The test `key.startsWith(prefix)`. -/
def startsWith (key pre : String) : Bool :=
  pre.toList.isPrefixOf key.toList

/-- The test `key.includes(part)`. -/
def includes (key part : String) : Bool :=
  key.toList.tails.any fun t => part.toList.isPrefixOf t

/-- The test `key.startsWith('sb-') || key.includes('supabase')`. -/
def isProviderKey (key : String) : Bool :=
  startsWith key "sb-" || includes key "supabase"

/-- The call `sessionStorage.getItem(key)`. -/
def storageGetItem (store : List (String × String)) (key : String) : Option String :=
  store.lookup key

/-- The call `sessionStorage.setItem(key, value)`. -/
def sessionStorageSetItem (key value : String) : Prog Unit :=
  Prog.update fun s =>
    { s with sessionStorage := (key, value) :: s.sessionStorage.filter (fun kv => kv.1 ≠ key)
             log := s.log ++ [Event.sessionStorageSet key value] }

/-- The call `sessionStorage.clear()`. -/
def sessionStorageClear : Prog Unit :=
  Prog.update fun s =>
    { s with sessionStorage := [], log := s.log ++ [Event.sessionStorageClear] }

/-- The call `localStorage.removeItem(key)`. -/
def localStorageRemoveItem (key : String) : Prog Unit :=
  Prog.update fun s =>
    { s with localStorage := s.localStorage.filter (fun kv => kv.1 ≠ key)
             log := s.log ++ [Event.localStorageRemove key] }

/-- The callback of the purge loop:
`key => { if (key.startsWith('sb-') || key.includes('supabase')) localStorage.removeItem(key) }`. -/
def removeIfProviderKey (key : String) : Prog Unit :=
  if isProviderKey key then localStorageRemoveItem key else Prog.pure ()

/-- The loop over `Object.keys(localStorage)` that removes every key passing
`isProviderKey`. -/
def purgeLocalStorage : Prog Unit :=
  Prog.read fun s => Prog.forEach (s.localStorage.map Prod.fst) removeIfProviderKey

/-- The browser-side state after `purgeLocalStorage`: the keys passing
`isProviderKey` are gone, each removal recorded in storage order. -/
def purged (s : Local) : Local :=
  { s with
      localStorage := s.localStorage.filter (fun kv => !isProviderKey kv.1)
      log := s.log ++
        ((s.localStorage.map Prod.fst).filter isProviderKey).map Event.localStorageRemove }

/-- The value of `Math.floor(Math.random() * 1000)`: the next random draw,
reduced to the range `0 .. 999`. -/
def nextSuffix (s : Local) : Nat :=
  s.randoms.headD 0 % 1000

/-- The function `generateUsername(email)`: the part of `email` before the first
`@`, followed by `Math.floor(Math.random() * 1000)`. -/
def generateUsername (email : String) : Prog String :=
  Prog.read fun s =>
    Prog.modify (fun s1 => { s1 with randoms := s1.randoms.tail })
      (Prog.pure (String.mk (email.toList.takeWhile fun c => c ≠ '@') ++
        toString (nextSuffix s)))

/-- The object literal `userProfile` of `createUserProfile`. -/
def newProfile (authUser : AuthUser) (username : String) (now : Int) : Profile where
  id := authUser.id
  email := authUser.email
  username := username
  role := "user"
  is_staff := false
  is_active := true
  is_superuser := false
  date_joined := now

/-- The function `createUserProfile(authUser)`; its second parameter is unused. -/
def createUserProfile (authUser : AuthUser) : Prog (Option Profile) :=
  Prog.tryCatch
    (do
      let username ← generateUsername authUser.email
      let s ← Prog.get
      let resp ← Prog.call (Req.insertProfile (newProfile authUser username s.now))
      match resp.error with
      | some error => Prog.throw error
      | none => do
          setUserProfile resp.data
          pure resp.data)
    (fun error => Prog.throw error)

/-- The row `createUserProfile(authUser)` sends when the pending random draws
are `randoms` and the clock reads `now`. -/
def rowFor (authUser : AuthUser) (randoms : List Nat) (now : Int) : Profile :=
  newProfile authUser
    (String.mk (authUser.email.toList.takeWhile fun c => c ≠ '@') ++
      toString (randoms.headD 0 % 1000))
    now

/-- The requests recorded by a run that took the tab from `before` to `after`. -/
def newRequests (before after : Local) : List Req :=
  requestsOf (after.log.drop before.log.length)

/-- The object `{ success, data, error }` returned by `signUp` and `signIn`. -/
structure SignResult where
  success : Bool
  data : Option AuthData
  error : Option String
deriving DecidableEq, Repr

/-- The `TypeError` thrown by reading a property of `null` or `undefined`. -/
def readOfNullish : JsError :=
  ⟨"TypeError", "Cannot read properties of null", false⟩

/-- The `catch` block of `signUp` and of `signIn`:
`return { success: false, data: null, error: error.message }`, where reading
`error.message` throws when the caught value is `null` or `undefined`. -/
def failureFrom (error : JsError) : Prog SignResult :=
  if error.nullish then Prog.throw readOfNullish
  else Prog.pure { success := false, data := none, error := some error.message }

/-- How a `signUp` or `signIn` whose `catch` block caught `error` completes. -/
def failureOf (error : JsError) : Except JsError SignResult :=
  if error.nullish then Except.error readOfNullish
  else Except.ok { success := false, data := none, error := some error.message }

/-- The object `{ error }` returned by `signOut`; `some e` is the caught value. -/
structure SignOutResult where
  error : Option JsError
deriving DecidableEq, Repr

/-- The object `{ data, error }` returned by `updateProfile`; `some e` in
`error` is the caught value. -/
structure UpdateResult where
  data : Option Profile
  error : Option JsError
deriving DecidableEq, Repr

/-- The function `signUp(email, password)`. -/
def signUp (email password : String) : Prog SignResult :=
  Prog.tryFinally
    (Prog.tryCatch
      (do
        setLoading true
        let s ← Prog.get
        let resp ← Prog.call (Req.authSignUp email password (s.origin ++ "/dashboard"))
        match resp.error with
        | some error => Prog.throw error
        | none =>
          match resp.data.user with
          | some u => do
              let _ ← createUserProfile u
              pure { success := true, data := some resp.data, error := none }
          | none => pure { success := true, data := some resp.data, error := none })
      failureFrom)
    (setLoading false)

/-- The function `trackSession(action, email, sessionId)`: `null` on a non-2xx
status, on a rejected or aborted `fetch` and on a failing `response.json()`.
Its `catch` block reads `error.name`; `fetch` and `response.json()` reject with
`Error` objects only, so that read does not throw. -/
def trackSession (action email : String) (sessionId : Option String) : Prog (Option TrackData) :=
  Prog.tryCatch
    (do
      let response ← Prog.call (Req.trackingPost action email sessionId)
      if response.ok then
        match response.json with
        | Except.ok data => pure data
        | Except.error e => Prog.throw e
      else pure none)
    (fun _ => pure none)

/-- The value `trackSession` resolves to for a given settlement of its `fetch`. -/
def trackValue (res : Except JsError HttpResp) : Option TrackData :=
  match res with
  | Except.error _ => none
  | Except.ok response =>
    if response.ok then
      match response.json with
      | Except.ok data => data
      | Except.error _ => none
    else none

/-- The statement `if (sessionData?.session_id) sessionStorage.setItem(...)`. -/
def storeDjangoSessionId (sessionData : Option TrackData) : Prog Unit :=
  match sessionData with
  | some d =>
    match d.session_id with
    | some v => if v ≠ "" then sessionStorageSetItem "djangoSessionId" v else pure ()
    | none => pure ()
  | none => pure ()

/-- Session storage after `storeDjangoSessionId`. -/
def withDjangoSessionId (sessionData : Option TrackData) (s : Local) : Local :=
  match sessionData with
  | some d =>
    match d.session_id with
    | some v =>
      if v ≠ "" then
        { s with
            sessionStorage :=
              ("djangoSessionId", v) :: s.sessionStorage.filter (fun kv => kv.1 ≠ "djangoSessionId")
            log := s.log ++ [Event.sessionStorageSet "djangoSessionId" v] }
      else s
    | none => s
  | none => s

/-- The function `signIn(email, password)`. -/
def signIn (email password : String) : Prog SignResult :=
  Prog.tryFinally
    (Prog.tryCatch
      (do
        setLoading true
        let resp ← Prog.call (Req.authSignInWithPassword email password)
        match resp.error with
        | some error => Prog.throw error
        | none =>
          match resp.data.user with
          | some u => do
              let existing ← Prog.call (Req.selectProfile u.id)
              let _ ← (match existing.data with
                | none => createUserProfile u
                | some row => pure (some row))
              sessionStorageSetItem "authSessionActive" "true"
              let sessionData ← trackSession "login" u.email none
              storeDjangoSessionId sessionData
              pure { success := true, data := some resp.data, error := none }
          | none => pure { success := true, data := some resp.data, error := none })
      failureFrom)
    (setLoading false)

/-- The statement `if (user?.email) trackSession('logout', ...).catch(...)`: the
tracking request is issued and its promise is not awaited. -/
def trackLogout (user : Option AuthUser) (djangoSessionId : Option String) : Prog Unit :=
  match user with
  | some u =>
    if u.email ≠ "" then Prog.fire (Req.trackingPost "logout" u.email djangoSessionId)
    else pure ()
  | none => pure ()

/-- The provider state after the tracking request of `trackLogout`, if any. -/
def afterTrackLogout {σ : Type} (P : Provider σ) (p : σ) (user : Option AuthUser)
    (djangoSessionId : Option String) : σ :=
  match user with
  | some u =>
    if u.email ≠ "" then (P.respond (Req.trackingPost "logout" u.email djangoSessionId) p).1
    else p
  | none => p

/-- The events `trackLogout` records. -/
def trackLogoutEvents (user : Option AuthUser) (djangoSessionId : Option String) : List Event :=
  match user with
  | some u =>
    if u.email ≠ "" then [Event.request (Req.trackingPost "logout" u.email djangoSessionId)]
    else []
  | none => []

/-- The browser-side state after "STEP 2" and "STEP 3" of `signOut`: state
nulled, session storage cleared, provider keys purged from local storage. -/
def cleared (s : Local) : Local :=
  purged
    { s with user := none, userProfile := none, session := none, userIdRef := JsId.null
             sessionStorage := [], log := s.log ++ [Event.sessionStorageClear] }

/-- Whether an event clears or removes stored data. -/
def isPurge : Event → Bool
  | Event.sessionStorageClear => true
  | Event.localStorageRemove _ => true
  | _ => false

/-- The function `signOut()`. -/
def signOut : Prog SignOutResult :=
  Prog.tryFinally
    (Prog.tryCatch
      (do
        setLoading true
        let s ← Prog.get
        trackLogout s.user (storageGetItem s.sessionStorage "djangoSessionId")
        let _ ← Prog.call Req.authSignOut
        setUser none
        setUserProfile none
        setSession none
        setUserIdRef JsId.null
        sessionStorageClear
        purgeLocalStorage
        pure { error := none })
      (fun error => do
        setUser none
        setUserProfile none
        setSession none
        setUserIdRef JsId.null
        sessionStorageClear
        purgeLocalStorage
        pure { error := some error }))
    (setLoading false)

/-- The function `updateProfile(updates)`. -/
def updateProfile (updates : ProfileUpdates) : Prog UpdateResult :=
  Prog.tryCatch
    (Prog.read fun s =>
      match s.user with
      | none => Prog.throw ⟨"Error", "No user logged in", false⟩
      | some u => do
          let resp ← Prog.call (Req.updateProfileRow u.id updates)
          match resp.error with
          | some error => Prog.throw error
          | none => do
              setUserProfile resp.data
              pure { data := resp.data, error := none })
    (fun error => pure { data := none, error := some error })

/-! ## The storage layer -/

/-- A failure injected into a table request: the request resolves with an error
envelope, or its promise rejects; either way the table is left untouched. -/
inductive Fault where
  | envelope (e : JsError)
  | reject (e : JsError)
deriving DecidableEq, Repr

/-- Modelled from the spec: the storage layer behind the data API, which is
outside the repository.  The `app_user` table is a list of rows keyed by `id`
(a unique constraint on `id`), `faults` schedules a failure or none for each
coming table request, and `services` is the state of the auth service and REST
backend that answer every other request. -/
structure Backend (τ : Type) where
  table : List Profile
  faults : List (Option Fault)
  latency : Int
  services : τ

/-- The error of a `.single()` query that does not match exactly one row. -/
def noSingleRow : JsError :=
  ⟨"PGRST116", "JSON object requested, multiple (or no) rows returned", false⟩

/-- The error of an insert that violates the unique constraint on `id`. -/
def duplicateKey : JsError :=
  ⟨"23505", "duplicate key value violates unique constraint", false⟩

/-- The query `from('app_user').select('*').eq('id', id).single()`. -/
def tableSelect (table : List Profile) (id : String) : List Profile × RowResp :=
  match table.filter (fun row => row.id = id) with
  | [row] => (table, { data := some row, error := none })
  | _ => (table, { data := none, error := some noSingleRow })

/-- The query `from('app_user').insert(row).select().single()`. -/
def tableInsert (table : List Profile) (row : Profile) : List Profile × RowResp :=
  if table.any (fun r => r.id = row.id) then
    (table, { data := none, error := some duplicateKey })
  else (table ++ [row], { data := some row, error := none })

/-- A row with the members present in `updates` overwritten. -/
def applyUpdates (updates : ProfileUpdates) (row : Profile) : Profile :=
  { row with
      username := updates.username.getD row.username
      email := updates.email.getD row.email
      role := updates.role.getD row.role }

/-- The query `from('app_user').update(updates).eq('id', id).select().single()`. -/
def tableUpdate (table : List Profile) (id : String) (updates : ProfileUpdates) :
    List Profile × RowResp :=
  match table.filter (fun row => row.id = id) with
  | [row] =>
      (table.map (fun r => if r.id = id then applyUpdates updates r else r),
        { data := some (applyUpdates updates row), error := none })
  | _ => (table, { data := none, error := some noSingleRow })

/-- Answer a table request: the scheduled fault if there is one, else the
result of the query `op` on the table. -/
def rowAnswer {τ : Type} (b : Backend τ) (op : List Profile → List Profile × RowResp) :
    Backend τ × Int × Except JsError RowResp :=
  match b.faults with
  | some (Fault.envelope e) :: rest =>
      ({ b with faults := rest }, b.latency, Except.ok { data := none, error := some e })
  | some (Fault.reject e) :: rest =>
      ({ b with faults := rest }, b.latency, Except.error e)
  | none :: rest =>
      ({ b with faults := rest, table := (op b.table).1 }, b.latency, Except.ok (op b.table).2)
  | [] => ({ b with table := (op b.table).1 }, b.latency, Except.ok (op b.table).2)

/-- Modelled from the spec: the provider whose data API is the table of a
`Backend` and whose other requests are answered by the services `Q`. -/
def tableProvider {τ : Type} (Q : Provider τ) : Provider (Backend τ) where
  respond := fun r b =>
    match r with
    | Req.selectProfile id =>
        ((rowAnswer b fun t => tableSelect t id).1,
          { elapsed := (rowAnswer b fun t => tableSelect t id).2.1
            result := (rowAnswer b fun t => tableSelect t id).2.2 })
    | Req.insertProfile row =>
        ((rowAnswer b fun t => tableInsert t row).1,
          { elapsed := (rowAnswer b fun t => tableInsert t row).2.1
            result := (rowAnswer b fun t => tableInsert t row).2.2 })
    | Req.updateProfileRow id updates =>
        ((rowAnswer b fun t => tableUpdate t id updates).1,
          { elapsed := (rowAnswer b fun t => tableUpdate t id updates).2.1
            result := (rowAnswer b fun t => tableUpdate t id updates).2.2 })
    | r => ({ b with services := (Q.respond r b.services).1 }, (Q.respond r b.services).2)

/-- An auth service and REST backend that give the same answers every time:
`auth` to sign-up and sign-in, success to sign-out, `track` to the tracking
call; a table request sent to it finds no table. -/
def constantServices (auth : AuthResp) (track : HttpResp) : Provider Unit where
  respond := fun r p =>
    match r with
    | Req.authSignUp _ _ _ => (p, { elapsed := 0, result := Except.ok auth })
    | Req.authSignInWithPassword _ _ => (p, { elapsed := 0, result := Except.ok auth })
    | Req.authSignOut => (p, { elapsed := 0, result := Except.ok { error := none } })
    | Req.trackingPost _ _ _ => (p, { elapsed := 0, result := Except.ok track })
    | Req.selectProfile _ =>
        (p, { elapsed := 0, result := Except.ok { data := none, error := some noSingleRow } })
    | Req.insertProfile _ =>
        (p, { elapsed := 0, result := Except.ok { data := none, error := some noSingleRow } })
    | Req.updateProfileRow _ _ =>
        (p, { elapsed := 0, result := Except.ok { data := none, error := some noSingleRow } })
    | Req.authGetSession =>
        (p, { elapsed := 0, result := Except.ok { session := auth.data.session, error := auth.error } })
    | Req.authExchangeCodeForSession _ => (p, { elapsed := 0, result := Except.ok auth })
    | Req.authSetSession _ _ => (p, { elapsed := 0, result := Except.ok auth })

/-- A successful sign-in / sign-up envelope for the identity `u1`. -/
def authOkU1 : AuthResp :=
  { data := { user := some ⟨"u1", "new@x.y"⟩, session := some ⟨some ⟨"u1", "new@x.y"⟩, "tok"⟩ }
    error := none }

/-- A tracking response with status 200 and a session id. -/
def trackOk : HttpResp :=
  { ok := true, status := 200, json := Except.ok (some ⟨some "dj-1"⟩) }

/-- A stored row for the identity `u1`, written with an older e-mail address. -/
def rowU1 : Profile :=
  ⟨"u1", "old@x.y", "old42", "user", false, true, false, 5⟩

/-- A storage layer with an empty table and no failure scheduled. -/
def emptyBackend : Backend Unit :=
  { table := [], faults := [], latency := 0, services := () }

/-- A storage layer holding the row of `u1`, no failure scheduled. -/
def backendU1 : Backend Unit :=
  { table := [rowU1], faults := [], latency := 0, services := () }

/-- A storage layer holding the row of `u1` whose next request will be answered
with an error envelope. -/
def flakyBackendU1 : Backend Unit :=
  { table := [rowU1], faults := [some (Fault.envelope ⟨"FetchError", "Failed to fetch", false⟩)]
    latency := 0, services := () }

/-- The state of a freshly mounted `AuthProvider`: the `useState` and `useRef`
initial values, an empty cache and empty storages. -/
def Local.initial : Local where
  user := none
  userProfile := none
  loading := true
  session := none
  userIdRef := JsId.null
  fetchInProgress := false
  profileCache := fun _ => none
  sessionStorage := []
  localStorage := []
  origin := "http://localhost:3000"
  now := 0
  randoms := []
  log := []
  mounted := true
  pathname := "/"
  search := ""
  hash := ""

/-- A provider that cannot be reached: every request is rejected. -/
def offlineProvider : Provider Unit where
  respond := fun _ p =>
    (p, { elapsed := 0, result := Except.error ⟨"TypeError", "Failed to fetch", false⟩ })

/-- The thrown value `null`. -/
def thrownNull : JsError :=
  ⟨"", "", true⟩

/-- A provider every promise of which rejects with `null`. -/
def nullRejectingProvider : Provider Unit where
  respond := fun _ p => (p, { elapsed := 0, result := Except.error thrownNull })

/-- The row of `u1` as `createUserProfile` writes it for the identity
`⟨u1, new@x.y⟩`. -/
def rowU1Current : Profile :=
  ⟨"u1", "new@x.y", "new42", "user", false, true, false, 5⟩

/-- A storage layer holding the row of `u1` with the address of its identity,
no failure scheduled. -/
def backendU1Current : Backend Unit :=
  { table := [rowU1Current], faults := [], latency := 0, services := () }

/-- A tab in which a profile fetch is in flight and nothing is cached. -/
def fetchingLocal : Local :=
  { Local.initial with fetchInProgress := true }

/-- A tab whose cache holds a profile for `u1` stored at time 1000, read at
time 2000. -/
def cachedLocal : Local :=
  { Local.initial with
      now := 2000
      profileCache := fun k =>
        if k = "u1" then
          some { data := some ⟨"u1", "a@b.c", "a7", "user", false, true, false, 1000⟩,
                 timestamp := 1000 }
        else none }

/-- A signed-in tab tracking identity `u1`, still loading. -/
def trackedLocal : Local :=
  { Local.initial with
      user := some ⟨"u1", "a@b.c"⟩
      session := some ⟨some ⟨"u1", "a@b.c"⟩, "tok"⟩
      userIdRef := JsId.str "u1" }

/-- A provider whose session-tracking endpoint settles every tracking call the
same way, after `elapsed` milliseconds and with `result`, and is otherwise `P`:
the REST backend that receives the tracking call shares no state with the
auth provider. -/
def withTracking {σ : Type} (P : Provider σ) (elapsed : Int)
    (result : Except JsError HttpResp) : Provider σ where
  respond := fun r p =>
    match r with
    | Req.trackingPost _ _ _ => (p, { elapsed := elapsed, result := result })
    | r => P.respond r p

/-- Whether a tracking call failed: its `fetch` was rejected (network error, or
abort after the timeout) or it was answered with a non-2xx status. -/
def trackingFailed (result : Except JsError HttpResp) : Bool :=
  match result with
  | Except.error _ => true
  | Except.ok response => !response.ok

/-- A tracking call aborted by the 5-second timer. -/
def trackAborted : Except JsError HttpResp :=
  Except.error ⟨"AbortError", "The user aborted a request.", false⟩

/-! ## `authMiddleware.js` -/

/-- The browser's `URLSearchParams`, as far as the middleware uses it: `parse`
is `new URLSearchParams(text)` read as its list of name-value pairs, and
`serialize` is `toString()` on such a list. -/
structure ParamCodec where
  parse : String → List (String × String)
  serialize : List (String × String) → String

/-- What the URL standard guarantees of `URLSearchParams`: serialising a list and
parsing the text again gives the list back, and only the empty list serialises
to the empty text. -/
structure ParamCodec.Lawful (c : ParamCodec) : Prop where
  parse_serialize : ∀ l, c.parse (c.serialize l) = l
  serialize_eq_empty : ∀ l, c.serialize l = "" ↔ l = []

/-- The constant `SEARCH_KEYS_TO_CLEAR`. -/
def SEARCH_KEYS_TO_CLEAR : List String :=
  ["code", "type", "redirect_to"]

/-- The constant `HASH_KEYS_TO_CLEAR`. -/
def HASH_KEYS_TO_CLEAR : List String :=
  ["access_token", "refresh_token", "expires_in", "token_type", "type", "provider_token"]

/-- The call `text.substring(1)`. -/
def substring1 (text : String) : String :=
  String.mk (text.toList.drop 1)

/-- The function `getHashParams()`. -/
def getHashParams (c : ParamCodec) (s : Local) : List (String × String) :=
  if s.hash = "" ∨ s.hash.length ≤ 1 then [] else c.parse (substring1 s.hash)

/-- The function `getSearchParams()`. -/
def getSearchParams (c : ParamCodec) (s : Local) : List (String × String) :=
  if s.search = "" ∨ s.search.length ≤ 1 then [] else c.parse (substring1 s.search)

/-- The call `params.get(key)`: the value of the first pair named `key`, or `null`. -/
def paramsGet (params : List (String × String)) (key : String) : Option String :=
  params.lookup key

/-- The call `params.delete(key)`: every pair named `key` is removed. -/
def paramsDelete (params : List (String × String)) (key : String) : List (String × String) :=
  params.filter fun kv => kv.1 ≠ key

/-- JavaScript truthiness of a string-or-null value. -/
def truthy (x : Option String) : Bool :=
  match x with
  | some v => v ≠ ""
  | none => false

/-- The expression `a || b` on string-or-null values. -/
def orElseValue (a b : Option String) : Option String :=
  if truthy a then a else b

/-- The call `window.history.replaceState({}, document.title, url)`, where `url`
is `pathname`, then `search`, then `hash`: the location takes these parts. -/
def historyReplaceState (pathname search hash : String) : Prog Unit :=
  Prog.update fun s =>
    { s with pathname := pathname, search := search, hash := hash
             log := s.log ++ [Event.historyReplaceState (pathname ++ search ++ hash)] }

/-- The function `clearSupabaseParams()`. -/
def clearSupabaseParams (c : ParamCodec) : Prog Unit :=
  Prog.read fun s =>
    historyReplaceState s.pathname
      (if c.serialize (SEARCH_KEYS_TO_CLEAR.foldl paramsDelete (getSearchParams c s)) ≠ "" then
        "?" ++ c.serialize (SEARCH_KEYS_TO_CLEAR.foldl paramsDelete (getSearchParams c s))
      else "")
      (if c.serialize (HASH_KEYS_TO_CLEAR.foldl paramsDelete (getHashParams c s)) ≠ "" then
        "#" ++ c.serialize (HASH_KEYS_TO_CLEAR.foldl paramsDelete (getHashParams c s))
      else "")

/-- The function `isRecoveryRoute()`; the path of a location is ASCII, so
lower-casing it is lower-casing `A` to `Z`. -/
def isRecoveryRoute (s : Local) : Bool :=
  includes (String.mk (s.pathname.toList.map Char.toLower)) "reset-password" ||
    includes (String.mk (s.pathname.toList.map Char.toLower)) "forgot-password"

/-- The value `hashParams.get("type") || searchParams.get("type")`. -/
def recoveryType (c : ParamCodec) (s : Local) : Option String :=
  orElseValue (paramsGet (getHashParams c s) "type") (paramsGet (getSearchParams c s) "type")

/-- The function `hasSupabaseRecoveryParams()`, in a browser (`window` defined). -/
def hasSupabaseRecoveryParams (c : ParamCodec) (s : Local) : Bool :=
  if truthy (paramsGet (getHashParams c s) "access_token") &&
      recoveryType c s == some "recovery" then true
  else if truthy (paramsGet (getSearchParams c s) "code") && isRecoveryRoute s then true
  else false

/-- The function `handleSupabaseRedirect()`, in a browser (`window` defined). -/
def handleSupabaseRedirect (c : ParamCodec) : Prog Unit :=
  Prog.read fun s =>
    Prog.tryCatch
      (if truthy (paramsGet (getSearchParams c s) "code") &&
          (recoveryType c s == some "recovery" || isRecoveryRoute s) then do
        let _ ← Prog.call
          (Req.authExchangeCodeForSession ((paramsGet (getSearchParams c s) "code").getD ""))
        clearSupabaseParams c
      else if recoveryType c s == some "recovery" &&
          truthy (paramsGet (getHashParams c s) "access_token") &&
          truthy (paramsGet (getHashParams c s) "refresh_token") then do
        let _ ← Prog.call
          (Req.authSetSession ((paramsGet (getHashParams c s) "access_token").getD "")
            ((paramsGet (getHashParams c s) "refresh_token").getD ""))
        clearSupabaseParams c
      else pure ())
      (fun _ => pure ())

/-- Start a call without awaiting it: its synchronous part runs now, and what is
left of it, suspended at its first `await` or already ended, is handed back. -/
def Prog.detach {α : Type} : Prog α → Prog (Prog α)
  | .pure a => .pure (.pure a)
  | .throw e => .pure (.throw e)
  | .read k => .read fun s => detach (k s)
  | .modify f k => .modify f (detach k)
  | .await r k => .pure (.await r k)
  | .post r k => .post r (detach k)

/-- The function `getInitialSession()` of the mount effect.  Its value is the
profile fetch it started without awaiting, if any. -/
def getInitialSession (c : ParamCodec) : Prog (Option (Prog (Option (Option Profile)))) :=
  Prog.tryFinally
    (Prog.tryCatch
      (do
        let s0 ← Prog.get
        if hasSupabaseRecoveryParams c s0 then handleSupabaseRedirect c else pure ()
        let resp ← Prog.call Req.authGetSession
        let s ← Prog.get
        if s.mounted then
          match resp.error with
          | some _ => do
              setUser none
              setUserProfile none
              setSession none
              pure none
          | none =>
            match sessionUser resp.session with
            | some u => do
                setSession resp.session
                setUser (some u)
                setUserIdRef (JsId.str u.id)
                let pending ← Prog.detach (fetchUserProfile u.id)
                pure (some pending)
            | none => do
                setUser none
                setUserProfile none
                setSession none
                pure none
        else pure none)
      (fun _ =>
        Prog.read fun s =>
          if s.mounted then do
            setUser none
            setUserProfile none
            setSession none
            pure none
          else pure none))
    (Prog.read fun s => if s.mounted then setLoading false else pure ())

/-! ### A concrete `URLSearchParams` -/

/-- The hexadecimal digit of a value below 16, upper case. -/
def hexDigit (n : Nat) : Char :=
  if n < 10 then Char.ofNat (48 + n) else Char.ofNat (55 + n)

/-- The value of a hexadecimal digit. -/
def hexValue (c : Char) : Option Nat :=
  if 48 ≤ c.toNat ∧ c.toNat ≤ 57 then some (c.toNat - 48)
  else if 65 ≤ c.toNat ∧ c.toNat ≤ 70 then some (c.toNat - 55)
  else if 97 ≤ c.toNat ∧ c.toNat ≤ 102 then some (c.toNat - 87)
  else none

/-- The characters the form-urlencoded serialiser writes as they are. -/
def isPlain (c : Char) : Bool :=
  (48 ≤ c.toNat && c.toNat ≤ 57) || (65 ≤ c.toNat && c.toNat ≤ 90) ||
    (97 ≤ c.toNat && c.toNat ≤ 122) || c = '*' || c = '-' || c = '.' || c = '_'

/-- Form-urlencoding of one character: plain characters as they are, the space
as `+`, any other ASCII character as a percent escape.  Characters outside
ASCII are left as they are (the browser writes their UTF-8 bytes as escapes). -/
def encodeChar (c : Char) : List Char :=
  if isPlain c then [c]
  else if c = ' ' then ['+']
  else if c.toNat < 128 then ['%', hexDigit (c.toNat / 16), hexDigit (c.toNat % 16)]
  else [c]

/-- Form-urlencoding of a text. -/
def encodeChars : List Char → List Char
  | [] => []
  | c :: rest => encodeChar c ++ encodeChars rest

/-- Form-urldecoding with `fuel` steps: `+` is a space, a percent sign followed
by two hexadecimal digits is the character with that code. -/
def decodeAux : Nat → List Char → List Char
  | 0, _ => []
  | _ + 1, [] => []
  | n + 1, c :: rest =>
    if c = '+' then ' ' :: decodeAux n rest
    else if c = '%' then
      match rest with
      | a :: b :: rest2 =>
        match hexValue a, hexValue b with
        | some x, some y => Char.ofNat (16 * x + y) :: decodeAux n rest2
        | _, _ => c :: decodeAux n rest
      | _ => c :: decodeAux n rest
    else c :: decodeAux n rest

/-- Form-urldecoding of a text. -/
def decodeChars (l : List Char) : List Char :=
  decodeAux l.length l

/-- The text cut at every `&`. -/
def splitAmp : List Char → List (List Char)
  | [] => [[]]
  | c :: rest =>
    if c = '&' then [] :: splitAmp rest
    else
      match splitAmp rest with
      | seg :: segs => (c :: seg) :: segs
      | [] => [[c]]

/-- The pieces joined with `&`. -/
def joinAmp : List (List Char) → List Char
  | [] => []
  | [seg] => seg
  | seg :: rest => seg ++ '&' :: joinAmp rest

/-- One `name=value` piece read as a pair: the name ends at the first `=`. -/
def parsePair (seg : List Char) : String × String :=
  (String.mk (decodeChars (seg.takeWhile fun c => c ≠ '=')),
    String.mk (decodeChars ((seg.dropWhile fun c => c ≠ '=').drop 1)))

/-- One pair written as `name=value`. -/
def pairChars (kv : String × String) : List Char :=
  encodeChars kv.1.toList ++ '=' :: encodeChars kv.2.toList

/-- Modelled from the spec: the `URLSearchParams` of the browser, which is
outside the repository, following the form-urlencoded parser and serialiser of
the URL standard on ASCII text.  It differs from the browser in two respects:
it does not drop a leading `?` of the text it parses (the middleware has cut it
off before), and it decodes percent escapes byte by byte rather than as UTF-8.
It is used at ASCII locations only. -/
def webCodec : ParamCodec where
  parse := fun text => ((splitAmp text.toList).filter fun seg => seg ≠ []).map parsePair
  serialize := fun l => String.mk (joinAmp (l.map pairChars))

/-- The parameters left after deleting every key of `keys`, one key after the
other as the `forEach` of `clearSupabaseParams` does. -/
def withoutKeys (keys : List String) (params : List (String × String)) :
    List (String × String) :=
  keys.foldl paramsDelete params

/-- The text `clearSupabaseParams` puts after the path for the parameters
`params`, behind the separator `sep`: nothing when they serialise to the empty
text. -/
def partFor (c : ParamCodec) (sep : String) (params : List (String × String)) : String :=
  if c.serialize params ≠ "" then sep ++ c.serialize params else ""

/-- The browser-side state after `clearSupabaseParams()`. -/
def cleaned (c : ParamCodec) (s : Local) : Local :=
  { s with
      search := partFor c "?" (withoutKeys SEARCH_KEYS_TO_CLEAR (getSearchParams c s))
      hash := partFor c "#" (withoutKeys HASH_KEYS_TO_CLEAR (getHashParams c s))
      log := s.log ++ [Event.historyReplaceState (s.pathname ++
        partFor c "?" (withoutKeys SEARCH_KEYS_TO_CLEAR (getSearchParams c s)) ++
        partFor c "#" (withoutKeys HASH_KEYS_TO_CLEAR (getHashParams c s)))] }

/-- The provider call `handleSupabaseRedirect()` makes for the current
location, if any: the code exchange, or the set-session from tokens. -/
def recoveryRequest (c : ParamCodec) (s : Local) : Option Req :=
  if truthy (paramsGet (getSearchParams c s) "code") &&
      (recoveryType c s == some "recovery" || isRecoveryRoute s) then
    some (Req.authExchangeCodeForSession ((paramsGet (getSearchParams c s) "code").getD ""))
  else if recoveryType c s == some "recovery" &&
      truthy (paramsGet (getHashParams c s) "access_token") &&
      truthy (paramsGet (getHashParams c s) "refresh_token") then
    some (Req.authSetSession ((paramsGet (getHashParams c s) "access_token").getD "")
      ((paramsGet (getHashParams c s) "refresh_token").getD ""))
  else none

/-- Provider and browser-side state after `handleSupabaseRedirect()`. -/
def redirected {σ : Type} (P : Provider σ) (c : ParamCodec) (p : σ) (s : Local) : σ × Local :=
  match recoveryRequest c s with
  | none => (p, s)
  | some r =>
    ((P.respond r p).1,
      match (P.respond r p).2.result with
      | Except.ok _ =>
          cleaned c { s with log := s.log ++ [Event.request r]
                             now := s.now + (P.respond r p).2.elapsed }
      | Except.error _ =>
          { s with log := s.log ++ [Event.request r]
                   now := s.now + (P.respond r p).2.elapsed })

/-- Provider and browser-side state after the first step of the bootstrap:
`if (hasSupabaseRecoveryParams()) await handleSupabaseRedirect()`. -/
def afterRecoveryStep {σ : Type} (P : Provider σ) (c : ParamCodec) (p : σ) (s : Local) :
    σ × Local :=
  if hasSupabaseRecoveryParams c s then redirected P c p s else (p, s)

/-- Browser-side state and value of a suspended profile fetch once the answer
`a` to its query has been delivered, in the state `s` of that moment. -/
def fetchLanded (s : Local) (userId : String) (a : Answer (Req.selectProfile userId)) :
    Local × Option (Option Profile) :=
  match a.result with
  | Except.error _ => ({ s with now := s.now + a.elapsed, fetchInProgress := false }, none)
  | Except.ok resp =>
    match resp.error with
    | some _ => ({ s with now := s.now + a.elapsed, fetchInProgress := false }, none)
    | none =>
      ({ s with
          now := s.now + a.elapsed
          profileCache := fun k =>
            if k = userId then some { data := resp.data, timestamp := s.now + a.elapsed }
            else s.profileCache k
          userProfile := resp.data
          fetchInProgress := false }, some resp.data)

/-- A tab opened on a recovery link that carries an access token and the
recovery marker in its fragment, but no refresh token and no code. -/
def accessTokenOnlyLocal : Local :=
  { Local.initial with pathname := "/reset-password", hash := "#access_token=T1&type=recovery" }

/-- A tab opened on a link that carries a one-time code and the recovery marker
in its query, away from the password-recovery routes. -/
def codeOffRouteLocal : Local :=
  { Local.initial with pathname := "/dashboard", search := "?code=C1&type=recovery" }

/-- A tab opened on a recovery link whose fragment carries both tokens and the
recovery marker. -/
def recoveryLinkLocal : Local :=
  { Local.initial with
      pathname := "/reset-password"
      hash := "#access_token=T1&refresh_token=T2&type=recovery" }

/-- A signed-in tab tracking identity `u1` whose cache holds the profile of
`u1`, stored at time 1000 and read at time 2000. -/
def cachedTrackedLocal : Local :=
  { cachedLocal with
      user := some ⟨"u1", "a@b.c"⟩
      userProfile := some ⟨"u1", "a@b.c", "a7", "user", false, true, false, 1000⟩
      session := some ⟨some ⟨"u1", "a@b.c"⟩, "tok"⟩
      userIdRef := JsId.str "u1"
      loading := false }

/-- A successful sign-up envelope for the identity `u1` that carries no
session, as when the e-mail address still has to be confirmed. -/
def authNoSessionU1 : AuthResp :=
  { data := { user := some ⟨"u1", "new@x.y"⟩, session := none }, error := none }

/-- A signed-in tab showing identity `a1` with its profile. -/
def signedInA1Local : Local :=
  { Local.initial with
      user := some ⟨"a1", "a@x.y"⟩
      userProfile := some ⟨"a1", "a@x.y", "a7", "admin", true, true, false, 5⟩
      session := some ⟨some ⟨"a1", "a@x.y"⟩, "tokA"⟩
      userIdRef := JsId.str "a1"
      loading := false }

/-- A tab on a recovery link that also carries parameters of the application
in its query and in its fragment. -/
def mixedParamsLocal : Local :=
  { Local.initial with
      pathname := "/reset-password"
      search := "?tab=1&code=C1&ref=mail"
      hash := "#access_token=T1&section=top&type=recovery" }

/-- A tab on the password-reset route whose fragment carries both tokens but no
`type` marker, and whose query carries nothing. -/
def tokensNoTypeLocal : Local :=
  { Local.initial with
      pathname := "/reset-password"
      hash := "#access_token=T1&refresh_token=T2" }

/-- A tab on the password-reset route, written in capitals, whose query carries
a one-time code and no `type` marker. -/
def codeNoTypeLocal : Local :=
  { Local.initial with pathname := "/Auth/RESET-Password", search := "?code=C1" }

/-- A tab away from the recovery routes whose query carries a one-time code and
no `type` marker. -/
def codeElsewhereLocal : Local :=
  { Local.initial with pathname := "/dashboard", search := "?code=C1&tab=2" }

/-! ## `ChatWidget.jsx`: the realtime insert handler -/

/-- A row of the `chat_messages` table; `ι` is the type of its `id`, compared
with `===`. -/
structure ChatMessage (ι : Type) where
  id : ι
  sender_email : String
  receiver_email : String
  message : String
  is_read : Bool
deriving DecidableEq, Repr

/-- The test `isRelevant` of the `postgres_changes` handler, for the signed-in
user's e-mail and the e-mail of the active chat partner. -/
def isRelevant {ι : Type} (userEmail activeChatEmail : String) (newMsg : ChatMessage ι) : Bool :=
  (newMsg.sender_email = userEmail && newMsg.receiver_email = activeChatEmail) ||
    (newMsg.sender_email = activeChatEmail && newMsg.receiver_email = userEmail)

/-- The updater the handler passes to `setMessages`:
`prev => prev.some(msg => msg.id === newMsg.id) ? prev : [...prev, newMsg]`. -/
def appendUnlessPresent {ι : Type} [DecidableEq ι] (prev : List (ChatMessage ι))
    (newMsg : ChatMessage ι) : List (ChatMessage ι) :=
  if prev.any (fun msg => msg.id = newMsg.id) then prev else prev ++ [newMsg]

/-- The message list after the `postgres_changes` INSERT handler has processed
the payload `newMsg`. -/
def onInsert {ι : Type} [DecidableEq ι] (userEmail activeChatEmail : String)
    (prev : List (ChatMessage ι)) (newMsg : ChatMessage ι) : List (ChatMessage ι) :=
  if isRelevant userEmail activeChatEmail newMsg then appendUnlessPresent prev newMsg else prev

/-! ## `ProtectedRoute.jsx` -/

/-- What a route component returns. -/
inductive Rendered where
  | loadingScreen
  | navigate (path : String)
  | children
deriving DecidableEq, Repr

/-- The value `isAuthenticated`: `!!user`. -/
def isAuthenticated (s : Local) : Bool :=
  s.user.isSome

/-- The truthiness of `isAdmin()`:
`userProfile?.role === 'admin' || userProfile?.is_superuser || false`. -/
def isAdmin (s : Local) : Bool :=
  match s.userProfile with
  | some profile => profile.role = "admin" || profile.is_superuser
  | none => false

/-- The component `AdminRoute`. -/
def AdminRoute (s : Local) : Rendered :=
  if s.loading then Rendered.loadingScreen
  else if !isAuthenticated s then Rendered.navigate "/login"
  else if !isAdmin s then Rendered.navigate "/dashboard"
  else Rendered.children

/-- Three chat messages between `me@x.y` and `you@x.y`, with ids 1, 2 and 3. -/
def chatLog : List (ChatMessage Nat) :=
  [⟨1, "me@x.y", "you@x.y", "hi", true⟩, ⟨2, "you@x.y", "me@x.y", "hello", true⟩,
    ⟨3, "me@x.y", "you@x.y", "how are you", false⟩]

/-- A signed-in tab whose profile has the role `admin`. -/
def adminLocal : Local :=
  { Local.initial with
      user := some ⟨"a1", "a@x.y"⟩
      userProfile := some ⟨"a1", "a@x.y", "a7", "admin", true, true, false, 5⟩
      loading := false }

/-- An update that changes the username only. -/
def renameUpdates : ProfileUpdates :=
  { username := some "renamed", email := none, role := none }

end PlayAttack

namespace PlayAttack

/-! ## Running programs: unfolding lemmas -/

section RunLemmas
variable {σ α β : Type} (P : Provider σ)

theorem bind_def (x : Prog α) (f : α → Prog β) : x >>= f = Prog.bind x f := rfl

theorem pure_def (a : α) : (Pure.pure a : Prog α) = Prog.pure a := rfl

/-- Running `x` and then `f`: the run of `x` decides. -/
theorem run_bind (x : Prog α) (f : α → Prog β) (p : σ) (s : Local) :
    run P (x.bind f) p s = andThen (run P x p s) fun a p1 s1 => run P (f a) p1 s1 := by
  induction x generalizing p s with
  | pure a => rfl
  | throw e => rfl
  | read k ih => simp only [Prog.bind, run]; exact ih s p s
  | modify g k ih => simp only [Prog.bind, run]; exact ih p (g s)
  | await r k ih => simp only [Prog.bind, run]; exact ih _ _ _
  | post r k ih => simp only [Prog.bind, run]; exact ih _ s

/-- Running `try { x } catch (e) { h e }`. -/
theorem run_tryCatch (x : Prog α) (h : JsError → Prog α) (p : σ) (s : Local) :
    run P (x.tryCatch h) p s = orElse (run P x p s) fun e p1 s1 => run P (h e) p1 s1 := by
  induction x generalizing p s with
  | pure a => rfl
  | throw e => rfl
  | read k ih => simp only [Prog.tryCatch, run]; exact ih s p s
  | modify g k ih => simp only [Prog.tryCatch, run]; exact ih p (g s)
  | await r k ih => simp only [Prog.tryCatch, run]; exact ih _ _ _
  | post r k ih => simp only [Prog.tryCatch, run]; exact ih _ s

/-- Running `try { x } finally { fin }`. -/
theorem run_tryFinally (x : Prog α) (fin : Prog Unit) (p : σ) (s : Local) :
    run P (x.tryFinally fin) p s = andFinally (run P x p s) fun p1 s1 => run P fin p1 s1 := by
  induction x generalizing p s with
  | pure a =>
    simp only [Prog.tryFinally, run, run_bind, andFinally, andThen]
    rcases run P fin p s with ⟨p1, s1, r⟩
    cases r <;> rfl
  | throw e =>
    simp only [Prog.tryFinally, run, run_bind, andFinally, andThen]
    rcases run P fin p s with ⟨p1, s1, r⟩
    cases r <;> rfl
  | read k ih => simp only [Prog.tryFinally, run]; exact ih s p s
  | modify g k ih => simp only [Prog.tryFinally, run]; exact ih p (g s)
  | await r k ih => simp only [Prog.tryFinally, run]; exact ih _ _ _
  | post r k ih => simp only [Prog.tryFinally, run]; exact ih _ s

theorem run_pure (a : α) (p : σ) (s : Local) : run P (Prog.pure a) p s = (p, s, Except.ok a) := rfl

theorem run_throw (e : JsError) (p : σ) (s : Local) :
    run P (Prog.throw e : Prog α) p s = (p, s, Except.error e) := rfl

theorem run_read (k : Local → Prog α) (p : σ) (s : Local) :
    run P (Prog.read k) p s = run P (k s) p s := rfl

theorem run_modify (f : Local → Local) (k : Prog α) (p : σ) (s : Local) :
    run P (Prog.modify f k) p s = run P k p (f s) := rfl

theorem run_await (r : Req) (k : Except JsError r.Resp → Prog α) (p : σ) (s : Local) :
    run P (Prog.await r k) p s =
      run P (k (P.respond r p).2.result) (P.respond r p).1
        { s with now := s.now + (P.respond r p).2.elapsed } := rfl

theorem run_post (r : Req) (k : Prog α) (p : σ) (s : Local) :
    run P (Prog.post r k) p s = run P k (P.respond r p).1 s := rfl

theorem run_update (f : Local → Local) (p : σ) (s : Local) :
    run P (Prog.update f) p s = (p, f s, Except.ok ()) := rfl

theorem run_call (r : Req) (p : σ) (s : Local) :
    run P (Prog.call r) p s =
      ((P.respond r p).1,
        { s with log := s.log ++ [Event.request r], now := s.now + (P.respond r p).2.elapsed },
        (P.respond r p).2.result) := by
  simp only [Prog.call, run]
  cases (P.respond r p).2.result <;> rfl

theorem andFinally_mk (p : σ) (s : Local) (x : Except JsError α)
    (fin : σ → Local → σ × Local × Except JsError Unit) :
    andFinally (p, s, x) fin =
      match fin p s with
      | (p1, s1, Except.ok _) => (p1, s1, x)
      | (p1, s1, Except.error e) => (p1, s1, Except.error e) := rfl

theorem andThen_ok (p : σ) (s : Local) (a : α)
    (f : α → σ → Local → σ × Local × Except JsError β) :
    andThen (p, s, Except.ok a) f = f a p s := rfl

theorem andThen_error (p : σ) (s : Local) (e : JsError)
    (f : α → σ → Local → σ × Local × Except JsError β) :
    andThen (p, s, (Except.error e : Except JsError α)) f = (p, s, Except.error e) := rfl

theorem orElse_ok (p : σ) (s : Local) (a : α)
    (h : JsError → σ → Local → σ × Local × Except JsError α) :
    orElse (p, s, Except.ok a) h = (p, s, Except.ok a) := rfl

theorem orElse_error (p : σ) (s : Local) (e : JsError)
    (h : JsError → σ → Local → σ × Local × Except JsError α) :
    orElse (p, s, (Except.error e : Except JsError α)) h = h e p s := rfl

end RunLemmas


/-! ## The profile cache (C1) -/

theorem freshCached_eq_some_iff (s : Local) (userId : String) (e : CacheEntry) :
    freshCached s userId = some e ↔
      s.profileCache userId = some e ∧ s.now - e.timestamp < 300000 := by
  unfold freshCached PROFILE_CACHE_TTL
  cases h : s.profileCache userId with
  | none => simp
  | some c =>
    by_cases hc : s.now - c.timestamp < 5 * 60 * 1000
    · simp only [hc, if_true, Option.some.injEq]
      constructor
      · intro h1; subst h1; exact ⟨rfl, by omega⟩
      · intro h1; exact h1.1
    · simp only [hc, if_false, Option.some.injEq]
      constructor
      · intro h1; cases h1
      · intro h1; rcases h1 with ⟨h1, h2⟩; subst h1; omega

theorem freshCached_eq_none_iff (s : Local) (userId : String) :
    freshCached s userId = none ↔
      ¬ ∃ e, s.profileCache userId = some e ∧ s.now - e.timestamp < 300000 := by
  constructor
  · intro h ⟨e, he⟩
    have := (freshCached_eq_some_iff s userId e).2 he
    rw [h] at this; cases this
  · intro h
    cases hf : freshCached s userId with
    | none => rfl
    | some e => exact absurd ⟨e, (freshCached_eq_some_iff s userId e).1 hf⟩ h

theorem run_fetchUserProfile_hit {σ : Type} (P : Provider σ) (p : σ) (s : Local)
    (userId : String) (e : CacheEntry) (h : freshCached s userId = some e) :
    run P (fetchUserProfile userId) p s =
      (p, { s with userProfile := e.data }, Except.ok (some e.data)) := by
  simp only [fetchUserProfile, run, h]

theorem run_fetchUserProfile_dropped {σ : Type} (P : Provider σ) (p : σ) (s : Local)
    (userId : String) (h : freshCached s userId = none) (hf : s.fetchInProgress = true) :
    run P (fetchUserProfile userId) p s = (p, s, Except.ok none) := by
  simp only [fetchUserProfile, run, h, hf]

theorem run_fetchUserProfile_miss {σ : Type} (P : Provider σ) (p : σ) (s : Local)
    (userId : String) (h : freshCached s userId = none) (hf : s.fetchInProgress = false) :
    run P (fetchUserProfile userId) p s =
      ((P.respond (Req.selectProfile userId) p).1,
        (fetchSettled s userId (P.respond (Req.selectProfile userId) p).2).1,
        Except.ok (fetchSettled s userId (P.respond (Req.selectProfile userId) p).2).2) := by
  simp only [fetchUserProfile, run, h, hf]
  rcases hr : P.respond (Req.selectProfile userId) p with ⟨p1, ⟨el, res⟩⟩
  cases res with
  | error e => rfl
  | ok resp =>
    rcases resp with ⟨d, er⟩
    cases er with
    | some e => rfl
    | none => rfl

theorem fetchSettled_log (s : Local) (userId : String) (a : Answer (Req.selectProfile userId)) :
    (fetchSettled s userId a).1.log = s.log ++ [Event.request (Req.selectProfile userId)] := by
  rcases a with ⟨el, res⟩
  cases res with
  | error e => rfl
  | ok resp =>
    rcases resp with ⟨d, er⟩
    cases er <;> rfl

/-- C1, as amended.  The lookup at the start of `fetchUserProfile(id)` is a hit
(a value is returned and nothing is recorded as requested) exactly when the
cache holds an entry for `id` with `now - entry.timestamp < 300000`; on a hit
the cached data is returned and put into state and the provider is not
consulted; on a miss with no fetch in flight exactly one query for `id` is
issued; on a miss while a fetch is in flight the call returns `undefined`
and changes nothing. -/
theorem fetchUserProfile_cache_lookup {σ : Type} (P : Provider σ) (p : σ) (s : Local)
    (userId : String) :
    ((∃ v, (run P (fetchUserProfile userId) p s).2.2 = Except.ok (some v) ∧
          (run P (fetchUserProfile userId) p s).2.1.log = s.log) ↔
        ∃ e, s.profileCache userId = some e ∧ s.now - e.timestamp < 300000) ∧
    (∀ e, s.profileCache userId = some e → s.now - e.timestamp < 300000 →
        run P (fetchUserProfile userId) p s =
          (p, { s with userProfile := e.data }, Except.ok (some e.data))) ∧
    ((¬ ∃ e, s.profileCache userId = some e ∧ s.now - e.timestamp < 300000) →
        s.fetchInProgress = false →
        (run P (fetchUserProfile userId) p s).2.1.log =
          s.log ++ [Event.request (Req.selectProfile userId)]) ∧
    ((¬ ∃ e, s.profileCache userId = some e ∧ s.now - e.timestamp < 300000) →
        s.fetchInProgress = true →
        run P (fetchUserProfile userId) p s = (p, s, Except.ok none)) := by
  refine ⟨?_, ?_, ?_, ?_⟩
  · constructor
    · rintro ⟨v, hv, hlog⟩
      by_contra hne
      have hnone := (freshCached_eq_none_iff s userId).2 hne
      cases hf : s.fetchInProgress with
      | true =>
        rw [run_fetchUserProfile_dropped P p s userId hnone hf] at hv
        cases hv
      | false =>
        rw [run_fetchUserProfile_miss P p s userId hnone hf] at hlog
        have hl := fetchSettled_log s userId (P.respond (Req.selectProfile userId) p).2
        rw [hl] at hlog
        simp at hlog
    · rintro ⟨e, he⟩
      have hs := (freshCached_eq_some_iff s userId e).2 he
      rw [run_fetchUserProfile_hit P p s userId e hs]
      exact ⟨e.data, rfl, rfl⟩
  · intro e h1 h2
    exact run_fetchUserProfile_hit P p s userId e ((freshCached_eq_some_iff s userId e).2 ⟨h1, h2⟩)
  · intro hne hf
    rw [run_fetchUserProfile_miss P p s userId ((freshCached_eq_none_iff s userId).2 hne) hf]
    exact fetchSettled_log s userId _
  · intro hne hf
    exact run_fetchUserProfile_dropped P p s userId ((freshCached_eq_none_iff s userId).2 hne) hf

/-- C1, witness: with `u1` cached one second ago the call is a hit and returns
the cached row; with an empty cache and no fetch in flight one query is issued. -/
theorem fetchUserProfile_cache_lookup_witness :
    run offlineProvider (fetchUserProfile "u1") () cachedLocal =
        ((), { cachedLocal with
                userProfile := some ⟨"u1", "a@b.c", "a7", "user", false, true, false, 1000⟩ },
          Except.ok (some (some ⟨"u1", "a@b.c", "a7", "user", false, true, false, 1000⟩))) ∧
      (run offlineProvider (fetchUserProfile "u1") () Local.initial).2.1.log =
        [Event.request (Req.selectProfile "u1")] :=
  ⟨(fetchUserProfile_cache_lookup offlineProvider () cachedLocal "u1").2.1
      { data := some ⟨"u1", "a@b.c", "a7", "user", false, true, false, 1000⟩, timestamp := 1000 }
      rfl (by decide),
    (fetchUserProfile_cache_lookup offlineProvider () Local.initial "u1").2.2.1
      (by rintro ⟨e, he, _⟩; cases he) rfl⟩

/-- C1, as stated, fails: with nothing cached for `u1` (a miss) but a fetch
already in flight, `fetchUserProfile("u1")` issues no query at all. -/
theorem fetchUserProfile_miss_without_fetch :
    ¬ ((¬ ∃ e, fetchingLocal.profileCache "u1" = some e ∧
            fetchingLocal.now - e.timestamp < 300000) →
        Event.request (Req.selectProfile "u1") ∈
          (run offlineProvider (fetchUserProfile "u1") () fetchingLocal).2.1.log) := by
  intro h
  have h1 := h (by rintro ⟨e, he, _⟩; cases he)
  have h2 : (run offlineProvider (fetchUserProfile "u1") () fetchingLocal).2.1.log = [] := rfl
  rw [h2] at h1
  cases h1

/-! ## The auth-change handler (C2, C3, C4) -/

/-- C2.  A `TOKEN_REFRESHED` notification, whatever the state and the session
payload, leaves the whole browser-side state (user, profile, session, loading,
tracked id, in-flight flag, cache, log of requests) and the provider untouched. -/
theorem onAuthStateChange_token_refreshed {σ : Type} (P : Provider σ) (p : σ) (s : Local)
    (session : Option Session) :
    run P (onAuthStateChange "TOKEN_REFRESHED" session) p s = (p, s, Except.ok ()) := by
  rfl

/-- C3, as amended.  A notification other than `SIGNED_OUT` whose
`session?.user?.id` is strictly equal to the tracked id is ignored: state,
request log and provider are unchanged. -/
theorem onAuthStateChange_same_identity {σ : Type} (P : Provider σ) (p : σ) (s : Local)
    (event : String) (session : Option Session) (hev : event ≠ "SIGNED_OUT")
    (hid : sessionUserId session = s.userIdRef) :
    run P (onAuthStateChange event session) p s = (p, s, Except.ok ()) := by
  unfold onAuthStateChange
  rw [if_neg hev]
  by_cases ht : event = "TOKEN_REFRESHED"
  · rw [if_pos ht]; rfl
  · rw [if_neg ht]
    simp only [run, hid, if_true]

/-- C3, witness: a `SIGNED_IN` notification for the tracked identity `u1`. -/
theorem onAuthStateChange_same_identity_witness :
    run offlineProvider (onAuthStateChange "SIGNED_IN" (some ⟨some ⟨"u1", "a@b.c"⟩, "tok2"⟩)) ()
        trackedLocal = ((), trackedLocal, Except.ok ()) :=
  onAuthStateChange_same_identity offlineProvider () trackedLocal "SIGNED_IN"
    (some ⟨some ⟨"u1", "a@b.c"⟩, "tok2"⟩) (by decide) rfl

/-- C3, as stated, fails, in two ways.  A `SIGNED_OUT` notification whose
session carries the tracked identity `u1` is not ignored: user and session are
reset and loading is cleared.  And a notification that carries no user while no
identity is tracked is not ignored either, because `undefined` is not strictly
equal to `null`: on a fresh tab it clears loading. -/
theorem onAuthStateChange_signed_out_same_identity :
    (sessionUserId (some ⟨some ⟨"u1", "a@b.c"⟩, "tok"⟩) = trackedLocal.userIdRef ∧
      (run offlineProvider (onAuthStateChange "SIGNED_OUT" (some ⟨some ⟨"u1", "a@b.c"⟩, "tok"⟩)) ()
          trackedLocal).2.1.user ≠ trackedLocal.user ∧
      (run offlineProvider (onAuthStateChange "SIGNED_OUT" (some ⟨some ⟨"u1", "a@b.c"⟩, "tok"⟩)) ()
          trackedLocal).2.1.loading ≠ trackedLocal.loading) ∧
    (sessionUser none = none ∧ Local.initial.userIdRef = JsId.null ∧
      (run offlineProvider (onAuthStateChange "INITIAL_SESSION" none) ()
          Local.initial).2.1.loading ≠ Local.initial.loading) := by
  refine ⟨⟨rfl, ?_, ?_⟩, rfl, rfl, ?_⟩
  · intro h; cases h
  · intro h; cases h
  · intro h; cases h

/-- C4.  A `SIGNED_OUT` notification, whatever the prior state (a fetch in
flight included) and the session payload, sets user, profile, session and the
tracked id to null and loading to false, and touches nothing else. -/
theorem onAuthStateChange_signed_out {σ : Type} (P : Provider σ) (p : σ) (s : Local)
    (session : Option Session) :
    run P (onAuthStateChange "SIGNED_OUT" session) p s =
      (p, { s with user := none, userProfile := none, session := none,
                   userIdRef := JsId.null, loading := false }, Except.ok ()) := by
  rfl

/-! ## Storage purge -/

theorem run_removeIfProviderKey {σ : Type} (P : Provider σ) (p : σ) (k : String) (s : Local) :
    run P (removeIfProviderKey k) p s =
      (p, (if isProviderKey k then
            { s with localStorage := s.localStorage.filter (fun kv => kv.1 ≠ k)
                     log := s.log ++ [Event.localStorageRemove k] }
          else s), Except.ok ()) := by
  unfold removeIfProviderKey
  cases isProviderKey k <;> rfl

theorem run_purge_loop {σ : Type} (P : Provider σ) (p : σ) (ks : List String) (s : Local) :
    run P (Prog.forEach ks removeIfProviderKey) p s =
      (p, { s with
              localStorage := s.localStorage.filter
                (fun kv => !(isProviderKey kv.1 && decide (kv.1 ∈ ks)))
              log := s.log ++ (ks.filter isProviderKey).map Event.localStorageRemove },
        Except.ok ()) := by
  induction ks generalizing s with
  | nil =>
    simp [Prog.forEach, run]
  | cons k ks ih =>
    simp only [Prog.forEach, run_bind, run_removeIfProviderKey, andThen_ok]
    rw [ih]
    cases hk : isProviderKey k with
    | true =>
      simp only [if_true, List.filter_filter, List.filter_cons, hk, List.map_cons,
        List.append_assoc, List.singleton_append]
      congr 2
      congr 1
      apply List.filter_congr
      intro kv _
      by_cases h1 : kv.1 = k
      · simp [h1, hk]
      · simp [h1]
    | false =>
      simp only [List.filter_cons, hk]
      congr 2
      congr 1
      apply List.filter_congr
      intro kv _
      by_cases h1 : kv.1 = k
      · simp [h1, hk]
      · simp [h1]

theorem filter_own_keys (l : List (String × String)) :
    l.filter (fun kv => !isProviderKey kv.1 || !decide (kv.1 ∈ l.map Prod.fst)) =
      l.filter (fun kv => !isProviderKey kv.1) := by
  apply List.filter_congr
  intro kv hkv
  have : kv.1 ∈ l.map Prod.fst := List.mem_map_of_mem Prod.fst hkv
  simp [this]

theorem run_purgeLocalStorage {σ : Type} (P : Provider σ) (p : σ) (s : Local) :
    run P purgeLocalStorage p s = (p, purged s, Except.ok ()) := by
  simp only [purgeLocalStorage, run, run_purge_loop, purged]
  congr 2
  congr 1
  apply List.filter_congr
  intro kv hkv
  have : kv.1 ∈ s.localStorage.map Prod.fst := List.mem_map_of_mem Prod.fst hkv
  simp [this]

/-! ## Sign-out -/

theorem run_trackLogout {σ : Type} (P : Provider σ) (p : σ) (user : Option AuthUser)
    (sid : Option String) (s : Local) :
    run P (trackLogout user sid) p s =
      (afterTrackLogout P p user sid, { s with log := s.log ++ trackLogoutEvents user sid },
        Except.ok ()) := by
  unfold trackLogout afterTrackLogout trackLogoutEvents
  cases user with
  | none => simp [run, pure_def]
  | some u =>
    by_cases he : u.email = ""
    · simp [he, run, pure_def]
    · simp [he, run, Prog.fire]

/-- The run of `signOut()` in closed form. -/
theorem run_signOut {σ : Type} (P : Provider σ) (p : σ) (s : Local) :
    run P signOut p s =
      ((P.respond Req.authSignOut
          (afterTrackLogout P p s.user (storageGetItem s.sessionStorage "djangoSessionId"))).1,
        { cleared
            { s with
                loading := true
                log := s.log ++
                  trackLogoutEvents s.user (storageGetItem s.sessionStorage "djangoSessionId") ++
                  [Event.request Req.authSignOut]
                now := s.now + (P.respond Req.authSignOut
                  (afterTrackLogout P p s.user
                    (storageGetItem s.sessionStorage "djangoSessionId"))).2.elapsed }
          with loading := false },
        Except.ok
          { error :=
              match (P.respond Req.authSignOut
                (afterTrackLogout P p s.user
                  (storageGetItem s.sessionStorage "djangoSessionId"))).2.result with
              | Except.ok _ => none
              | Except.error e => some e }) := by
  simp only [signOut, run_tryFinally, run_tryCatch, bind_def, pure_def, run_bind, andThen_ok,
    andThen_error, orElse_ok, orElse_error, andFinally, setLoading,
    setUser, setUserProfile, setSession, setUserIdRef, sessionStorageClear, Prog.update,
    Prog.get, Prog.call, run, run_trackLogout, run_purgeLocalStorage]
  rcases hr : P.respond Req.authSignOut
      (afterTrackLogout P p s.user (storageGetItem s.sessionStorage "djangoSessionId"))
    with ⟨p1, ⟨el, res⟩⟩
  cases res with
  | ok v =>
    simp [run, purgeLocalStorage, run_purge_loop, cleared, purged, filter_own_keys, andThen,
      orElse]
  | error e =>
    simp [run, purgeLocalStorage, run_purge_loop, cleared, purged, filter_own_keys, andThen,
      orElse]

/-- C5.  After `signOut()` resolves, whatever the provider did with the sign-out
call (success, error envelope, rejection), user, profile and session are null,
no local-storage key starts with `sb-` or contains `supabase`, and local
storage is exactly the old one without those keys, so every other key is left
in place. -/
theorem signOut_clears_state_and_storage {σ : Type} (P : Provider σ) (p : σ) (s : Local) :
    (∃ r, (run P signOut p s).2.2 = Except.ok r) ∧
      (run P signOut p s).2.1.user = none ∧
      (run P signOut p s).2.1.userProfile = none ∧
      (run P signOut p s).2.1.session = none ∧
      (∀ kv ∈ (run P signOut p s).2.1.localStorage,
        startsWith kv.1 "sb-" = false ∧ includes kv.1 "supabase" = false) ∧
      (run P signOut p s).2.1.localStorage =
        s.localStorage.filter
          (fun kv => !(startsWith kv.1 "sb-" || includes kv.1 "supabase")) := by
  rw [run_signOut]
  refine ⟨⟨_, rfl⟩, rfl, rfl, rfl, ?_, rfl⟩
  intro kv hkv
  have h1 : kv ∈ s.localStorage.filter (fun kv => !isProviderKey kv.1) := hkv
  have h2 := (List.mem_filter.1 h1).2
  simpa [isProviderKey] using h2

/-- C6.  In every run of `signOut()` the events it records are: at most the
logout-tracking request, then the provider sign-out request, and only after it
the clearing of session storage and the removals from local storage.  No
clearing or removal precedes the provider call. -/
theorem signOut_provider_call_precedes_purge {σ : Type} (P : Provider σ) (p : σ) (s : Local) :
    ∃ pre post,
      (run P signOut p s).2.1.log =
          s.log ++ pre ++ Event.request Req.authSignOut :: Event.sessionStorageClear :: post ∧
        (∀ e ∈ pre, isPurge e = false) ∧
        (∀ e ∈ post, ∃ key, e = Event.localStorageRemove key) ∧
        Event.request Req.authSignOut ∉ pre := by
  rw [run_signOut]
  refine ⟨trackLogoutEvents s.user (storageGetItem s.sessionStorage "djangoSessionId"),
    ((s.localStorage.map Prod.fst).filter isProviderKey).map Event.localStorageRemove,
    ?_, ?_, ?_, ?_⟩
  · simp [cleared, purged]
  · intro e he
    unfold trackLogoutEvents at he
    cases hu : s.user with
    | none => rw [hu] at he; cases he
    | some u =>
      rw [hu] at he
      by_cases hem : u.email = ""
      · simp [hem] at he
      · simp [hem] at he
        subst he
        rfl
  · intro e he
    rcases List.mem_map.1 he with ⟨k, _, hk⟩
    exact ⟨k, hk.symm⟩
  · intro he
    unfold trackLogoutEvents at he
    cases hu : s.user with
    | none => rw [hu] at he; cases he
    | some u =>
      rw [hu] at he
      by_cases hem : u.email = ""
      · simp [hem] at he
      · simp [hem] at he

/-! ## Profile creation and session tracking -/

/-- The run of `createUserProfile(authUser)` in closed form. -/
theorem run_createUserProfile {σ : Type} (P : Provider σ) (p : σ) (s : Local) (u : AuthUser) :
    run P (createUserProfile u) p s =
      ((P.respond (Req.insertProfile (rowFor u s.randoms s.now)) p).1,
        { s with
            randoms := s.randoms.tail
            log := s.log ++ [Event.request (Req.insertProfile (rowFor u s.randoms s.now))]
            now := s.now + (P.respond (Req.insertProfile (rowFor u s.randoms s.now)) p).2.elapsed
            userProfile :=
              match (P.respond (Req.insertProfile (rowFor u s.randoms s.now)) p).2.result with
              | Except.ok ⟨data, none⟩ => data
              | _ => s.userProfile },
        match (P.respond (Req.insertProfile (rowFor u s.randoms s.now)) p).2.result with
        | Except.ok ⟨data, none⟩ => Except.ok data
        | Except.ok ⟨_, some e⟩ => Except.error e
        | Except.error e => Except.error e) := by
  simp only [createUserProfile, run_tryCatch, bind_def, pure_def, run_bind, andThen_ok,
    andThen_error, orElse_ok, orElse_error, generateUsername, Prog.get, Prog.call, run, rowFor,
    nextSuffix]
  rcases hr : P.respond (Req.insertProfile (newProfile u
      (String.mk (u.email.toList.takeWhile fun c => c ≠ '@') ++
        toString (s.randoms.headD 0 % 1000)) s.now)) p
    with ⟨p1, ⟨el, res⟩⟩
  cases res with
  | error e => rfl
  | ok resp =>
    rcases resp with ⟨d, er⟩
    cases er with
    | some e => rfl
    | none => rfl

/-- The run of `trackSession(action, email, sessionId)` in closed form: it
always resolves. -/
theorem run_trackSession {σ : Type} (P : Provider σ) (p : σ) (s : Local)
    (action email : String) (sid : Option String) :
    run P (trackSession action email sid) p s =
      ((P.respond (Req.trackingPost action email sid) p).1,
        { s with
            log := s.log ++ [Event.request (Req.trackingPost action email sid)]
            now := s.now + (P.respond (Req.trackingPost action email sid) p).2.elapsed },
        Except.ok (trackValue (P.respond (Req.trackingPost action email sid) p).2.result)) := by
  simp only [trackSession, run_tryCatch, bind_def, pure_def, run_bind, andThen_ok, andThen_error,
    orElse_ok, orElse_error, Prog.call, run, trackValue]
  rcases hr : P.respond (Req.trackingPost action email sid) p with ⟨p1, ⟨el, res⟩⟩
  cases res with
  | error e => rfl
  | ok resp =>
    rcases resp with ⟨ok, st, js⟩
    cases ok with
    | false => rfl
    | true =>
      cases js with
      | error e => rfl
      | ok d => rfl

/-! ## Which public methods can throw (C7) -/

theorem failureOf_not_success (e : JsError) (r : SignResult)
    (h : failureOf e = Except.ok r) : ¬ r.success = true := by
  unfold failureOf at h
  cases hn : e.nullish
  · rw [hn] at h
    simp only [Bool.false_eq_true, if_false] at h
    injection h with h
    subst h
    simp
  · rw [hn] at h
    simp only [if_true] at h
    cases h

theorem run_failureFrom {σ : Type} (P : Provider σ) (e : JsError) (p : σ) (s : Local) :
    run P (failureFrom e) p s = (p, s, failureOf e) := by
  unfold failureFrom failureOf
  cases e.nullish <;> rfl

/-- A `try / catch` whose handler always completes normally completes normally. -/
theorem run_tryCatch_ok {σ α : Type} (P : Provider σ) (x : Prog α) (h : JsError → Prog α)
    (hh : ∀ e p s, ∃ r, (run P (h e) p s).2.2 = Except.ok r) (p : σ) (s : Local) :
    ∃ r, (run P (x.tryCatch h) p s).2.2 = Except.ok r := by
  rw [run_tryCatch]
  rcases run P x p s with ⟨p1, s1, r⟩
  cases r with
  | ok a => exact ⟨a, rfl⟩
  | error e => exact hh e _ _

/-- The outcome of a `try / finally` whose `finally` block completes normally
is the outcome of its body. -/
theorem run_tryFinally_result {σ α : Type} (P : Provider σ) (x : Prog α) (fin : Prog Unit)
    (hfin : ∀ p s, (run P fin p s).2.2 = Except.ok ()) (p : σ) (s : Local) :
    (run P (x.tryFinally fin) p s).2.2 = (run P x p s).2.2 := by
  rw [run_tryFinally]
  rcases run P x p s with ⟨p1, s1, x1⟩
  have h1 := hfin p1 s1
  rcases hf : run P fin p1 s1 with ⟨p2, s2, y⟩
  rw [hf] at h1
  simp only at h1
  subst h1
  simp only [andFinally, hf]

/-- A body wrapped in the `catch` block of `signUp` and `signIn` returns a
result object, or throws the `TypeError` of reading `error.message`. -/
theorem run_tryCatch_failureFrom {σ : Type} (P : Provider σ) (x : Prog SignResult) (p : σ)
    (s : Local) :
    (∃ r, (run P (x.tryCatch failureFrom) p s).2.2 = Except.ok r) ∨
      (run P (x.tryCatch failureFrom) p s).2.2 = Except.error readOfNullish := by
  rw [run_tryCatch]
  rcases run P x p s with ⟨p1, s1, r⟩
  cases r with
  | ok a => exact Or.inl ⟨a, rfl⟩
  | error e =>
    show (∃ r, (run P (failureFrom e) p1 s1).2.2 = Except.ok r) ∨
      (run P (failureFrom e) p1 s1).2.2 = Except.error readOfNullish
    rw [run_failureFrom]
    unfold failureOf
    cases e.nullish
    · exact Or.inl ⟨_, rfl⟩
    · exact Or.inr rfl

/-- The provider sign-in failed with `e`: in the envelope when `thrown` is
false, as a rejection when it is true. -/
theorem run_signIn_auth_failed {σ : Type} (P : Provider σ) (p pA : σ) (s : Local)
    (email password : String) (data : AuthData) (e : JsError) (elA : Int) (thrown : Bool)
    (hA : P.respond (Req.authSignInWithPassword email password) p =
      (pA, ⟨elA, if thrown then Except.error e else Except.ok { data := data, error := some e }⟩)) :
    run P (signIn email password) p s =
      (pA,
        { s with
            loading := false
            log := s.log ++ [Event.request (Req.authSignInWithPassword email password)]
            now := s.now + elA },
        failureOf e) := by
  cases thrown <;>
  simp only [signIn, run_tryFinally, run_tryCatch, bind_def, pure_def, run_bind, setLoading,
    run_update, run_call, run_failureFrom, run_pure, run_throw, andThen_ok, andThen_error, orElse_ok,
    orElse_error, andFinally_mk, hA, if_true, if_false, Bool.false_eq_true]

/-- The provider sign-in succeeded without a user. -/
theorem run_signIn_no_user {σ : Type} (P : Provider σ) (p pA : σ) (s : Local)
    (email password : String) (sess : Option Session) (elA : Int)
    (hA : P.respond (Req.authSignInWithPassword email password) p =
      (pA, ⟨elA, Except.ok { data := { user := none, session := sess }, error := none }⟩)) :
    run P (signIn email password) p s =
      (pA,
        { s with
            loading := false
            log := s.log ++ [Event.request (Req.authSignInWithPassword email password)]
            now := s.now + elA },
        Except.ok { success := true, data := some { user := none, session := sess },
                    error := none }) := by
  simp only [signIn, run_tryFinally, run_tryCatch, bind_def, pure_def, run_bind, setLoading,
    run_update, run_call, run_pure, run_throw, andThen_ok, andThen_error, orElse_ok,
    orElse_error, andFinally_mk, hA]

/-! ## Sign-up: the ways a provider sign-up can go -/

/-- The provider sign-up failed with `e`: in the envelope when `thrown` is
false, as a rejection when it is true. -/
theorem run_signUp_auth_failed {σ : Type} (P : Provider σ) (p pA : σ) (s : Local)
    (email password : String) (data : AuthData) (e : JsError) (elA : Int) (thrown : Bool)
    (hA : P.respond (Req.authSignUp email password (s.origin ++ "/dashboard")) p =
      (pA, ⟨elA, if thrown then Except.error e else Except.ok { data := data, error := some e }⟩)) :
    run P (signUp email password) p s =
      (pA,
        { s with
            loading := false
            log := s.log ++
              [Event.request (Req.authSignUp email password (s.origin ++ "/dashboard"))]
            now := s.now + elA },
        failureOf e) := by
  cases thrown <;>
  simp only [signUp, run_tryFinally, run_tryCatch, bind_def, pure_def, run_bind, setLoading,
    run_update, run_call, run_failureFrom, run_pure, run_throw, run_read, Prog.get, andThen_ok, andThen_error,
    orElse_ok, orElse_error, andFinally_mk, hA, if_true, if_false, Bool.false_eq_true]

/-- The provider sign-up succeeded without a user. -/
theorem run_signUp_no_user {σ : Type} (P : Provider σ) (p pA : σ) (s : Local)
    (email password : String) (sess : Option Session) (elA : Int)
    (hA : P.respond (Req.authSignUp email password (s.origin ++ "/dashboard")) p =
      (pA, ⟨elA, Except.ok { data := { user := none, session := sess }, error := none }⟩)) :
    run P (signUp email password) p s =
      (pA,
        { s with
            loading := false
            log := s.log ++
              [Event.request (Req.authSignUp email password (s.origin ++ "/dashboard"))]
            now := s.now + elA },
        Except.ok { success := true, data := some { user := none, session := sess },
                    error := none }) := by
  simp only [signUp, run_tryFinally, run_tryCatch, bind_def, pure_def, run_bind, setLoading,
    run_update, run_call, run_pure, run_throw, run_read, Prog.get, andThen_ok, andThen_error,
    orElse_ok, orElse_error, andFinally_mk, hA]

/-- The provider sign-up returned the user `u` and the insert of the new row
succeeded. -/
theorem run_signUp_created {σ : Type} (P : Provider σ) (p pA pC : σ) (s : Local)
    (email password : String) (u : AuthUser) (sess : Option Session) (data : Option Profile)
    (elA elC : Int)
    (hA : P.respond (Req.authSignUp email password (s.origin ++ "/dashboard")) p =
      (pA, ⟨elA, Except.ok { data := { user := some u, session := sess }, error := none }⟩))
    (hC : P.respond (Req.insertProfile (rowFor u s.randoms (s.now + elA))) pA =
      (pC, ⟨elC, Except.ok { data := data, error := none }⟩)) :
    run P (signUp email password) p s =
      (pC,
        { s with
            loading := false
            userProfile := data
            randoms := s.randoms.tail
            log := s.log ++
              [Event.request (Req.authSignUp email password (s.origin ++ "/dashboard")),
                Event.request (Req.insertProfile (rowFor u s.randoms (s.now + elA)))]
            now := s.now + elA + elC },
        Except.ok { success := true, data := some { user := some u, session := sess },
                    error := none }) := by
  simp only [signUp, run_tryFinally, run_tryCatch, bind_def, pure_def, run_bind, setLoading,
    run_update, run_call, run_pure, run_throw, run_read, Prog.get, andThen_ok, andThen_error,
    orElse_ok, orElse_error, andFinally_mk, hA, hC, run_createUserProfile, List.append_assoc,
    List.singleton_append]

/-- The provider sign-up returned the user `u` and the insert failed with `e`. -/
theorem run_signUp_create_failed {σ : Type} (P : Provider σ) (p pA pC : σ) (s : Local)
    (email password : String) (u : AuthUser) (sess : Option Session) (data : Option Profile)
    (e : JsError) (elA elC : Int) (thrown : Bool)
    (hA : P.respond (Req.authSignUp email password (s.origin ++ "/dashboard")) p =
      (pA, ⟨elA, Except.ok { data := { user := some u, session := sess }, error := none }⟩))
    (hC : P.respond (Req.insertProfile (rowFor u s.randoms (s.now + elA))) pA =
      (pC, ⟨elC, if thrown then Except.error e
        else Except.ok { data := data, error := some e }⟩)) :
    run P (signUp email password) p s =
      (pC,
        { s with
            loading := false
            randoms := s.randoms.tail
            log := s.log ++
              [Event.request (Req.authSignUp email password (s.origin ++ "/dashboard")),
                Event.request (Req.insertProfile (rowFor u s.randoms (s.now + elA)))]
            now := s.now + elA + elC },
        failureOf e) := by
  cases thrown <;>
  simp only [signUp, run_tryFinally, run_tryCatch, bind_def, pure_def, run_bind, setLoading,
    run_update, run_call, run_failureFrom, run_pure, run_throw, run_read, Prog.get, andThen_ok, andThen_error,
    orElse_ok, orElse_error, andFinally_mk, hA, hC, run_createUserProfile, List.append_assoc,
    List.singleton_append, if_true, if_false, Bool.false_eq_true]

/-! ## Sign-in and the profile row (C8) -/

theorem run_storeDjangoSessionId {σ : Type} (P : Provider σ) (p : σ) (s : Local)
    (d : Option TrackData) :
    run P (storeDjangoSessionId d) p s = (p, withDjangoSessionId d s, Except.ok ()) := by
  unfold storeDjangoSessionId withDjangoSessionId
  cases d with
  | none => rfl
  | some d =>
    rcases d with ⟨sid⟩
    cases sid with
    | none => rfl
    | some v =>
      by_cases hv : v = ""
      · simp only [hv, ne_eq, not_true_eq_false, if_false]; rfl
      · simp only [hv, ne_eq, not_false_eq_true, if_true]; rfl

/-! ## Sign-in: the four ways a provider sign-in that returns a user can go -/

/-- Sign-in succeeded with user `u`, the existence query was rejected. -/
theorem run_signIn_select_rejected {σ : Type} (P : Provider σ) (p pA pB : σ) (s : Local)
    (email password : String) (u : AuthUser) (sess : Option Session) (e : JsError)
    (elA elB : Int)
    (hA : P.respond (Req.authSignInWithPassword email password) p =
      (pA, ⟨elA, Except.ok { data := { user := some u, session := sess }, error := none }⟩))
    (hB : P.respond (Req.selectProfile u.id) pA = (pB, ⟨elB, Except.error e⟩)) :
    run P (signIn email password) p s =
      (pB,
        { s with
            loading := false
            log := s.log ++ [Event.request (Req.authSignInWithPassword email password),
              Event.request (Req.selectProfile u.id)]
            now := s.now + elA + elB },
        failureOf e) := by
  simp only [signIn, run_tryFinally, run_tryCatch, bind_def, pure_def, run_bind, setLoading,
    run_update, run_call, run_failureFrom, run_pure, run_throw, andThen_ok, andThen_error, orElse_ok,
    orElse_error, andFinally_mk, hA, hB, List.append_assoc, List.singleton_append]

/-- Sign-in succeeded with user `u`, the existence query returned a row. -/
theorem run_signIn_existing {σ : Type} (P : Provider σ) (p pA pB : σ) (s : Local)
    (email password : String) (u : AuthUser) (sess : Option Session) (row : Profile)
    (er : Option JsError) (elA elB : Int)
    (hA : P.respond (Req.authSignInWithPassword email password) p =
      (pA, ⟨elA, Except.ok { data := { user := some u, session := sess }, error := none }⟩))
    (hB : P.respond (Req.selectProfile u.id) pA =
      (pB, ⟨elB, Except.ok { data := some row, error := er }⟩)) :
    run P (signIn email password) p s =
      ((P.respond (Req.trackingPost "login" u.email none) pB).1,
        { withDjangoSessionId
            (trackValue (P.respond (Req.trackingPost "login" u.email none) pB).2.result)
            { s with
                loading := true
                sessionStorage := ("authSessionActive", "true") ::
                  s.sessionStorage.filter (fun kv => kv.1 ≠ "authSessionActive")
                log := s.log ++ [Event.request (Req.authSignInWithPassword email password),
                  Event.request (Req.selectProfile u.id),
                  Event.sessionStorageSet "authSessionActive" "true",
                  Event.request (Req.trackingPost "login" u.email none)]
                now := s.now + elA + elB +
                  (P.respond (Req.trackingPost "login" u.email none) pB).2.elapsed }
          with loading := false },
        Except.ok { success := true, data := some { user := some u, session := sess },
                    error := none }) := by
  simp only [signIn, run_tryFinally, run_tryCatch, bind_def, pure_def, run_bind, setLoading,
    run_update, run_call, run_pure, run_throw, andThen_ok, andThen_error, orElse_ok,
    orElse_error, andFinally_mk, hA, hB, List.append_assoc, List.singleton_append,
    run_trackSession, run_storeDjangoSessionId, sessionStorageSetItem, List.cons_append,
    List.nil_append]

/-- Sign-in succeeded with user `u`, the existence query returned no row, and
the insert of the new row succeeded. -/
theorem run_signIn_created {σ : Type} (P : Provider σ) (p pA pB pC : σ) (s : Local)
    (email password : String) (u : AuthUser) (sess : Option Session) (data : Option Profile)
    (er : Option JsError) (elA elB elC : Int)
    (hA : P.respond (Req.authSignInWithPassword email password) p =
      (pA, ⟨elA, Except.ok { data := { user := some u, session := sess }, error := none }⟩))
    (hB : P.respond (Req.selectProfile u.id) pA =
      (pB, ⟨elB, Except.ok { data := none, error := er }⟩))
    (hC : P.respond (Req.insertProfile (rowFor u s.randoms (s.now + elA + elB))) pB =
      (pC, ⟨elC, Except.ok { data := data, error := none }⟩)) :
    run P (signIn email password) p s =
      ((P.respond (Req.trackingPost "login" u.email none) pC).1,
        { withDjangoSessionId
            (trackValue (P.respond (Req.trackingPost "login" u.email none) pC).2.result)
            { s with
                loading := true
                userProfile := data
                randoms := s.randoms.tail
                sessionStorage := ("authSessionActive", "true") ::
                  s.sessionStorage.filter (fun kv => kv.1 ≠ "authSessionActive")
                log := s.log ++ [Event.request (Req.authSignInWithPassword email password),
                  Event.request (Req.selectProfile u.id),
                  Event.request (Req.insertProfile (rowFor u s.randoms (s.now + elA + elB))),
                  Event.sessionStorageSet "authSessionActive" "true",
                  Event.request (Req.trackingPost "login" u.email none)]
                now := s.now + elA + elB + elC +
                  (P.respond (Req.trackingPost "login" u.email none) pC).2.elapsed }
          with loading := false },
        Except.ok { success := true, data := some { user := some u, session := sess },
                    error := none }) := by
  simp only [signIn, run_tryFinally, run_tryCatch, bind_def, pure_def, run_bind, setLoading,
    run_update, run_call, run_pure, run_throw, andThen_ok, andThen_error, orElse_ok,
    orElse_error, andFinally_mk, hA, hB, hC, List.append_assoc, List.singleton_append,
    run_trackSession, run_storeDjangoSessionId, run_createUserProfile, sessionStorageSetItem,
    List.cons_append, List.nil_append]

/-- Sign-in succeeded with user `u`, the existence query returned no row, and
the insert failed with the error `e` (in the envelope when `thrown` is false,
as a rejection when it is true). -/
theorem run_signIn_create_failed {σ : Type} (P : Provider σ) (p pA pB pC : σ) (s : Local)
    (email password : String) (u : AuthUser) (sess : Option Session) (data : Option Profile)
    (er : Option JsError) (e : JsError) (elA elB elC : Int) (thrown : Bool)
    (hA : P.respond (Req.authSignInWithPassword email password) p =
      (pA, ⟨elA, Except.ok { data := { user := some u, session := sess }, error := none }⟩))
    (hB : P.respond (Req.selectProfile u.id) pA =
      (pB, ⟨elB, Except.ok { data := none, error := er }⟩))
    (hC : P.respond (Req.insertProfile (rowFor u s.randoms (s.now + elA + elB))) pB =
      (pC, ⟨elC, if thrown then Except.error e
        else Except.ok { data := data, error := some e }⟩)) :
    run P (signIn email password) p s =
      (pC,
        { s with
            loading := false
            randoms := s.randoms.tail
            log := s.log ++ [Event.request (Req.authSignInWithPassword email password),
              Event.request (Req.selectProfile u.id),
              Event.request (Req.insertProfile (rowFor u s.randoms (s.now + elA + elB)))]
            now := s.now + elA + elB + elC },
        failureOf e) := by
  cases thrown <;>
  simp only [signIn, run_tryFinally, run_tryCatch, bind_def, pure_def, run_bind, setLoading,
    run_update, run_call, run_failureFrom, run_pure, run_throw, andThen_ok, andThen_error, orElse_ok,
    orElse_error, andFinally_mk, hA, hB, hC, List.append_assoc, List.singleton_append,
    run_createUserProfile, List.cons_append, List.nil_append, if_true, if_false,
    Bool.false_eq_true]

/-- C7, as amended.  Whatever the provider and the REST backend answer,
`signOut` and `updateProfile` complete with a result object and never throw,
and `updateProfile` with no signed-in user returns `{ data: null, error }`
leaving state, request log and provider as they were.  `signUp` and `signIn`
complete with a result object, or throw the `TypeError` that reading
`error.message` in their `catch` block raises when the caught value is `null`
or `undefined`: when the provider promise rejects with an error object they
return `{ success: false, data: null, error: e.message }`, and when it rejects
with `null` or `undefined` they reject with that `TypeError`. -/
theorem public_methods_throw_only_on_nullish {σ : Type} (P : Provider σ) (p : σ) (s : Local)
    (email password : String) (updates : ProfileUpdates) :
    (∃ r, (run P signOut p s).2.2 = Except.ok r) ∧
      (∃ r, (run P (updateProfile updates) p s).2.2 = Except.ok r) ∧
      run P (updateProfile updates) p { s with user := none } =
        (p, { s with user := none },
          Except.ok { data := none, error := some ⟨"Error", "No user logged in", false⟩ }) ∧
      ((∃ r, (run P (signUp email password) p s).2.2 = Except.ok r) ∨
        (run P (signUp email password) p s).2.2 = Except.error readOfNullish) ∧
      ((∃ r, (run P (signIn email password) p s).2.2 = Except.ok r) ∨
        (run P (signIn email password) p s).2.2 = Except.error readOfNullish) ∧
      (∀ e, (P.respond (Req.authSignUp email password (s.origin ++ "/dashboard")) p).2.result =
          Except.error e →
        (e.nullish = false →
          (run P (signUp email password) p s).2.2 =
            Except.ok { success := false, data := none, error := some e.message }) ∧
        (e.nullish = true →
          (run P (signUp email password) p s).2.2 = Except.error readOfNullish)) ∧
      (∀ e, (P.respond (Req.authSignInWithPassword email password) p).2.result =
          Except.error e →
        (e.nullish = false →
          (run P (signIn email password) p s).2.2 =
            Except.ok { success := false, data := none, error := some e.message }) ∧
        (e.nullish = true →
          (run P (signIn email password) p s).2.2 = Except.error readOfNullish)) := by
  refine ⟨?_, ?_, rfl, ?_, ?_, ?_, ?_⟩
  · rw [run_signOut]
    exact ⟨_, rfl⟩
  · unfold updateProfile
    apply run_tryCatch_ok
    intro e _ _
    exact ⟨{ data := none, error := some e }, rfl⟩
  · unfold signUp
    rw [run_tryFinally_result P _ (setLoading false) (fun _ _ => rfl)]
    exact run_tryCatch_failureFrom P _ p s
  · unfold signIn
    rw [run_tryFinally_result P _ (setLoading false) (fun _ _ => rfl)]
    exact run_tryCatch_failureFrom P _ p s
  · intro e he
    rcases hA : P.respond (Req.authSignUp email password (s.origin ++ "/dashboard")) p
      with ⟨pA, ⟨elA, resA⟩⟩
    rw [hA] at he
    simp only at he
    subst he
    rw [run_signUp_auth_failed P p pA s email password ⟨none, none⟩ e elA true (by rw [hA]; rfl)]
    constructor
    · intro hn
      show failureOf e = _
      unfold failureOf
      rw [hn]
      rfl
    · intro hn
      show failureOf e = _
      unfold failureOf
      rw [hn]
      rfl
  · intro e he
    rcases hA : P.respond (Req.authSignInWithPassword email password) p with ⟨pA, ⟨elA, resA⟩⟩
    rw [hA] at he
    simp only at he
    subst he
    rw [run_signIn_auth_failed P p pA s email password ⟨none, none⟩ e elA true (by rw [hA]; rfl)]
    constructor
    · intro hn
      show failureOf e = _
      unfold failureOf
      rw [hn]
      rfl
    · intro hn
      show failureOf e = _
      unfold failureOf
      rw [hn]
      rfl

/-- C7, witness: against a provider that cannot be reached, whose promises
reject with an error object, `signIn` returns the failure object with the
message of that error. -/
theorem public_methods_throw_only_on_nullish_witness :
    (run offlineProvider (signIn "a@b.c" "pw") () Local.initial).2.2 =
      Except.ok { success := false, data := none, error := some "Failed to fetch" } :=
  ((public_methods_throw_only_on_nullish offlineProvider () Local.initial "a@b.c" "pw"
    renameUpdates).2.2.2.2.2.2 ⟨"TypeError", "Failed to fetch", false⟩ rfl).1 rfl

/-- C7, as stated, fails for `signIn` and `signUp`.  When the provider promise
rejects with `null`, the `catch` block reads `error.message` of `null`, which
throws a `TypeError`; the `finally` block still sets loading to false, and the
call rejects with that `TypeError` instead of returning a result object. -/
theorem signIn_signUp_reject_when_null_is_thrown :
    (run nullRejectingProvider (signIn "a@b.c" "pw") () Local.initial).2.2 =
        Except.error readOfNullish ∧
      (run nullRejectingProvider (signIn "a@b.c" "pw") () Local.initial).2.1.loading = false ∧
      (run nullRejectingProvider (signUp "a@b.c" "pw") () Local.initial).2.2 =
        Except.error readOfNullish ∧
      (run nullRejectingProvider (signUp "a@b.c" "pw") () Local.initial).2.1.loading = false := by
  refine ⟨by rfl, by rfl, by rfl, by rfl⟩

/-! ## Sign-in and the profile row (C8) -/

theorem newRequests_of_log (s t : Local) (l : List Event) (h : t.log = s.log ++ l) :
    newRequests s t = requestsOf l := by
  unfold newRequests
  rw [h, List.drop_left]

theorem withDjangoSessionId_log_append (d : Option TrackData) (s : Local) :
    ∃ extra, (withDjangoSessionId d s).log = s.log ++ extra ∧ requestsOf extra = [] := by
  unfold withDjangoSessionId
  cases d with
  | none => exact ⟨[], by simp, rfl⟩
  | some d =>
    rcases d with ⟨sid⟩
    cases sid with
    | none => exact ⟨[], by simp, rfl⟩
    | some v =>
      by_cases hv : v = ""
      · exact ⟨[], by simp [hv], rfl⟩
      · exact ⟨[Event.sessionStorageSet "djangoSessionId" v], by simp [hv], rfl⟩

theorem requestsOf_append (l1 l2 : List Event) :
    requestsOf (l1 ++ l2) = requestsOf l1 ++ requestsOf l2 := by
  simp [requestsOf, List.filterMap_append]

theorem newRequests_tracked (s t : Local) (d : Option TrackData) (l : List Event) (b : Bool)
    (h : t.log = s.log ++ l) :
    newRequests s { withDjangoSessionId d t with loading := b } = requestsOf l := by
  rcases withDjangoSessionId_log_append d t with ⟨extra, h1, h2⟩
  have h3 : ({ withDjangoSessionId d t with loading := b } : Local).log = s.log ++ (l ++ extra) := by
    show (withDjangoSessionId d t).log = _
    rw [h1, h, List.append_assoc]
  rw [newRequests_of_log s _ _ h3, requestsOf_append, h2, List.append_nil]

/-- After a provider sign-in that returned the user `u`, `signIn` requests an
insert exactly when the existence query resolved with `data` null, and the row
it then sends is the one built from `u`. -/
theorem signIn_insert_requested_iff {σ : Type} (P : Provider σ) (p pA pB : σ) (s : Local)
    (email password : String) (u : AuthUser) (sess : Option Session) (elA elB : Int)
    (ansB : Except JsError RowResp)
    (hA : P.respond (Req.authSignInWithPassword email password) p =
      (pA, ⟨elA, Except.ok { data := { user := some u, session := sess }, error := none }⟩))
    (hB : P.respond (Req.selectProfile u.id) pA = (pB, ⟨elB, ansB⟩)) :
    ((∃ row, Req.insertProfile row ∈ newRequests s (run P (signIn email password) p s).2.1) ↔
        ∃ er, ansB = Except.ok { data := none, error := er }) ∧
      ∀ row, Req.insertProfile row ∈ newRequests s (run P (signIn email password) p s).2.1 →
        row = rowFor u s.randoms (s.now + elA + elB) := by
  cases ansB with
  | error e =>
    rw [run_signIn_select_rejected P p pA pB s email password u sess e elA elB hA hB]
    rw [newRequests_of_log s _ [Event.request (Req.authSignInWithPassword email password),
      Event.request (Req.selectProfile u.id)] rfl]
    simp [requestsOf]
  | ok resp =>
    rcases resp with ⟨d, er⟩
    cases d with
    | some row0 =>
      rw [run_signIn_existing P p pA pB s email password u sess row0 er elA elB hA hB]
      rw [newRequests_tracked s _ _ [Event.request (Req.authSignInWithPassword email password),
        Event.request (Req.selectProfile u.id),
        Event.sessionStorageSet "authSessionActive" "true",
        Event.request (Req.trackingPost "login" u.email none)] false rfl]
      simp [requestsOf]
    | none =>
      rcases hC : P.respond (Req.insertProfile (rowFor u s.randoms (s.now + elA + elB))) pB
        with ⟨pC, ⟨elC, resC⟩⟩
      have key : ∃ rest, newRequests s (run P (signIn email password) p s).2.1 =
          Req.authSignInWithPassword email password :: Req.selectProfile u.id ::
            Req.insertProfile (rowFor u s.randoms (s.now + elA + elB)) :: rest ∧
          (rest = [] ∨ rest = [Req.trackingPost "login" u.email none]) := by
        cases resC with
        | error e =>
          rw [run_signIn_create_failed P p pA pB pC s email password u sess none er e elA elB elC
            true hA hB (by rw [hC]; rfl)]
          rw [newRequests_of_log s _ [Event.request (Req.authSignInWithPassword email password),
            Event.request (Req.selectProfile u.id),
            Event.request (Req.insertProfile (rowFor u s.randoms (s.now + elA + elB)))] rfl]
          exact ⟨[], rfl, Or.inl rfl⟩
        | ok respC =>
          rcases respC with ⟨dataC, erC⟩
          cases erC with
          | some e =>
            rw [run_signIn_create_failed P p pA pB pC s email password u sess dataC er e elA elB
              elC false hA hB (by rw [hC]; rfl)]
            rw [newRequests_of_log s _ [Event.request (Req.authSignInWithPassword email password),
              Event.request (Req.selectProfile u.id),
              Event.request (Req.insertProfile (rowFor u s.randoms (s.now + elA + elB)))] rfl]
            exact ⟨[], rfl, Or.inl rfl⟩
          | none =>
            rw [run_signIn_created P p pA pB pC s email password u sess dataC er elA elB elC
              hA hB hC]
            rw [newRequests_tracked s _ _ [Event.request (Req.authSignInWithPassword email password),
              Event.request (Req.selectProfile u.id),
              Event.request (Req.insertProfile (rowFor u s.randoms (s.now + elA + elB))),
              Event.sessionStorageSet "authSessionActive" "true",
              Event.request (Req.trackingPost "login" u.email none)] false rfl]
            exact ⟨[Req.trackingPost "login" u.email none], rfl, Or.inr rfl⟩
      rcases key with ⟨rest, hk, hrest⟩
      rw [hk]
      constructor
      · constructor
        · intro _; exact ⟨er, rfl⟩
        · intro _; exact ⟨rowFor u s.randoms (s.now + elA + elB), by simp⟩
      · intro row hrow
        rcases hrest with h0 | h0 <;> subst h0 <;> simpa using hrow

/-! ## The table-backed provider -/

theorem filter_id_of_nodup (T : List Profile) (id : String)
    (h : (T.map Profile.id).Nodup) :
    T.filter (fun row => row.id = id) = [] ∨ ∃ row, T.filter (fun row => row.id = id) = [row] := by
  induction T with
  | nil => exact Or.inl rfl
  | cons r T ih =>
    rw [List.map_cons, List.nodup_cons] at h
    by_cases hr : r.id = id
    · right
      refine ⟨r, ?_⟩
      have hnot : T.filter (fun row => row.id = id) = [] := by
        rw [List.filter_eq_nil_iff]
        intro x hx hxid
        have hxid1 : x.id = id := by simpa using hxid
        exact h.1 (by rw [hr, ← hxid1]; exact List.mem_map_of_mem Profile.id hx)
      simp [List.filter_cons, hr, hnot]
    · have := ih h.2
      simpa [List.filter_cons, hr] using this

theorem tableSelect_data_none_iff (T : List Profile) (id : String)
    (h : (T.map Profile.id).Nodup) :
    (tableSelect T id).2.data = none ↔ ∀ row ∈ T, row.id ≠ id := by
  unfold tableSelect
  rcases filter_id_of_nodup T id h with h0 | ⟨row, h1⟩
  · rw [h0]
    simp only [true_iff]
    intro row hrow hid
    have : row ∈ T.filter (fun row => row.id = id) := List.mem_filter.2 ⟨hrow, by simpa using hid⟩
    rw [h0] at this
    cases this
  · rw [h1]
    simp only [false_iff, reduceCtorEq]
    intro hall
    have hmem : row ∈ T.filter (fun row => row.id = id) := by rw [h1]; exact List.mem_singleton_self row
    have := List.mem_filter.1 hmem
    exact hall row this.1 (by simpa using this.2)

theorem tableSelect_table (T : List Profile) (id : String) : (tableSelect T id).1 = T := by
  unfold tableSelect
  split <;> rfl

theorem rowResp_data_none_iff (x : RowResp) :
    (∃ er, (Except.ok x : Except JsError RowResp) = Except.ok { data := none, error := er }) ↔
      x.data = none := by
  rcases x with ⟨d, er⟩
  constructor
  · rintro ⟨er1, h⟩
    injection h with h
    injection h with h1 h2
  · intro h
    simp only at h
    subst h
    exact ⟨er, rfl⟩

/-- C8, as amended.  After a provider sign-in that returned the user `u`,
against a table keyed by `id`: `signIn` requests an insert exactly when the
existence query resolves with no row, that is, when the query is answered
from the table and no row with `u.id` exists, or when it is answered with an
error envelope; when the query is rejected, or returns the row, no insert is
requested.  A requested insert carries `id = u.id` and `email = u.email`. -/
theorem signIn_creates_profile_iff_no_row_returned {τ : Type} (Q : Provider τ) (b : Backend τ)
    (s : Local) (email password : String) (u : AuthUser) (sess : Option Session) (qA : τ)
    (elA : Int)
    (hA : Q.respond (Req.authSignInWithPassword email password) b.services =
      (qA, ⟨elA, Except.ok { data := { user := some u, session := sess }, error := none }⟩))
    (hkey : (b.table.map Profile.id).Nodup) :
    ((∃ row, Req.insertProfile row ∈
          newRequests s (run (tableProvider Q) (signIn email password) b s).2.1) ↔
        match b.faults.head? with
        | some (some (Fault.reject _)) => False
        | some (some (Fault.envelope _)) => True
        | _ => ∀ row ∈ b.table, row.id ≠ u.id) ∧
      ∀ row, Req.insertProfile row ∈
          newRequests s (run (tableProvider Q) (signIn email password) b s).2.1 →
        row.id = u.id ∧ row.email = u.email := by
  have hA1 : (tableProvider Q).respond (Req.authSignInWithPassword email password) b =
      ({ b with services := qA },
        ⟨elA, Except.ok { data := { user := some u, session := sess }, error := none }⟩) := by
    show ({ b with services := (Q.respond _ b.services).1 }, (Q.respond _ b.services).2) = _
    rw [hA]
  have hB1 : (tableProvider Q).respond (Req.selectProfile u.id) { b with services := qA } =
      ((rowAnswer { b with services := qA } fun t => tableSelect t u.id).1,
        ⟨(rowAnswer { b with services := qA } fun t => tableSelect t u.id).2.1,
          (rowAnswer { b with services := qA } fun t => tableSelect t u.id).2.2⟩) := rfl
  have main := signIn_insert_requested_iff (tableProvider Q) b _ _ s email password u sess elA _ _
    hA1 hB1
  refine ⟨main.1.trans ?_, ?_⟩
  · unfold rowAnswer
    cases hf : b.faults with
    | nil =>
      simp only [List.head?_nil]
      rw [rowResp_data_none_iff]
      exact tableSelect_data_none_iff b.table u.id hkey
    | cons f rest =>
      cases f with
      | none =>
        simp only [List.head?_cons]
        rw [rowResp_data_none_iff]
        exact tableSelect_data_none_iff b.table u.id hkey
      | some f =>
        cases f with
        | envelope e =>
          simp only [List.head?_cons, iff_true]
          exact ⟨some e, rfl⟩
        | reject e =>
          simp only [List.head?_cons, iff_false]
          rintro ⟨er, h⟩
          cases h
  · intro row hrow
    have := main.2 row hrow
    subst this
    exact ⟨rfl, rfl⟩

/-- C8, witness: `u1` signs in against an empty table; the insert is requested. -/
theorem signIn_creates_profile_iff_no_row_returned_witness :
    ((∃ row, Req.insertProfile row ∈
          newRequests Local.initial
            (run (tableProvider (constantServices authOkU1 trackOk)) (signIn "new@x.y" "pw")
              emptyBackend Local.initial).2.1) ↔
        match emptyBackend.faults.head? with
        | some (some (Fault.reject _)) => False
        | some (some (Fault.envelope _)) => True
        | _ => ∀ row ∈ emptyBackend.table, row.id ≠ "u1") ∧
      ∀ row, Req.insertProfile row ∈
          newRequests Local.initial
            (run (tableProvider (constantServices authOkU1 trackOk)) (signIn "new@x.y" "pw")
              emptyBackend Local.initial).2.1 →
        row.id = "u1" ∧ row.email = "new@x.y" :=
  signIn_creates_profile_iff_no_row_returned (constantServices authOkU1 trackOk) emptyBackend
    Local.initial "new@x.y" "pw" ⟨"u1", "new@x.y"⟩ (some ⟨some ⟨"u1", "new@x.y"⟩, "tok"⟩) () 0 rfl
    (by decide)

/-- C8, as stated, fails: the row of `u1` exists, the existence query comes
back with an error envelope, and `signIn` requests an insert all the same. -/
theorem signIn_inserts_although_row_exists :
    (∃ row ∈ flakyBackendU1.table, row.id = "u1") ∧
      Req.insertProfile (rowFor ⟨"u1", "new@x.y"⟩ [] 0) ∈
        newRequests Local.initial
          (run (tableProvider (constantServices authOkU1 trackOk)) (signIn "new@x.y" "pw")
            flakyBackendU1 Local.initial).2.1 := by
  refine ⟨⟨rowU1, List.mem_singleton_self _, rfl⟩, ?_⟩
  have h : newRequests Local.initial
      (run (tableProvider (constantServices authOkU1 trackOk)) (signIn "new@x.y" "pw")
        flakyBackendU1 Local.initial).2.1 =
      [Req.authSignInWithPassword "new@x.y" "pw", Req.selectProfile "u1",
        Req.insertProfile (rowFor ⟨"u1", "new@x.y"⟩ [] 0)] := by
    rfl
  rw [h]
  simp

/-! ## One profile row per identity (C9) -/

/-- A `signIn` that reports success with the user `u` went one of two ways:
the existence query returned a row, or it returned none and the insert of the
row built from `u` succeeded. -/
theorem signIn_success_cases {σ : Type} (P : Provider σ) (p : σ) (s : Local)
    (email password : String) (u : AuthUser) (data : AuthData) (r : SignResult)
    (hr : (run P (signIn email password) p s).2.2 = Except.ok r) (hs : r.success = true)
    (hd : r.data = some data) (hu : data.user = some u) :
    ∃ pA elA sess pB elB,
      P.respond (Req.authSignInWithPassword email password) p =
          (pA, ⟨elA, Except.ok { data := { user := some u, session := sess }, error := none }⟩) ∧
        ((∃ row er,
            P.respond (Req.selectProfile u.id) pA =
                (pB, ⟨elB, Except.ok { data := some row, error := er }⟩) ∧
              (run P (signIn email password) p s).1 =
                (P.respond (Req.trackingPost "login" u.email none) pB).1) ∨
          ∃ er pC elC dataC,
            P.respond (Req.selectProfile u.id) pA =
                (pB, ⟨elB, Except.ok { data := none, error := er }⟩) ∧
              P.respond (Req.insertProfile (rowFor u s.randoms (s.now + elA + elB))) pB =
                (pC, ⟨elC, Except.ok { data := dataC, error := none }⟩) ∧
              (run P (signIn email password) p s).1 =
                (P.respond (Req.trackingPost "login" u.email none) pC).1) := by
  rcases hA : P.respond (Req.authSignInWithPassword email password) p with ⟨pA, ⟨elA, resA⟩⟩
  cases resA with
  | error e =>
    rw [run_signIn_auth_failed P p pA s email password ⟨none, none⟩ e elA true (by rw [hA]; rfl)]
      at hr
    exact absurd hs (failureOf_not_success _ _ hr)
  | ok respA =>
    rcases respA with ⟨dataA, erA⟩
    cases erA with
    | some e =>
      rw [run_signIn_auth_failed P p pA s email password dataA e elA false (by rw [hA]; rfl)]
        at hr
      exact absurd hs (failureOf_not_success _ _ hr)
    | none =>
      rcases dataA with ⟨userA, sess⟩
      cases userA with
      | none =>
        rw [run_signIn_no_user P p pA s email password sess elA hA] at hr
        injection hr with hr
        subst hr
        injection hd with hd
        subst hd
        cases hu
      | some u1 =>
        rcases hB : P.respond (Req.selectProfile u1.id) pA with ⟨pB, ⟨elB, resB⟩⟩
        cases resB with
        | error e =>
          rw [run_signIn_select_rejected P p pA pB s email password u1 sess e elA elB hA hB] at hr
          exact absurd hs (failureOf_not_success _ _ hr)
        | ok respB =>
          rcases respB with ⟨dB, erB⟩
          cases dB with
          | some row =>
            have hrun := run_signIn_existing P p pA pB s email password u1 sess row erB elA elB
              hA hB
            rw [hrun] at hr
            injection hr with hr
            subst hr
            injection hd with hd
            subst hd
            injection hu with hu
            subst hu
            refine ⟨pA, elA, sess, pB, elB, rfl, Or.inl ⟨row, erB, hB, ?_⟩⟩
            rw [hrun]
          | none =>
            rcases hC : P.respond (Req.insertProfile (rowFor u1 s.randoms (s.now + elA + elB))) pB
              with ⟨pC, ⟨elC, resC⟩⟩
            cases resC with
            | error e =>
              rw [run_signIn_create_failed P p pA pB pC s email password u1 sess none erB e elA
                elB elC true hA hB (by rw [hC]; rfl)] at hr
              exact absurd hs (failureOf_not_success _ _ hr)
            | ok respC =>
              rcases respC with ⟨dC, erC⟩
              cases erC with
              | some e =>
                rw [run_signIn_create_failed P p pA pB pC s email password u1 sess dC erB e elA
                  elB elC false hA hB (by rw [hC]; rfl)] at hr
                exact absurd hs (failureOf_not_success _ _ hr)
              | none =>
                have hrun := run_signIn_created P p pA pB pC s email password u1 sess dC erB elA
                  elB elC hA hB hC
                rw [hrun] at hr
                injection hr with hr
                subst hr
                injection hd with hd
                subst hd
                injection hu with hu
                subst hu
                refine ⟨pA, elA, sess, pB, elB, rfl, Or.inr ⟨erB, pC, elC, dC, hB, hC, ?_⟩⟩
                rw [hrun]

/-- A `signUp` that reports success with the user `u` inserted the row built
from `u`. -/
theorem signUp_success_cases {σ : Type} (P : Provider σ) (p : σ) (s : Local)
    (email password : String) (u : AuthUser) (data : AuthData) (r : SignResult)
    (hr : (run P (signUp email password) p s).2.2 = Except.ok r) (hs : r.success = true)
    (hd : r.data = some data) (hu : data.user = some u) :
    ∃ pA elA sess pC elC dataC,
      P.respond (Req.authSignUp email password (s.origin ++ "/dashboard")) p =
          (pA, ⟨elA, Except.ok { data := { user := some u, session := sess }, error := none }⟩) ∧
        P.respond (Req.insertProfile (rowFor u s.randoms (s.now + elA))) pA =
          (pC, ⟨elC, Except.ok { data := dataC, error := none }⟩) ∧
        (run P (signUp email password) p s).1 = pC := by
  rcases hA : P.respond (Req.authSignUp email password (s.origin ++ "/dashboard")) p
    with ⟨pA, ⟨elA, resA⟩⟩
  cases resA with
  | error e =>
    rw [run_signUp_auth_failed P p pA s email password ⟨none, none⟩ e elA true (by rw [hA]; rfl)]
      at hr
    exact absurd hs (failureOf_not_success _ _ hr)
  | ok respA =>
    rcases respA with ⟨dataA, erA⟩
    cases erA with
    | some e =>
      rw [run_signUp_auth_failed P p pA s email password dataA e elA false (by rw [hA]; rfl)]
        at hr
      exact absurd hs (failureOf_not_success _ _ hr)
    | none =>
      rcases dataA with ⟨userA, sess⟩
      cases userA with
      | none =>
        rw [run_signUp_no_user P p pA s email password sess elA hA] at hr
        injection hr with hr
        subst hr
        injection hd with hd
        subst hd
        cases hu
      | some u1 =>
        rcases hC : P.respond (Req.insertProfile (rowFor u1 s.randoms (s.now + elA))) pA
          with ⟨pC, ⟨elC, resC⟩⟩
        cases resC with
        | error e =>
          rw [run_signUp_create_failed P p pA pC s email password u1 sess none e elA elC true hA
            (by rw [hC]; rfl)] at hr
          exact absurd hs (failureOf_not_success _ _ hr)
        | ok respC =>
          rcases respC with ⟨dC, erC⟩
          cases erC with
          | some e =>
            rw [run_signUp_create_failed P p pA pC s email password u1 sess dC e elA elC false hA
              (by rw [hC]; rfl)] at hr
            exact absurd hs (failureOf_not_success _ _ hr)
          | none =>
            have hrun := run_signUp_created P p pA pC s email password u1 sess dC elA elC hA hC
            rw [hrun] at hr
            injection hr with hr
            subst hr
            injection hd with hd
            subst hd
            injection hu with hu
            subst hu
            refine ⟨pA, elA, sess, pC, elC, dC, rfl, hC, ?_⟩
            rw [hrun]

theorem rowAnswer_cases {τ : Type} (b : Backend τ) (op : List Profile → List Profile × RowResp) :
    ((rowAnswer b op).1.table = b.table ∧
        ∃ e, (rowAnswer b op).2.2 = Except.error e ∨
          (rowAnswer b op).2.2 = Except.ok { data := none, error := some e }) ∨
      ((rowAnswer b op).1.table = (op b.table).1 ∧
        (rowAnswer b op).2.2 = Except.ok (op b.table).2) := by
  unfold rowAnswer
  cases b.faults with
  | nil => exact Or.inr ⟨rfl, rfl⟩
  | cons f rest =>
    cases f with
    | none => exact Or.inr ⟨rfl, rfl⟩
    | some f =>
      cases f with
      | envelope e => exact Or.inl ⟨rfl, e, Or.inr rfl⟩
      | reject e => exact Or.inl ⟨rfl, e, Or.inl rfl⟩

/-- A select leaves the table as it is; when it returns a row, that row is the
only one with the requested id. -/
theorem tableProvider_select {τ : Type} (Q : Provider τ) (b pB : Backend τ) (id : String)
    (elB : Int) (ans : Except JsError RowResp)
    (h : (tableProvider Q).respond (Req.selectProfile id) b = (pB, ⟨elB, ans⟩)) :
    pB.table = b.table ∧
      ∀ row er, ans = Except.ok { data := some row, error := er } →
        b.table.filter (fun r => r.id = id) = [row] := by
  have h1 : (rowAnswer b fun t => tableSelect t id).1 = pB := congrArg Prod.fst h
  have h2 : (rowAnswer b fun t => tableSelect t id).2.2 = ans := by
    have := congrArg (fun x => x.2.result) h
    exact this
  rcases rowAnswer_cases b (fun t => tableSelect t id) with ⟨ht, e, he⟩ | ⟨ht, hans⟩
  · rw [h1] at ht
    refine ⟨ht, ?_⟩
    intro row er hrow
    rw [h2] at he
    rcases he with he | he <;> rw [he] at hrow <;> cases hrow
  · rw [h1] at ht
    rw [tableSelect_table] at ht
    refine ⟨ht, ?_⟩
    intro row er hrow
    rw [h2] at hans
    rw [hans] at hrow
    injection hrow with hrow
    unfold tableSelect at hrow
    split at hrow
    · rename_i row1 hfilter
      injection hrow with hd _
      injection hd with hd
      rw [← hd]
      exact hfilter
    · injection hrow with hd _
      cases hd

/-- An insert that resolves without an error appended its row to a table that
held no row with that id. -/
theorem tableProvider_insert_ok {τ : Type} (Q : Provider τ) (b pC : Backend τ) (row : Profile)
    (elC : Int) (data : Option Profile)
    (h : (tableProvider Q).respond (Req.insertProfile row) b =
      (pC, ⟨elC, Except.ok { data := data, error := none }⟩)) :
    pC.table = b.table ++ [row] ∧ ∀ r ∈ b.table, r.id ≠ row.id := by
  have h1 : (rowAnswer b fun t => tableInsert t row).1 = pC := congrArg Prod.fst h
  have h2 : (rowAnswer b fun t => tableInsert t row).2.2 =
      Except.ok { data := data, error := none } := by
    have := congrArg (fun x => x.2.result) h
    exact this
  rcases rowAnswer_cases b (fun t => tableInsert t row) with ⟨_, e, he⟩ | ⟨ht, hans⟩
  · rw [h2] at he
    rcases he with he | he
    · cases he
    · injection he with he
      injection he with _ he
      cases he
  · rw [h1] at ht
    rw [h2] at hans
    injection hans with hans
    unfold tableInsert at ht hans
    by_cases hany : b.table.any (fun r => r.id = row.id) = true
    · rw [if_pos hany] at hans
      injection hans with _ he
      cases he
    · rw [if_neg hany] at ht
      refine ⟨ht, ?_⟩
      intro r hr hid
      apply hany
      rw [List.any_eq_true]
      exact ⟨r, hr, by simpa using hid⟩

theorem filter_id_append_new (T : List Profile) (row : Profile)
    (h : ∀ r ∈ T, r.id ≠ row.id) :
    (T ++ [row]).filter (fun r => r.id = row.id) = [row] := by
  rw [List.filter_append]
  have h0 : T.filter (fun r => r.id = row.id) = [] := by
    rw [List.filter_eq_nil_iff]
    intro x hx hxid
    exact h x hx (by simpa using hxid)
  rw [h0]
  simp

/-- C9.  Against a table keyed by `id` whose rows agree with their identity (a
stored row with `id = u.id` carries `u.email`, as every row written by
`createUserProfile` does): whenever `signIn` or `signUp` returns
`success = true` with the user `u`, exactly one row with `id = u.id` is in the
table afterwards, and it carries `id = u.id` and `email = u.email`.  After
`signUp`, and after a `signIn` that found no row, it is the row this call
appended; after a `signIn` that found the row, the table is unchanged. -/
theorem signIn_signUp_one_profile_row {τ : Type} (Q : Provider τ) (b : Backend τ) (s : Local)
    (email password : String) (u : AuthUser) (data : AuthData) (hu : data.user = some u)
    (hcons : ∀ row ∈ b.table, row.id = u.id → row.email = u.email) :
    (∀ r, (run (tableProvider Q) (signIn email password) b s).2.2 = Except.ok r →
        r.success = true → r.data = some data →
        ((run (tableProvider Q) (signIn email password) b s).1.table.filter
            (fun row => row.id = u.id)).length = 1 ∧
          (∀ row ∈ (run (tableProvider Q) (signIn email password) b s).1.table,
            row.id = u.id → row.email = u.email) ∧
          (((∃ row ∈ b.table, row.id = u.id) ∧
              (run (tableProvider Q) (signIn email password) b s).1.table = b.table) ∨
            ((∀ row ∈ b.table, row.id ≠ u.id) ∧
              ∃ row, (run (tableProvider Q) (signIn email password) b s).1.table =
                  b.table ++ [row] ∧ row.id = u.id ∧ row.email = u.email))) ∧
      ∀ r, (run (tableProvider Q) (signUp email password) b s).2.2 = Except.ok r →
        r.success = true → r.data = some data →
        ((run (tableProvider Q) (signUp email password) b s).1.table.filter
            (fun row => row.id = u.id)).length = 1 ∧
          (∀ row ∈ (run (tableProvider Q) (signUp email password) b s).1.table,
            row.id = u.id → row.email = u.email) ∧
          (∀ row ∈ b.table, row.id ≠ u.id) ∧
          ∃ row, (run (tableProvider Q) (signUp email password) b s).1.table =
              b.table ++ [row] ∧ row.id = u.id ∧ row.email = u.email := by
  have happ : ∀ (T : List Profile) (new : Profile), T = b.table ++ [new] →
      new.email = u.email → ∀ row ∈ T, row.id = u.id → row.email = u.email := by
    intro T new hT hnew row hrow hid
    rw [hT, List.mem_append, List.mem_singleton] at hrow
    rcases hrow with hrow | hrow
    · exact hcons row hrow hid
    · rw [hrow]; exact hnew
  constructor
  · intro r hr hs hd
    rcases signIn_success_cases (tableProvider Q) b s email password u data r hr hs hd hu with
      ⟨pA, elA, sess, pB, elB, hA, hcase⟩
    have hAt : pA.table = b.table := by
      have := congrArg (fun x => x.1.table) hA
      exact this.symm
    rcases hcase with ⟨row, er, hB, hfin⟩ | ⟨er, pC, elC, dataC, hB, hC, hfin⟩
    · have hsel := tableProvider_select Q pA pB u.id elB _ hB
      have hfilter := hsel.2 row er rfl
      rw [hAt] at hfilter
      have htab : (run (tableProvider Q) (signIn email password) b s).1.table = b.table := by
        rw [hfin]
        show pB.table = b.table
        rw [hsel.1, hAt]
      have hmem : row ∈ b.table.filter (fun r => r.id = u.id) := by
        rw [hfilter]; exact List.mem_singleton_self row
      have hrow := List.mem_filter.1 hmem
      refine ⟨by rw [htab, hfilter]; rfl, ?_,
        Or.inl ⟨⟨row, hrow.1, by simpa using hrow.2⟩, htab⟩⟩
      rw [htab]
      exact hcons
    · have hsel := tableProvider_select Q pA pB u.id elB _ hB
      have hins := tableProvider_insert_ok Q pB pC _ elC dataC hC
      have hBt : pB.table = b.table := by rw [hsel.1, hAt]
      have htab : (run (tableProvider Q) (signIn email password) b s).1.table =
          b.table ++ [rowFor u s.randoms (s.now + elA + elB)] := by
        rw [hfin]
        show pC.table = _
        rw [hins.1, hBt]
      have hnone : ∀ row ∈ b.table, row.id ≠ u.id := by
        intro row hrow
        exact hins.2 row (by rw [hBt]; exact hrow)
      refine ⟨?_, happ _ _ htab rfl, Or.inr ⟨hnone, _, htab, rfl, rfl⟩⟩
      rw [htab]
      have := filter_id_append_new b.table (rowFor u s.randoms (s.now + elA + elB)) hnone
      rw [show (rowFor u s.randoms (s.now + elA + elB)).id = u.id from rfl] at this
      rw [this]
      rfl
  · intro r hr hs hd
    rcases signUp_success_cases (tableProvider Q) b s email password u data r hr hs hd hu with
      ⟨pA, elA, sess, pC, elC, dataC, hA, hC, hfin⟩
    have hAt : pA.table = b.table := by
      have := congrArg (fun x => x.1.table) hA
      exact this.symm
    have hins := tableProvider_insert_ok Q pA pC _ elC dataC hC
    have htab : (run (tableProvider Q) (signUp email password) b s).1.table =
        b.table ++ [rowFor u s.randoms (s.now + elA)] := by
      rw [hfin, hins.1, hAt]
    have hnone : ∀ row ∈ b.table, row.id ≠ u.id := by
      intro row hrow
      exact hins.2 row (by rw [hAt]; exact hrow)
    refine ⟨?_, happ _ _ htab rfl, hnone, _, htab, rfl, rfl⟩
    rw [htab]
    have := filter_id_append_new b.table (rowFor u s.randoms (s.now + elA)) hnone
    rw [show (rowFor u s.randoms (s.now + elA)).id = u.id from rfl] at this
    rw [this]
    rfl

/-- C9, witness: `u1` signs in against a table that holds its row, and signs
up against an empty table; each call succeeds and leaves exactly one row for
`u1`. -/
theorem signIn_signUp_one_profile_row_witness :
    ((run (tableProvider (constantServices authOkU1 trackOk)) (signIn "new@x.y" "pw")
          backendU1Current Local.initial).1.table.filter (fun row => row.id = "u1")).length = 1 ∧
      ((run (tableProvider (constantServices authOkU1 trackOk)) (signUp "new@x.y" "pw")
          emptyBackend Local.initial).1.table.filter (fun row => row.id = "u1")).length = 1 :=
  ⟨((signIn_signUp_one_profile_row (constantServices authOkU1 trackOk) backendU1Current
      Local.initial "new@x.y" "pw" ⟨"u1", "new@x.y"⟩ authOkU1.data rfl (by decide)).1
      { success := true, data := some authOkU1.data, error := none } rfl rfl rfl).1,
    ((signIn_signUp_one_profile_row (constantServices authOkU1 trackOk) emptyBackend
      Local.initial "new@x.y" "pw" ⟨"u1", "new@x.y"⟩ authOkU1.data rfl (by decide)).2
      { success := true, data := some authOkU1.data, error := none } rfl rfl rfl).1⟩

/-! ## Two overlapping sign-ins (C10) -/

theorem tableSelect_absent (T : List Profile) (id : String) (h : ∀ row ∈ T, row.id ≠ id) :
    tableSelect T id = (T, { data := none, error := some noSingleRow }) := by
  unfold tableSelect
  have h0 : T.filter (fun r => r.id = id) = [] := by
    rw [List.filter_eq_nil_iff]
    intro x hx hxid
    exact h x hx (by simpa using hxid)
  rw [h0]

theorem tableInsert_absent (T : List Profile) (row : Profile) (h : ∀ r ∈ T, r.id ≠ row.id) :
    tableInsert T row = (T ++ [row], { data := some row, error := none }) := by
  unfold tableInsert
  have h0 : T.any (fun r => r.id = row.id) = false := by
    rw [List.any_eq_false]
    intro x hx
    simpa using h x hx
  rw [h0]
  rfl

theorem tableInsert_present (T : List Profile) (row : Profile) (h : ∃ r ∈ T, r.id = row.id) :
    tableInsert T row = (T, { data := none, error := some duplicateKey }) := by
  unfold tableInsert
  have h0 : T.any (fun r => r.id = row.id) = true := by
    rw [List.any_eq_true]
    rcases h with ⟨r, hr, hid⟩
    exact ⟨r, hr, by simpa using hid⟩
  rw [h0]
  rfl

/-- Two `signIn` calls for the same user taking turns one `await` at a time,
with both existence queries answered "no row", the first insert accepted and
the second answered with the error `dup`. -/
theorem overlapping_signIn_runs {σ : Type} (P : Provider σ) (p0 p1 p2 p3 p4 p5 p6 : σ) (s : Local)
    (email password : String) (u : AuthUser) (sess : Option Session)
    (e1 e2 e3 e4 e5 e6 : Int) (er3 er4 : Option JsError) (dataA dataB : Option Profile)
    (dup : JsError)
    (h1 : P.respond (Req.authSignInWithPassword email password) p0 =
      (p1, ⟨e1, Except.ok { data := { user := some u, session := sess }, error := none }⟩))
    (h2 : P.respond (Req.authSignInWithPassword email password) p1 =
      (p2, ⟨e2, Except.ok { data := { user := some u, session := sess }, error := none }⟩))
    (h3 : P.respond (Req.selectProfile u.id) p2 = (p3, ⟨e3, Except.ok ⟨none, er3⟩⟩))
    (h4 : P.respond (Req.selectProfile u.id) p3 = (p4, ⟨e4, Except.ok ⟨none, er4⟩⟩))
    (h5 : P.respond (Req.insertProfile (rowFor u s.randoms (s.now + e1 + e2 + e3))) p4 =
      (p5, ⟨e5, Except.ok ⟨dataA, none⟩⟩))
    (h6 : P.respond (Req.insertProfile (rowFor u s.randoms.tail (s.now + e1 + e2 + e3 + e4))) p5 =
      (p6, ⟨e6, Except.ok ⟨dataB, some dup⟩⟩))
    (hdup : dup.nullish = false) :
    (Duo.turns P
        { prov := p0, tab := s, first := signIn email password, second := signIn email password }
        overlapping).first.completion =
        some (Except.ok { success := true, data := some { user := some u, session := sess },
                          error := none }) ∧
      (Duo.turns P
        { prov := p0, tab := s, first := signIn email password, second := signIn email password }
        overlapping).second.completion =
        some (Except.ok { success := false, data := none, error := some dup.message }) ∧
      (newRequests s (Duo.turns P
        { prov := p0, tab := s, first := signIn email password, second := signIn email password }
        overlapping).tab).filter isInsert =
        [Req.insertProfile (rowFor u s.randoms (s.now + e1 + e2 + e3)),
          Req.insertProfile (rowFor u s.randoms.tail (s.now + e1 + e2 + e3 + e4))] ∧
      (Duo.turns P
        { prov := p0, tab := s, first := signIn email password, second := signIn email password }
        overlapping).prov = (P.respond (Req.trackingPost "login" u.email none) p6).1 := by
  simp only [rowFor] at h5 h6
  rcases hT : P.respond (Req.trackingPost "login" u.email none) p6 with ⟨p7, ⟨e7, resT⟩⟩
  have hlen : ∀ (l : List Event), List.drop s.log.length (s.log ++ l) = l := fun l =>
    List.drop_left s.log l
  have hsplit : (∃ e, resT = Except.error e) ∨ (∃ st js, resT = Except.ok ⟨false, st, js⟩) ∨
      (∃ st e, resT = Except.ok ⟨true, st, Except.error e⟩) ∨
      (∃ st, resT = Except.ok ⟨true, st, Except.ok none⟩) ∨
      (∃ st, resT = Except.ok ⟨true, st, Except.ok (some ⟨none⟩)⟩) ∨
      (∃ st, resT = Except.ok ⟨true, st, Except.ok (some ⟨some ""⟩)⟩) ∨
      (∃ st v, v ≠ "" ∧ resT = Except.ok ⟨true, st, Except.ok (some ⟨some v⟩)⟩) := by
    cases resT with
    | error e => exact Or.inl ⟨e, rfl⟩
    | ok respT =>
      rcases respT with ⟨okT, st, js⟩
      cases okT with
      | false => exact Or.inr (Or.inl ⟨st, js, rfl⟩)
      | true =>
        cases js with
        | error e => exact Or.inr (Or.inr (Or.inl ⟨st, e, rfl⟩))
        | ok d =>
          cases d with
          | none => exact Or.inr (Or.inr (Or.inr (Or.inl ⟨st, rfl⟩)))
          | some d =>
            rcases d with ⟨sid⟩
            cases sid with
            | none => exact Or.inr (Or.inr (Or.inr (Or.inr (Or.inl ⟨st, rfl⟩))))
            | some v =>
              by_cases hv : v = ""
              · subst hv
                exact Or.inr (Or.inr (Or.inr (Or.inr (Or.inr (Or.inl ⟨st, rfl⟩)))))
              · exact Or.inr (Or.inr (Or.inr (Or.inr (Or.inr (Or.inr ⟨st, v, hv, rfl⟩)))))
  rcases hsplit with ⟨e, hres⟩ | ⟨st, js, hres⟩ | ⟨st, e, hres⟩ | ⟨st, hres⟩ | ⟨st, hres⟩ |
    ⟨st, hres⟩ | ⟨st, v, hv, hres⟩ <;> subst hres <;>
  simp only [Duo.turns, overlapping, List.foldl, Duo.turn, if_true, if_false,
    Bool.false_eq_true, signIn, Prog.tryFinally, Prog.tryCatch, Prog.bind, bind_def, pure_def,
    failureFrom, hdup, setLoading, Prog.update, Prog.call, resume, settle, h1, h2, h3, h4, h5,
    h6, hT,
    createUserProfile, generateUsername, Prog.get, nextSuffix, setUserProfile,
    sessionStorageSetItem, trackSession, storeDjangoSessionId, rowFor, Prog.completion,
    newRequests, List.append_assoc, hlen, requestsOf, List.filterMap_cons, List.filterMap_nil,
    List.cons_append, List.nil_append, List.filter_cons, isInsert, List.filter_nil, if_true,
    if_false, and_self, Bool.false_eq_true, ne_eq, not_true_eq_false, not_false_eq_true, *]

theorem tableProvider_auth (auth : AuthResp) (track : HttpResp)
    (b : Backend Unit) (email password : String) :
    (tableProvider (constantServices auth track)).respond
        (Req.authSignInWithPassword email password) b = (b, ⟨0, Except.ok auth⟩) := rfl

theorem tableProvider_track_table (auth : AuthResp) (track : HttpResp) (b : Backend Unit)
    (action email : String) (sid : Option String) :
    ((tableProvider (constantServices auth track)).respond
        (Req.trackingPost action email sid) b).1 = b := rfl

theorem tableProvider_select_absent {τ : Type} (Q : Provider τ) (b : Backend τ) (id : String)
    (hf : b.faults = []) (h : ∀ row ∈ b.table, row.id ≠ id) :
    (tableProvider Q).respond (Req.selectProfile id) b =
      (b, ⟨b.latency, Except.ok { data := none, error := some noSingleRow }⟩) := by
  show ((rowAnswer b fun t => tableSelect t id).1,
    (⟨(rowAnswer b fun t => tableSelect t id).2.1,
      (rowAnswer b fun t => tableSelect t id).2.2⟩ : Answer (Req.selectProfile id))) = _
  unfold rowAnswer
  rcases b with ⟨T, faults, lat, sv⟩
  simp only at hf h
  subst hf
  simp only [tableSelect_absent T id h]

theorem tableProvider_insert_absent {τ : Type} (Q : Provider τ) (b : Backend τ) (row : Profile)
    (hf : b.faults = []) (h : ∀ r ∈ b.table, r.id ≠ row.id) :
    (tableProvider Q).respond (Req.insertProfile row) b =
      ({ b with table := b.table ++ [row] },
        ⟨b.latency, Except.ok { data := some row, error := none }⟩) := by
  show ((rowAnswer b fun t => tableInsert t row).1,
    (⟨(rowAnswer b fun t => tableInsert t row).2.1,
      (rowAnswer b fun t => tableInsert t row).2.2⟩ : Answer (Req.insertProfile row))) = _
  unfold rowAnswer
  rcases b with ⟨T, faults, lat, sv⟩
  simp only at hf h
  subst hf
  simp only [tableInsert_absent T row h]

theorem tableProvider_insert_present {τ : Type} (Q : Provider τ) (b : Backend τ) (row : Profile)
    (hf : b.faults = []) (h : ∃ r ∈ b.table, r.id = row.id) :
    (tableProvider Q).respond (Req.insertProfile row) b =
      (b, ⟨b.latency, Except.ok { data := none, error := some duplicateKey }⟩) := by
  show ((rowAnswer b fun t => tableInsert t row).1,
    (⟨(rowAnswer b fun t => tableInsert t row).2.1,
      (rowAnswer b fun t => tableInsert t row).2.2⟩ : Answer (Req.insertProfile row))) = _
  unfold rowAnswer
  rcases b with ⟨T, faults, lat, sv⟩
  simp only at hf h
  subst hf
  simp only [tableInsert_present T row h]

/-- C10, as amended.  Two `signIn` calls for the same new identity `u` (no row
with `u.id` in the table, no storage failure) that overlap, both existence
checks being answered before either insert: both calls request an insert; the
first is accepted, so exactly one row with `u.id` exists afterwards and the
first call returns success; the second insert is answered with the
duplicate-key error, which the second call returns as
`{ success: false, data: null, error: <duplicate-key message> }` without
throwing.  And `createUserProfile` itself, called for an identity whose row
exists, throws the duplicate-key error to its caller. -/
theorem overlapping_signIns_second_reports_duplicate_key (u : AuthUser) (sess : Option Session)
    (track : HttpResp) (b : Backend Unit) (s : Local) (email password : String)
    (hnew : ∀ row ∈ b.table, row.id ≠ u.id) (hf : b.faults = []) :
    (Duo.turns (tableProvider (constantServices
          { data := { user := some u, session := sess }, error := none } track))
        { prov := b, tab := s, first := signIn email password, second := signIn email password }
        overlapping).first.completion =
        some (Except.ok { success := true, data := some { user := some u, session := sess },
                          error := none }) ∧
      (Duo.turns (tableProvider (constantServices
          { data := { user := some u, session := sess }, error := none } track))
        { prov := b, tab := s, first := signIn email password, second := signIn email password }
        overlapping).second.completion =
        some (Except.ok { success := false, data := none,
                          error := some duplicateKey.message }) ∧
      ((newRequests s (Duo.turns (tableProvider (constantServices
          { data := { user := some u, session := sess }, error := none } track))
        { prov := b, tab := s, first := signIn email password, second := signIn email password }
        overlapping).tab).filter isInsert).length = 2 ∧
      ((Duo.turns (tableProvider (constantServices
          { data := { user := some u, session := sess }, error := none } track))
        { prov := b, tab := s, first := signIn email password, second := signIn email password }
        overlapping).prov.table.filter (fun row => row.id = u.id)).length = 1 ∧
      (run (tableProvider (constantServices
          { data := { user := some u, session := sess }, error := none } track))
        (createUserProfile u) { b with table := b.table ++ [rowFor u s.randoms s.now] } s).2.2 =
        Except.error duplicateKey := by
  have hrowA : ∀ r ∈ b.table, r.id ≠ (rowFor u s.randoms (s.now + 0 + 0 + b.latency)).id := hnew
  have hpres : ∃ r ∈ ({ b with table := b.table ++
        [rowFor u s.randoms (s.now + 0 + 0 + b.latency)] } : Backend Unit).table,
      r.id = (rowFor u s.randoms.tail (s.now + 0 + 0 + b.latency + b.latency)).id :=
    ⟨rowFor u s.randoms (s.now + 0 + 0 + b.latency), by simp, rfl⟩
  have main := overlapping_signIn_runs
    (tableProvider (constantServices
      { data := { user := some u, session := sess }, error := none } track))
    b b b b b { b with table := b.table ++ [rowFor u s.randoms (s.now + 0 + 0 + b.latency)] }
    { b with table := b.table ++ [rowFor u s.randoms (s.now + 0 + 0 + b.latency)] }
    s email password u sess 0 0 b.latency b.latency b.latency b.latency
    (some noSingleRow) (some noSingleRow)
    (some (rowFor u s.randoms (s.now + 0 + 0 + b.latency))) none duplicateKey
    (tableProvider_auth _ track b email password)
    (tableProvider_auth _ track b email password)
    (tableProvider_select_absent _ b u.id hf hnew)
    (tableProvider_select_absent _ b u.id hf hnew)
    (tableProvider_insert_absent _ b _ hf hrowA)
    (tableProvider_insert_present _ _ _ hf hpres) rfl
  refine ⟨main.1, main.2.1, ?_, ?_, ?_⟩
  · rw [main.2.2.1]
    rfl
  · rw [main.2.2.2, tableProvider_track_table]
    have := filter_id_append_new b.table (rowFor u s.randoms (s.now + 0 + 0 + b.latency)) hnew
    show ((b.table ++ [rowFor u s.randoms (s.now + 0 + 0 + b.latency)]).filter
      (fun row => row.id = u.id)).length = 1
    rw [show u.id = (rowFor u s.randoms (s.now + 0 + 0 + b.latency)).id from rfl, this]
    rfl
  · rw [run_createUserProfile]
    have hp : ∃ r ∈ ({ b with table := b.table ++ [rowFor u s.randoms s.now] } :
        Backend Unit).table, r.id = (rowFor u s.randoms s.now).id :=
      ⟨rowFor u s.randoms s.now, by simp, rfl⟩
    have hfx : ({ b with table := b.table ++ [rowFor u s.randoms s.now] } :
        Backend Unit).faults = [] := hf
    simp only [tableProvider_insert_present _
      ({ b with table := b.table ++ [rowFor u s.randoms s.now] } : Backend Unit) _ hfx hp]

/-- C10, witness: two overlapping sign-ins of `u1` against an empty table. -/
theorem overlapping_signIns_second_reports_duplicate_key_witness :
    (Duo.turns (tableProvider (constantServices authOkU1 trackOk))
        { prov := emptyBackend, tab := Local.initial, first := signIn "new@x.y" "pw",
          second := signIn "new@x.y" "pw" } overlapping).second.completion =
      some (Except.ok { success := false, data := none,
                        error := some "duplicate key value violates unique constraint" }) :=
  (overlapping_signIns_second_reports_duplicate_key ⟨"u1", "new@x.y"⟩
    (some ⟨some ⟨"u1", "new@x.y"⟩, "tok"⟩) trackOk emptyBackend Local.initial "new@x.y" "pw"
    (by intro row hrow; cases hrow) rfl).2.1

/-- C10, as stated, fails: when two sign-ins of the new identity `u1` overlap,
two inserts are requested, not one, and the second call does not return the
row: it returns a failure carrying the duplicate-key error. -/
theorem overlapping_signIns_two_inserts :
    ((newRequests Local.initial
        (Duo.turns (tableProvider (constantServices authOkU1 trackOk))
          { prov := emptyBackend, tab := Local.initial, first := signIn "new@x.y" "pw",
            second := signIn "new@x.y" "pw" } overlapping).tab).filter isInsert).length = 2 ∧
      (Duo.turns (tableProvider (constantServices authOkU1 trackOk))
          { prov := emptyBackend, tab := Local.initial, first := signIn "new@x.y" "pw",
            second := signIn "new@x.y" "pw" } overlapping).second.completion =
        some (Except.ok { success := false, data := none,
                          error := some duplicateKey.message }) := by
  constructor
  · rfl
  · rfl

/-! ## Session tracking is best effort (C11) -/

theorem trackValue_of_failed (result : Except JsError HttpResp)
    (h : trackingFailed result = true) : trackValue result = none := by
  cases result with
  | error e => rfl
  | ok response =>
    rcases response with ⟨ok, st, js⟩
    cases ok with
    | false => rfl
    | true => cases h

theorem afterTrackLogout_withTracking {σ : Type} (P : Provider σ) (el : Int)
    (res : Except JsError HttpResp) (p : σ) (user : Option AuthUser) (sid : Option String) :
    afterTrackLogout (withTracking P el res) p user sid = p := by
  unfold afterTrackLogout
  cases user with
  | none => rfl
  | some u =>
    by_cases he : u.email = ""
    · simp [he]
    · simp [he, withTracking]

/-- The value `signOut` resolves to does not depend on how tracking settles. -/
theorem signOut_result_withTracking {σ : Type} (P : Provider σ) (el : Int)
    (res : Except JsError HttpResp) (p : σ) (s : Local) :
    (run (withTracking P el res) signOut p s).2.2 =
      Except.ok { error :=
        match (P.respond Req.authSignOut p).2.result with
        | Except.ok _ => none
        | Except.error e => some e } := by
  rw [run_signOut, afterTrackLogout_withTracking]
  rfl

/-- The value `signIn` resolves to does not depend on how tracking settles. -/
theorem signIn_result_withTracking {σ : Type} (P : Provider σ) (el el1 : Int)
    (res res1 : Except JsError HttpResp) (p : σ) (s : Local) (email password : String) :
    (run (withTracking P el res) (signIn email password) p s).2.2 =
      (run (withTracking P el1 res1) (signIn email password) p s).2.2 := by
  rcases hA : P.respond (Req.authSignInWithPassword email password) p with ⟨pA, ⟨elA, resA⟩⟩
  have hAa : ∀ (e0 : Int) (r0 : Except JsError HttpResp),
      (withTracking P e0 r0).respond (Req.authSignInWithPassword email password) p =
        (pA, ⟨elA, resA⟩) := fun _ _ => hA
  cases resA with
  | error e =>
    rw [run_signIn_auth_failed (withTracking P el res) p pA s email password ⟨none, none⟩ e elA
        true (hAa el res),
      run_signIn_auth_failed (withTracking P el1 res1) p pA s email password ⟨none, none⟩ e elA
        true (hAa el1 res1)]
  | ok respA =>
    rcases respA with ⟨dataA, erA⟩
    cases erA with
    | some e =>
      rw [run_signIn_auth_failed (withTracking P el res) p pA s email password dataA e elA
          false (hAa el res),
        run_signIn_auth_failed (withTracking P el1 res1) p pA s email password dataA e elA
          false (hAa el1 res1)]
    | none =>
      rcases dataA with ⟨userA, sess⟩
      cases userA with
      | none =>
        rw [run_signIn_no_user (withTracking P el res) p pA s email password sess elA (hAa el res),
          run_signIn_no_user (withTracking P el1 res1) p pA s email password sess elA
            (hAa el1 res1)]
      | some u =>
        rcases hB : P.respond (Req.selectProfile u.id) pA with ⟨pB, ⟨elB, resB⟩⟩
        have hBa : ∀ (e0 : Int) (r0 : Except JsError HttpResp),
            (withTracking P e0 r0).respond (Req.selectProfile u.id) pA = (pB, ⟨elB, resB⟩) :=
          fun _ _ => hB
        cases resB with
        | error e =>
          rw [run_signIn_select_rejected (withTracking P el res) p pA pB s email password u sess e
              elA elB (hAa el res) (hBa el res),
            run_signIn_select_rejected (withTracking P el1 res1) p pA pB s email password u sess e
              elA elB (hAa el1 res1) (hBa el1 res1)]
        | ok respB =>
          rcases respB with ⟨dB, erB⟩
          cases dB with
          | some row =>
            rw [run_signIn_existing (withTracking P el res) p pA pB s email password u sess row erB
                elA elB (hAa el res) (hBa el res),
              run_signIn_existing (withTracking P el1 res1) p pA pB s email password u sess row
                erB elA elB (hAa el1 res1) (hBa el1 res1)]
          | none =>
            rcases hC : P.respond (Req.insertProfile (rowFor u s.randoms (s.now + elA + elB))) pB
              with ⟨pC, ⟨elC, resC⟩⟩
            have hCa : ∀ (e0 : Int) (r0 : Except JsError HttpResp),
                (withTracking P e0 r0).respond
                    (Req.insertProfile (rowFor u s.randoms (s.now + elA + elB))) pB =
                  (pC, ⟨elC, resC⟩) := fun _ _ => hC
            cases resC with
            | error e =>
              rw [run_signIn_create_failed (withTracking P el res) p pA pB pC s email password u
                  sess none erB e elA elB elC true (hAa el res) (hBa el res) (hCa el res),
                run_signIn_create_failed (withTracking P el1 res1) p pA pB pC s email password u
                  sess none erB e elA elB elC true (hAa el1 res1) (hBa el1 res1) (hCa el1 res1)]
            | ok respC =>
              rcases respC with ⟨dC, erC⟩
              cases erC with
              | some e =>
                rw [run_signIn_create_failed (withTracking P el res) p pA pB pC s email password u
                    sess dC erB e elA elB elC false (hAa el res) (hBa el res) (hCa el res),
                  run_signIn_create_failed (withTracking P el1 res1) p pA pB pC s email password u
                    sess dC erB e elA elB elC false (hAa el1 res1) (hBa el1 res1)
                    (hCa el1 res1)]
              | none =>
                rw [run_signIn_created (withTracking P el res) p pA pB pC s email password u sess
                    dC erB elA elB elC (hAa el res) (hBa el res) (hCa el res),
                  run_signIn_created (withTracking P el1 res1) p pA pB pC s email password u sess
                    dC erB elA elB elC (hAa el1 res1) (hBa el1 res1) (hCa el1 res1)]

/-- C11.  However the session-tracking request fails (rejected by the network,
aborted by the 5-second timer, or answered with a non-2xx status),
`trackSession` resolves to `null` without throwing, and `signIn` and `signOut`
resolve to the same value as with any other outcome of tracking, a successful
one included; in particular `signIn` still returns `success = true` when the
provider sign-in returned a user and the profile step succeeded (the row was
found, or it was missing and its insert succeeded). -/
theorem tracking_failure_is_soft {σ : Type} (P : Provider σ) (p : σ) (s : Local)
    (action email password : String) (sid : Option String) (el el1 : Int)
    (failed good : Except JsError HttpResp) (hfail : trackingFailed failed = true) :
    run (withTracking P el failed) (trackSession action email sid) p s =
        (p, { s with log := s.log ++ [Event.request (Req.trackingPost action email sid)]
                     now := s.now + el }, Except.ok none) ∧
      (run (withTracking P el failed) (signIn email password) p s).2.2 =
        (run (withTracking P el1 good) (signIn email password) p s).2.2 ∧
      (run (withTracking P el failed) signOut p s).2.2 =
        (run (withTracking P el1 good) signOut p s).2.2 ∧
      (∀ u sess pA elA pB elB row er,
        P.respond (Req.authSignInWithPassword email password) p =
            (pA, ⟨elA, Except.ok { data := { user := some u, session := sess }, error := none }⟩) →
          P.respond (Req.selectProfile u.id) pA =
            (pB, ⟨elB, Except.ok { data := some row, error := er }⟩) →
          (run (withTracking P el failed) (signIn email password) p s).2.2 =
            Except.ok { success := true, data := some { user := some u, session := sess },
                        error := none }) ∧
      ∀ u sess pA elA pB elB er pC elC data,
        P.respond (Req.authSignInWithPassword email password) p =
            (pA, ⟨elA, Except.ok { data := { user := some u, session := sess }, error := none }⟩) →
          P.respond (Req.selectProfile u.id) pA =
            (pB, ⟨elB, Except.ok { data := none, error := er }⟩) →
          P.respond (Req.insertProfile (rowFor u s.randoms (s.now + elA + elB))) pB =
            (pC, ⟨elC, Except.ok { data := data, error := none }⟩) →
          (run (withTracking P el failed) (signIn email password) p s).2.2 =
            Except.ok { success := true, data := some { user := some u, session := sess },
                        error := none } := by
  refine ⟨?_, signIn_result_withTracking P el el1 failed good p s email password, ?_, ?_, ?_⟩
  · rw [run_trackSession]
    show (p, _, Except.ok (trackValue failed)) = _
    rw [trackValue_of_failed failed hfail]
    rfl
  · rw [signOut_result_withTracking, signOut_result_withTracking]
  · intro u sess pA elA pB elB row er hA hB
    rw [run_signIn_existing (withTracking P el failed) p pA pB s email password u sess row er elA
      elB hA hB]
  · intro u sess pA elA pB elB er pC elC data hA hB hC
    rw [run_signIn_created (withTracking P el failed) p pA pB pC s email password u sess data er
      elA elB elC hA hB hC]

/-- C11, witness: `u1` signs in against the table that holds its row while the
tracking call is aborted by the timer; `signIn` returns success. -/
theorem tracking_failure_is_soft_witness :
    trackingFailed trackAborted = true ∧
      (run (withTracking (tableProvider (constantServices authOkU1 trackOk)) 5000 trackAborted)
          (signIn "new@x.y" "pw") backendU1 Local.initial).2.2 =
        Except.ok { success := true, data := some authOkU1.data, error := none } :=
  ⟨rfl,
    (tracking_failure_is_soft (tableProvider (constantServices authOkU1 trackOk)) backendU1
      Local.initial "login" "new@x.y" "pw" none 5000 0 trackAborted (Except.ok trackOk) rfl).2.2.2.1
      ⟨"u1", "new@x.y"⟩ (some ⟨some ⟨"u1", "new@x.y"⟩, "tok"⟩) backendU1 0 backendU1 0 rowU1 none
      rfl rfl⟩

/-! ## The concrete `URLSearchParams` is lawful -/

theorem hexValue_hexDigit : ∀ n < 16, hexValue (hexDigit n) = some n := by
  decide

theorem hexDigit_ne_sep : ∀ n < 16, hexDigit n ≠ '&' ∧ hexDigit n ≠ '=' := by
  decide

theorem isPlain_ne (c : Char) (h : isPlain c = true) :
    c ≠ '+' ∧ c ≠ '%' ∧ c ≠ '&' ∧ c ≠ '=' := by
  refine ⟨?_, ?_, ?_, ?_⟩ <;> intro hc <;> subst hc <;> revert h <;> decide

theorem not_ascii_ne (c : Char) (h : ¬ c.toNat < 128) :
    c ≠ '+' ∧ c ≠ '%' ∧ c ≠ '&' ∧ c ≠ '=' := by
  refine ⟨?_, ?_, ?_, ?_⟩ <;> intro hc <;> subst hc <;> revert h <;> decide

theorem encodeChar_no_sep (c : Char) : '&' ∉ encodeChar c ∧ '=' ∉ encodeChar c := by
  unfold encodeChar
  by_cases hp : isPlain c = true
  · have := isPlain_ne c hp
    simp only [hp, if_true, List.mem_singleton]
    exact ⟨fun h => this.2.2.1 h.symm, fun h => this.2.2.2 h.symm⟩
  · simp only [hp, if_false, Bool.false_eq_true]
    by_cases hs : c = ' '
    · simp only [hs, if_true, List.mem_singleton]
      decide
    · simp only [hs, if_false]
      by_cases ha : c.toNat < 128
      · simp only [ha, if_true]
        have h1 := hexDigit_ne_sep (c.toNat / 16) (by omega)
        have h2 := hexDigit_ne_sep (c.toNat % 16) (by omega)
        simp only [List.mem_cons, List.mem_singleton, List.not_mem_nil, or_false, not_or]
        exact ⟨⟨by decide, fun h => h1.1 h.symm, fun h => h2.1 h.symm⟩,
          ⟨by decide, fun h => h1.2 h.symm, fun h => h2.2 h.symm⟩⟩
      · have := not_ascii_ne c ha
        simp only [ha, if_false, List.mem_singleton]
        exact ⟨fun h => this.2.2.1 h.symm, fun h => this.2.2.2 h.symm⟩

theorem encodeChars_no_sep (l : List Char) : '&' ∉ encodeChars l ∧ '=' ∉ encodeChars l := by
  induction l with
  | nil => simp [encodeChars]
  | cons c rest ih =>
    have hc := encodeChar_no_sep c
    simp only [encodeChars, List.mem_append, not_or]
    exact ⟨⟨hc.1, ih.1⟩, ⟨hc.2, ih.2⟩⟩

theorem decodeAux_encodeChar (c : Char) (rest : List Char) (fuel : Nat)
    (h : (encodeChar c ++ rest).length ≤ fuel) :
    ∃ fuel1, rest.length ≤ fuel1 ∧
      decodeAux fuel (encodeChar c ++ rest) = c :: decodeAux fuel1 rest := by
  unfold encodeChar at h ⊢
  by_cases hp : isPlain c = true
  · have hne := isPlain_ne c hp
    simp only [hp, if_true, List.singleton_append, List.length_cons] at h ⊢
    obtain ⟨f, rfl⟩ : ∃ f, fuel = f + 1 := ⟨fuel - 1, by omega⟩
    refine ⟨f, by omega, ?_⟩
    simp only [decodeAux, hne.1, hne.2.1, if_false]
  · simp only [hp, if_false, Bool.false_eq_true] at h ⊢
    by_cases hs : c = ' '
    · subst hs
      simp only [if_true, List.singleton_append, List.length_cons] at h ⊢
      obtain ⟨f, rfl⟩ : ∃ f, fuel = f + 1 := ⟨fuel - 1, by omega⟩
      refine ⟨f, by omega, ?_⟩
      simp only [decodeAux, if_true]
    · simp only [hs, if_false] at h ⊢
      by_cases ha : c.toNat < 128
      · simp only [ha, if_true, List.cons_append, List.nil_append, List.length_cons] at h ⊢
        obtain ⟨f, rfl⟩ : ∃ f, fuel = f + 1 := ⟨fuel - 1, by omega⟩
        refine ⟨f, by omega, ?_⟩
        have h1 := hexValue_hexDigit (c.toNat / 16) (by omega)
        have h2 := hexValue_hexDigit (c.toNat % 16) (by omega)
        have hpc : ('%' : Char) ≠ '+' := by decide
        simp only [decodeAux, hpc, if_false, if_true, h1, h2]
        have : 16 * (c.toNat / 16) + c.toNat % 16 = c.toNat := by omega
        rw [this, Char.ofNat_toNat]
      · have hne := not_ascii_ne c ha
        simp only [ha, if_false, List.singleton_append, List.length_cons] at h ⊢
        obtain ⟨f, rfl⟩ : ∃ f, fuel = f + 1 := ⟨fuel - 1, by omega⟩
        refine ⟨f, by omega, ?_⟩
        simp only [decodeAux, hne.1, hne.2.1, if_false]

theorem decodeAux_encodeChars (l : List Char) (fuel : Nat)
    (h : (encodeChars l).length ≤ fuel) : decodeAux fuel (encodeChars l) = l := by
  induction l generalizing fuel with
  | nil =>
    cases fuel <;> rfl
  | cons c rest ih =>
    simp only [encodeChars] at h ⊢
    rcases decodeAux_encodeChar c (encodeChars rest) fuel h with ⟨f, hf, heq⟩
    rw [heq, ih f hf]

theorem decodeChars_encodeChars (l : List Char) : decodeChars (encodeChars l) = l :=
  decodeAux_encodeChars l _ (Nat.le_refl _)

theorem splitAmp_ne_nil (l : List Char) : splitAmp l ≠ [] := by
  cases l with
  | nil => simp [splitAmp]
  | cons c rest =>
    simp only [splitAmp]
    split
    · simp
    · split <;> simp

theorem splitAmp_of_no_amp (seg : List Char) (h : '&' ∉ seg) : splitAmp seg = [seg] := by
  induction seg with
  | nil => rfl
  | cons c rest ih =>
    have hc : c ≠ '&' := fun hc => h (by simp [hc])
    have hr : '&' ∉ rest := fun hr => h (List.mem_cons_of_mem _ hr)
    simp only [splitAmp, hc, if_false, ih hr]

theorem splitAmp_append (seg rest : List Char) (h : '&' ∉ seg) :
    splitAmp (seg ++ '&' :: rest) = seg :: splitAmp rest := by
  induction seg with
  | nil => simp [splitAmp]
  | cons c seg1 ih =>
    have hc : c ≠ '&' := fun hc => h (by simp [hc])
    have hr : '&' ∉ seg1 := fun hr => h (List.mem_cons_of_mem _ hr)
    have e := ih hr
    show splitAmp (c :: (seg1 ++ '&' :: rest)) = (c :: seg1) :: splitAmp rest
    simp only [splitAmp, hc, if_false, e]

theorem splitAmp_joinAmp (segs : List (List Char)) (hne : segs ≠ [])
    (h : ∀ seg ∈ segs, '&' ∉ seg) : splitAmp (joinAmp segs) = segs := by
  induction segs with
  | nil => exact absurd rfl hne
  | cons seg rest ih =>
    cases rest with
    | nil =>
      simp only [joinAmp]
      exact splitAmp_of_no_amp seg (h seg (List.mem_singleton_self seg))
    | cons seg2 rest2 =>
      simp only [joinAmp]
      rw [splitAmp_append seg _ (h seg (List.mem_cons_self _ _))]
      rw [ih (by simp) (fun x hx => h x (List.mem_cons_of_mem _ hx))]

theorem takeWhile_ne_eq (l r : List Char) (h : '=' ∉ l) :
    (l ++ '=' :: r).takeWhile (fun c => c ≠ '=') = l ∧
      (l ++ '=' :: r).dropWhile (fun c => c ≠ '=') = '=' :: r := by
  induction l with
  | nil => simp
  | cons c l1 ih =>
    have hc : c ≠ '=' := fun hc => h (by simp [hc])
    have hr : '=' ∉ l1 := fun hr => h (List.mem_cons_of_mem _ hr)
    have e := ih hr
    have hd : decide (c ≠ '=') = true := by simpa using hc
    rw [List.cons_append, List.takeWhile_cons, List.dropWhile_cons]
    simp only [hd, if_true]
    exact ⟨by rw [e.1], e.2⟩

theorem parsePair_pairChars (kv : String × String) : parsePair (pairChars kv) = kv := by
  rcases kv with ⟨k, v⟩
  unfold parsePair pairChars
  have h := takeWhile_ne_eq (encodeChars k.toList) (encodeChars v.toList)
    (encodeChars_no_sep k.toList).2
  simp only [h.1, h.2, List.drop_succ_cons, List.drop_zero, decodeChars_encodeChars]
  rfl

theorem pairChars_props (kv : String × String) : pairChars kv ≠ [] ∧ '&' ∉ pairChars kv := by
  unfold pairChars
  refine ⟨by simp, ?_⟩
  have h1 := (encodeChars_no_sep kv.1.toList).1
  have h2 := (encodeChars_no_sep kv.2.toList).1
  simp only [List.mem_append, List.mem_cons, not_or]
  exact ⟨h1, by decide, h2⟩

theorem joinAmp_ne_nil (segs : List (List Char)) (hne : segs ≠ [])
    (h : ∀ seg ∈ segs, seg ≠ []) : joinAmp segs ≠ [] := by
  cases segs with
  | nil => exact absurd rfl hne
  | cons seg rest =>
    cases rest with
    | nil => simpa [joinAmp] using h seg (List.mem_singleton_self seg)
    | cons seg2 rest2 => simp [joinAmp]

/-- The concrete `URLSearchParams` satisfies the two laws. -/
theorem webCodec_lawful : webCodec.Lawful where
  parse_serialize := by
    intro l
    show ((splitAmp (String.mk (joinAmp (l.map pairChars))).toList).filter
      fun seg => seg ≠ []).map parsePair = l
    cases l with
    | nil => rfl
    | cons kv rest =>
      have hsplit := splitAmp_joinAmp ((kv :: rest).map pairChars) (by simp)
        (by
          intro seg hseg
          rcases List.mem_map.1 hseg with ⟨x, _, rfl⟩
          exact (pairChars_props x).2)
      show ((splitAmp (joinAmp ((kv :: rest).map pairChars))).filter
        fun seg => seg ≠ []).map parsePair = kv :: rest
      rw [hsplit]
      have hfilter : ((kv :: rest).map pairChars).filter (fun seg => seg ≠ []) =
          (kv :: rest).map pairChars := by
        rw [List.filter_eq_self]
        intro seg hseg
        rcases List.mem_map.1 hseg with ⟨x, _, rfl⟩
        simpa using (pairChars_props x).1
      rw [hfilter, List.map_map]
      have : (parsePair ∘ pairChars) = id := by
        funext x
        exact parsePair_pairChars x
      rw [this, List.map_id]
  serialize_eq_empty := by
    intro l
    show String.mk (joinAmp (l.map pairChars)) = "" ↔ l = []
    constructor
    · intro h
      by_contra hl
      have hne : joinAmp (l.map pairChars) ≠ [] :=
        joinAmp_ne_nil _ (by simpa using hl) (by
          intro seg hseg
          rcases List.mem_map.1 hseg with ⟨x, _, rfl⟩
          exact (pairChars_props x).1)
      apply hne
      have := congrArg String.data h
      exact this
    · intro h
      subst h
      rfl

/-! ## The redirect middleware -/

theorem run_clearSupabaseParams {σ : Type} (P : Provider σ) (c : ParamCodec) (p : σ) (s : Local) :
    run P (clearSupabaseParams c) p s = (p, cleaned c s, Except.ok ()) := rfl

/-- The run of `handleSupabaseRedirect()` in closed form: it always completes
normally. -/
theorem run_handleSupabaseRedirect {σ : Type} (P : Provider σ) (c : ParamCodec) (p : σ)
    (s : Local) :
    run P (handleSupabaseRedirect c) p s =
      ((redirected P c p s).1, (redirected P c p s).2, Except.ok ()) := by
  unfold handleSupabaseRedirect redirected recoveryRequest
  simp only [run_read, run_tryCatch]
  by_cases h1 : (truthy (paramsGet (getSearchParams c s) "code") &&
      (recoveryType c s == some "recovery" || isRecoveryRoute s)) = true
  · simp only [h1, if_true, bind_def, run_bind, run_call]
    rcases P.respond (Req.authExchangeCodeForSession
      ((paramsGet (getSearchParams c s) "code").getD "")) p with ⟨p1, ⟨el, res⟩⟩
    cases res with
    | error e => rfl
    | ok v => rfl
  · simp only [h1, if_false, Bool.false_eq_true]
    by_cases h2 : (recoveryType c s == some "recovery" &&
        truthy (paramsGet (getHashParams c s) "access_token") &&
        truthy (paramsGet (getHashParams c s) "refresh_token")) = true
    · simp only [h2, if_true, bind_def, run_bind, run_call]
      rcases P.respond (Req.authSetSession
        ((paramsGet (getHashParams c s) "access_token").getD "")
        ((paramsGet (getHashParams c s) "refresh_token").getD "")) p with ⟨p1, ⟨el, res⟩⟩
      cases res with
      | error e => rfl
      | ok v => rfl
    · simp only [h2, if_false, Bool.false_eq_true]
      rfl

theorem redirected_mounted {σ : Type} (P : Provider σ) (c : ParamCodec) (p : σ) (s : Local) :
    (redirected P c p s).2.mounted = s.mounted := by
  unfold redirected
  cases recoveryRequest c s with
  | none => rfl
  | some r =>
    simp only
    cases (P.respond r p).2.result <;> rfl

theorem afterRecoveryStep_mounted {σ : Type} (P : Provider σ) (c : ParamCodec) (p : σ)
    (s : Local) : (afterRecoveryStep P c p s).2.mounted = s.mounted := by
  unfold afterRecoveryStep
  split
  · exact redirected_mounted P c p s
  · rfl

/-! ## Calls started without awaiting -/

theorem run_get {σ : Type} (P : Provider σ) (p : σ) (s : Local) :
    run P Prog.get p s = (p, s, Except.ok s) := rfl

theorem run_detach {σ α : Type} (P : Provider σ) (x : Prog α) (p : σ) (s : Local) :
    run P (Prog.detach x) p s =
      ((settle P x p s).1, (settle P x p s).2.1, Except.ok (settle P x p s).2.2) := by
  induction x generalizing p s with
  | pure a => rfl
  | throw e => rfl
  | read k ih => simp only [Prog.detach, run, settle]; exact ih s p s
  | modify g k ih => simp only [Prog.detach, run, settle]; exact ih p (g s)
  | await r k _ => rfl
  | post r k ih => simp only [Prog.detach, run, settle]; exact ih _ s

theorem settle_fetchUserProfile_hit {σ : Type} (P : Provider σ) (p : σ) (s : Local)
    (userId : String) (e : CacheEntry) (h : freshCached s userId = some e) :
    settle P (fetchUserProfile userId) p s =
      (p, { s with userProfile := e.data }, Prog.pure (some e.data)) := by
  simp only [fetchUserProfile, settle, h]

theorem settle_fetchUserProfile_dropped {σ : Type} (P : Provider σ) (p : σ) (s : Local)
    (userId : String) (h : freshCached s userId = none) (hf : s.fetchInProgress = true) :
    settle P (fetchUserProfile userId) p s = (p, s, Prog.pure none) := by
  simp only [fetchUserProfile, settle, h, hf]

/-- A fetch that misses the cache while no fetch is in flight raises the flag,
issues its query and is suspended; when the answer arrives it lands as
`fetchLanded` says. -/
theorem settle_fetchUserProfile_miss {σ : Type} (P : Provider σ) (p : σ) (s : Local)
    (userId : String) (h : freshCached s userId = none) (hf : s.fetchInProgress = false) :
    (settle P (fetchUserProfile userId) p s).1 = p ∧
      (settle P (fetchUserProfile userId) p s).2.1 =
        { s with fetchInProgress := true
                 log := s.log ++ [Event.request (Req.selectProfile userId)] } ∧
      (settle P (fetchUserProfile userId) p s).2.2.completion = none ∧
      ∀ (p1 : σ) (s1 : Local),
        resume P (settle P (fetchUserProfile userId) p s).2.2 p1 s1 =
          ((P.respond (Req.selectProfile userId) p1).1,
            (fetchLanded s1 userId (P.respond (Req.selectProfile userId) p1).2).1,
            Prog.pure (fetchLanded s1 userId (P.respond (Req.selectProfile userId) p1).2).2) := by
  simp only [fetchUserProfile, settle, h, hf, Prog.tryFinally, Prog.tryCatch, Prog.bind, bind_def,
    pure_def, setFetchInProgress, Prog.update, Prog.call, Prog.completion, resume, fetchLanded,
    Bool.false_eq_true, if_false, true_and]
  intro p1 s1
  rcases P.respond (Req.selectProfile userId) p1 with ⟨p2, ⟨el, res⟩⟩
  cases res with
  | error e => rfl
  | ok resp =>
    rcases resp with ⟨d, er⟩
    cases er with
    | some e => rfl
    | none => rfl

theorem settle_fetchUserProfile_mounted {σ : Type} (P : Provider σ) (p : σ) (s : Local)
    (userId : String) : (settle P (fetchUserProfile userId) p s).2.1.mounted = s.mounted := by
  cases h : freshCached s userId with
  | some e => rw [settle_fetchUserProfile_hit P p s userId e h]
  | none =>
    cases hf : s.fetchInProgress with
    | true => rw [settle_fetchUserProfile_dropped P p s userId h hf]
    | false => rw [(settle_fetchUserProfile_miss P p s userId h hf).2.1]
/-! ## Bootstrap -/

/-- Bootstrap on a mounted provider when reading the session fails with `e`: in
the envelope when `thrown` is false, as a rejection when it is true. -/
theorem run_getInitialSession_failed {σ : Type} (P : Provider σ) (c : ParamCodec) (p pG : σ)
    (s : Local) (elG : Int) (sess : Option Session) (e : JsError) (thrown : Bool)
    (hm : s.mounted = true)
    (hG : P.respond Req.authGetSession (afterRecoveryStep P c p s).1 =
      (pG, ⟨elG, if thrown then Except.error e
        else Except.ok { session := sess, error := some e }⟩)) :
    run P (getInitialSession c) p s =
      (pG,
        { (afterRecoveryStep P c p s).2 with
            log := (afterRecoveryStep P c p s).2.log ++ [Event.request Req.authGetSession]
            now := (afterRecoveryStep P c p s).2.now + elG
            user := none, userProfile := none, session := none, loading := false },
        Except.ok none) := by
  have hm1 := afterRecoveryStep_mounted P c p s
  unfold afterRecoveryStep at hG hm1 ⊢
  by_cases h : hasSupabaseRecoveryParams c s = true <;>
  simp only [h, if_true, if_false, Bool.false_eq_true] at hG hm1 ⊢ <;>
  cases thrown <;>
  simp only [getInitialSession, run_tryFinally, run_tryCatch, bind_def, pure_def, run_bind,
    run_get, run_handleSupabaseRedirect, run_call, run_read, run_pure, run_update, run_detach,
    setUser, setUserProfile, setSession, setUserIdRef, setLoading, andThen_ok, andThen_error,
    orElse_ok, orElse_error, andFinally_mk, hG, hm, hm1, if_true, if_false, Bool.false_eq_true,
    settle_fetchUserProfile_mounted, h]

/-- Bootstrap on a mounted provider when the provider reports no session, or a
session without a user. -/
theorem run_getInitialSession_anonymous {σ : Type} (P : Provider σ) (c : ParamCodec) (p pG : σ)
    (s : Local) (elG : Int) (sess : Option Session) (hm : s.mounted = true)
    (hu : sessionUser sess = none)
    (hG : P.respond Req.authGetSession (afterRecoveryStep P c p s).1 =
      (pG, ⟨elG, Except.ok { session := sess, error := none }⟩)) :
    run P (getInitialSession c) p s =
      (pG,
        { (afterRecoveryStep P c p s).2 with
            log := (afterRecoveryStep P c p s).2.log ++ [Event.request Req.authGetSession]
            now := (afterRecoveryStep P c p s).2.now + elG
            user := none, userProfile := none, session := none, loading := false },
        Except.ok none) := by
  have hm1 := afterRecoveryStep_mounted P c p s
  unfold afterRecoveryStep at hG hm1 ⊢
  by_cases h : hasSupabaseRecoveryParams c s = true <;>
  simp only [h, if_true, if_false, Bool.false_eq_true] at hG hm1 ⊢ <;>
  simp only [getInitialSession, run_tryFinally, run_tryCatch, bind_def, pure_def, run_bind,
    run_get, run_handleSupabaseRedirect, run_call, run_read, run_pure, run_update, run_detach,
    setUser, setUserProfile, setSession, setUserIdRef, setLoading, andThen_ok, andThen_error,
    orElse_ok, orElse_error, andFinally_mk, hG, hm, hm1, if_true, if_false, Bool.false_eq_true,
    settle_fetchUserProfile_mounted, h, hu]

/-- Bootstrap on a mounted provider when the provider reports a session of the
user `u`: state is set, the profile fetch is started without being awaited,
and loading is cleared. -/
theorem run_getInitialSession_user {σ : Type} (P : Provider σ) (c : ParamCodec) (p pG : σ)
    (s : Local) (elG : Int) (sess : Option Session) (u : AuthUser) (hm : s.mounted = true)
    (hu : sessionUser sess = some u)
    (hG : P.respond Req.authGetSession (afterRecoveryStep P c p s).1 =
      (pG, ⟨elG, Except.ok { session := sess, error := none }⟩)) :
    run P (getInitialSession c) p s =
      ((settle P (fetchUserProfile u.id) pG
          { (afterRecoveryStep P c p s).2 with
              log := (afterRecoveryStep P c p s).2.log ++ [Event.request Req.authGetSession]
              now := (afterRecoveryStep P c p s).2.now + elG
              session := sess, user := some u, userIdRef := JsId.str u.id }).1,
        { (settle P (fetchUserProfile u.id) pG
            { (afterRecoveryStep P c p s).2 with
                log := (afterRecoveryStep P c p s).2.log ++ [Event.request Req.authGetSession]
                now := (afterRecoveryStep P c p s).2.now + elG
                session := sess, user := some u, userIdRef := JsId.str u.id }).2.1
          with loading := false },
        Except.ok (some (settle P (fetchUserProfile u.id) pG
          { (afterRecoveryStep P c p s).2 with
              log := (afterRecoveryStep P c p s).2.log ++ [Event.request Req.authGetSession]
              now := (afterRecoveryStep P c p s).2.now + elG
              session := sess, user := some u, userIdRef := JsId.str u.id }).2.2)) := by
  have hm1 := afterRecoveryStep_mounted P c p s
  unfold afterRecoveryStep at hG hm1 ⊢
  by_cases h : hasSupabaseRecoveryParams c s = true <;>
  simp only [h, if_true, if_false, Bool.false_eq_true] at hG hm1 ⊢ <;>
  simp only [getInitialSession, run_tryFinally, run_tryCatch, bind_def, pure_def, run_bind,
    run_get, run_handleSupabaseRedirect, run_call, run_read, run_pure, run_update, run_detach,
    setUser, setUserProfile, setSession, setUserIdRef, setLoading, andThen_ok, andThen_error,
    orElse_ok, orElse_error, andFinally_mk, hG, hm, hm1, if_true, if_false, Bool.false_eq_true,
    settle_fetchUserProfile_mounted, h, hu]

/-- Bootstrap on an unmounted provider: the session is read and nothing is
written. -/
theorem run_getInitialSession_unmounted {σ : Type} (P : Provider σ) (c : ParamCodec) (p : σ)
    (s : Local) (hm : s.mounted = false) :
    run P (getInitialSession c) p s =
      ((P.respond Req.authGetSession (afterRecoveryStep P c p s).1).1,
        { (afterRecoveryStep P c p s).2 with
            log := (afterRecoveryStep P c p s).2.log ++ [Event.request Req.authGetSession]
            now := (afterRecoveryStep P c p s).2.now +
              (P.respond Req.authGetSession (afterRecoveryStep P c p s).1).2.elapsed },
        Except.ok none) := by
  have hm1 := afterRecoveryStep_mounted P c p s
  unfold afterRecoveryStep at hm1 ⊢
  by_cases h : hasSupabaseRecoveryParams c s = true <;>
  simp only [h, if_true, if_false, Bool.false_eq_true] at hm1 ⊢ <;>
  simp only [getInitialSession, run_tryFinally, run_tryCatch, bind_def, pure_def, run_bind,
    run_get, run_handleSupabaseRedirect, run_call, run_read, run_pure, run_update,
    andThen_ok, andThen_error, h, if_true, if_false, Bool.false_eq_true] <;>
  (rcases P.respond Req.authGetSession _ with ⟨pG, ⟨elG, ans⟩⟩
   cases ans <;>
   simp only [andThen_ok, andThen_error, orElse_ok, orElse_error, andFinally_mk, run_get,
     run_read, run_pure, run_bind, bind_def, pure_def, hm, hm1, if_false, Bool.false_eq_true])
theorem settle_fetchUserProfile_log {σ : Type} (P : Provider σ) (p : σ) (s : Local)
    (userId : String) :
    ∃ post, (settle P (fetchUserProfile userId) p s).2.1.log = s.log ++ post ∧
      ∀ ev ∈ post, ev = Event.request (Req.selectProfile userId) := by
  cases h : freshCached s userId with
  | some e =>
    rw [settle_fetchUserProfile_hit P p s userId e h]
    exact ⟨[], by simp, by simp⟩
  | none =>
    cases hf : s.fetchInProgress with
    | true =>
      rw [settle_fetchUserProfile_dropped P p s userId h hf]
      exact ⟨[], by simp, by simp⟩
    | false =>
      rw [(settle_fetchUserProfile_miss P p s userId h hf).2.1]
      exact ⟨[Event.request (Req.selectProfile userId)], rfl, by simp⟩

/-- Every bootstrap records the session read right after whatever the recovery
step recorded, and after it at most the query of the profile fetch. -/
theorem getInitialSession_log {σ : Type} (P : Provider σ) (c : ParamCodec) (p : σ) (s : Local) :
    ∃ post, (run P (getInitialSession c) p s).2.1.log =
        (afterRecoveryStep P c p s).2.log ++ Event.request Req.authGetSession :: post ∧
      ∀ ev ∈ post, ∃ userId, ev = Event.request (Req.selectProfile userId) := by
  cases hm : s.mounted with
  | false =>
    rw [run_getInitialSession_unmounted P c p s hm]
    exact ⟨[], rfl, by simp⟩
  | true =>
    rcases hG : P.respond Req.authGetSession (afterRecoveryStep P c p s).1 with ⟨pG, ⟨elG, ans⟩⟩
    cases ans with
    | error e =>
      rw [run_getInitialSession_failed P c p pG s elG none e true hm (by rw [hG]; rfl)]
      exact ⟨[], rfl, by simp⟩
    | ok resp =>
      rcases resp with ⟨sess, er⟩
      cases er with
      | some e =>
        rw [run_getInitialSession_failed P c p pG s elG sess e false hm (by rw [hG]; rfl)]
        exact ⟨[], rfl, by simp⟩
      | none =>
        cases hu : sessionUser sess with
        | none =>
          rw [run_getInitialSession_anonymous P c p pG s elG sess hm hu hG]
          exact ⟨[], rfl, by simp⟩
        | some u =>
          rw [run_getInitialSession_user P c p pG s elG sess u hm hu hG]
          rcases settle_fetchUserProfile_log P pG
            { (afterRecoveryStep P c p s).2 with
                log := (afterRecoveryStep P c p s).2.log ++ [Event.request Req.authGetSession]
                now := (afterRecoveryStep P c p s).2.now + elG
                session := sess, user := some u, userIdRef := JsId.str u.id } u.id
            with ⟨post, hlog, hpost⟩
          refine ⟨post, ?_, fun ev hev => ⟨u.id, hpost ev hev⟩⟩
          show (settle P (fetchUserProfile u.id) pG _).2.1.log = _
          rw [hlog]
          simp

theorem recoveryRequest_ne_getSession (c : ParamCodec) (s : Local) (r : Req)
    (h : recoveryRequest c s = some r) : r ≠ Req.authGetSession := by
  unfold recoveryRequest at h
  intro hr
  subst hr
  split at h
  · cases h
  · split at h <;> cases h

/-- What `handleSupabaseRedirect()` records: its provider call, if it makes one,
and the URL rewrite that follows an answered call. -/
theorem redirected_log {σ : Type} (P : Provider σ) (c : ParamCodec) (p : σ) (s : Local) :
    ∃ pre, (redirected P c p s).2.log = s.log ++ pre ∧
      requestsOf pre = (recoveryRequest c s).toList := by
  unfold redirected
  cases h : recoveryRequest c s with
  | none => exact ⟨[], by simp, rfl⟩
  | some r =>
    simp only
    cases (P.respond r p).2.result with
    | error e => exact ⟨[Event.request r], rfl, rfl⟩
    | ok v =>
      refine ⟨[Event.request r, Event.historyReplaceState (s.pathname ++
        partFor c "?" (withoutKeys SEARCH_KEYS_TO_CLEAR (getSearchParams c s)) ++
        partFor c "#" (withoutKeys HASH_KEYS_TO_CLEAR (getHashParams c s)))], ?_, rfl⟩
      show (s.log ++ [Event.request r]) ++ [Event.historyReplaceState _] = _
      rw [List.append_assoc]
      rfl

/-- Under `hasSupabaseRecoveryParams()`, `handleSupabaseRedirect()` makes a
provider call exactly when the URL carries a code or a refresh token. -/
theorem recoveryRequest_isSome (c : ParamCodec) (s : Local)
    (h : hasSupabaseRecoveryParams c s = true) :
    (recoveryRequest c s).isSome =
      (truthy (paramsGet (getSearchParams c s) "code") ||
        truthy (paramsGet (getHashParams c s) "refresh_token")) := by
  unfold hasSupabaseRecoveryParams at h
  unfold recoveryRequest
  cases hA : truthy (paramsGet (getHashParams c s) "access_token") <;>
  cases hT : (recoveryType c s == some "recovery") <;>
  cases hC : truthy (paramsGet (getSearchParams c s) "code") <;>
  cases hR : isRecoveryRoute s <;>
  cases hF : truthy (paramsGet (getHashParams c s) "refresh_token") <;>
  simp [hA, hT, hC, hR, hF] at h ⊢

/-- C12, as amended.  During bootstrap, whenever `hasSupabaseRecoveryParams()`
holds, `handleSupabaseRedirect()` has run to completion (its provider call
issued and settled, the URL rewritten after an answered call) before the
session read is issued: the bootstrap records first what the redirect handler
records, then the session read, and after it nothing but the query of the
profile fetch.  The handler makes its provider call, one code exchange or one
set-session, exactly when the URL carries a code or a refresh token; with an
access token and the recovery marker alone it makes none. -/
theorem bootstrap_recovery_before_session_read {σ : Type} (P : Provider σ) (c : ParamCodec)
    (p : σ) (s : Local) (hrec : hasSupabaseRecoveryParams c s = true) :
    (run P (handleSupabaseRedirect c) p s).2.2 = Except.ok () ∧
      (∃ pre post,
        (run P (handleSupabaseRedirect c) p s).2.1.log = s.log ++ pre ∧
          (run P (getInitialSession c) p s).2.1.log =
            s.log ++ pre ++ Event.request Req.authGetSession :: post ∧
          requestsOf pre = (recoveryRequest c s).toList ∧
          Req.authGetSession ∉ requestsOf pre ∧
          ∀ ev ∈ post, ∃ userId, ev = Event.request (Req.selectProfile userId)) ∧
      (recoveryRequest c s).isSome =
        (truthy (paramsGet (getSearchParams c s) "code") ||
          truthy (paramsGet (getHashParams c s) "refresh_token")) := by
  refine ⟨by rw [run_handleSupabaseRedirect], ?_, recoveryRequest_isSome c s hrec⟩
  rcases redirected_log P c p s with ⟨pre, hpre, hreq⟩
  rcases getInitialSession_log P c p s with ⟨post, hlog, hpost⟩
  have hstep : afterRecoveryStep P c p s = redirected P c p s := by
    unfold afterRecoveryStep
    rw [if_pos hrec]
  refine ⟨pre, post, ?_, ?_, hreq, ?_, hpost⟩
  · rw [run_handleSupabaseRedirect]
    exact hpre
  · rw [hlog, hstep, hpre]
  · rw [hreq]
    cases hr : recoveryRequest c s with
    | none => simp
    | some r =>
      have := recoveryRequest_ne_getSession c s r hr
      simpa using fun h => this h.symm

/-- C12, witness: a recovery link with both tokens in its fragment; the
set-session call is recorded before the session read. -/
theorem bootstrap_recovery_before_session_read_witness :
    hasSupabaseRecoveryParams webCodec recoveryLinkLocal = true ∧
      recoveryRequest webCodec recoveryLinkLocal = some (Req.authSetSession "T1" "T2") ∧
      (run offlineProvider (handleSupabaseRedirect webCodec) () recoveryLinkLocal).2.2 =
        Except.ok () ∧
      (run offlineProvider (getInitialSession webCodec) () recoveryLinkLocal).2.1.log =
        [Event.request (Req.authSetSession "T1" "T2"), Event.request Req.authGetSession] :=
  ⟨by decide, by decide,
    (bootstrap_recovery_before_session_read offlineProvider webCodec () recoveryLinkLocal
      (by decide)).1, by rfl⟩

/-- C12, as stated, fails.  On a link with an access token and the recovery
marker but no refresh token, `hasSupabaseRecoveryParams()` holds, yet neither a
code exchange nor a set-session is made: the session read is the first and
only request of the bootstrap.  And on a link with a code and the recovery
marker away from the recovery routes, `hasSupabaseRecoveryParams()` is false,
so the bootstrap reads the session without the code exchange that
`handleSupabaseRedirect()` would make for that URL. -/
theorem bootstrap_session_read_without_recovery :
    (hasSupabaseRecoveryParams webCodec accessTokenOnlyLocal = true ∧
      newRequests accessTokenOnlyLocal
        (run offlineProvider (getInitialSession webCodec) () accessTokenOnlyLocal).2.1 =
        [Req.authGetSession]) ∧
    (hasSupabaseRecoveryParams webCodec codeOffRouteLocal = false ∧
      recoveryRequest webCodec codeOffRouteLocal = some (Req.authExchangeCodeForSession "C1") ∧
      newRequests codeOffRouteLocal
        (run offlineProvider (getInitialSession webCodec) () codeOffRouteLocal).2.1 =
        [Req.authGetSession]) := by
  refine ⟨⟨by decide, by rfl⟩, by decide, by decide, by rfl⟩

/-- C13.  On a mounted provider, a bootstrap whose session read is rejected or
answered with an error envelope ends anonymous (user, profile and session
null) with loading false; and every bootstrap, whatever the provider answers,
ends with loading false. -/
theorem bootstrap_failure_is_anonymous {σ : Type} (P : Provider σ) (c : ParamCodec) (p : σ)
    (s : Local) (hm : s.mounted = true) :
    (∀ e, (P.respond Req.authGetSession (afterRecoveryStep P c p s).1).2.result =
          Except.error e →
        (run P (getInitialSession c) p s).2.1.user = none ∧
          (run P (getInitialSession c) p s).2.1.userProfile = none ∧
          (run P (getInitialSession c) p s).2.1.session = none ∧
          (run P (getInitialSession c) p s).2.1.loading = false) ∧
      (∀ sess e, (P.respond Req.authGetSession (afterRecoveryStep P c p s).1).2.result =
          Except.ok { session := sess, error := some e } →
        (run P (getInitialSession c) p s).2.1.user = none ∧
          (run P (getInitialSession c) p s).2.1.userProfile = none ∧
          (run P (getInitialSession c) p s).2.1.session = none ∧
          (run P (getInitialSession c) p s).2.1.loading = false) ∧
      (run P (getInitialSession c) p s).2.1.loading = false ∧
      ∃ r, (run P (getInitialSession c) p s).2.2 = Except.ok r := by
  rcases hG : P.respond Req.authGetSession (afterRecoveryStep P c p s).1 with ⟨pG, ⟨elG, ans⟩⟩
  cases ans with
  | error e =>
    rw [run_getInitialSession_failed P c p pG s elG none e true hm (by rw [hG]; rfl)]
    exact ⟨fun _ _ => ⟨rfl, rfl, rfl, rfl⟩, fun _ _ _ => ⟨rfl, rfl, rfl, rfl⟩, rfl, _, rfl⟩
  | ok resp =>
    rcases resp with ⟨sess, er⟩
    cases er with
    | some e =>
      rw [run_getInitialSession_failed P c p pG s elG sess e false hm (by rw [hG]; rfl)]
      exact ⟨fun _ _ => ⟨rfl, rfl, rfl, rfl⟩, fun _ _ _ => ⟨rfl, rfl, rfl, rfl⟩, rfl, _, rfl⟩
    | none =>
      cases hu : sessionUser sess with
      | none =>
        rw [run_getInitialSession_anonymous P c p pG s elG sess hm hu hG]
        exact ⟨fun _ _ => ⟨rfl, rfl, rfl, rfl⟩, fun _ _ _ => ⟨rfl, rfl, rfl, rfl⟩, rfl, _, rfl⟩
      | some u =>
        rw [run_getInitialSession_user P c p pG s elG sess u hm hu hG]
        refine ⟨fun e he => ?_, fun sess1 e he => ?_, rfl, _, rfl⟩
        · cases he
        · injection he with he
          injection he with _ he
          cases he

/-- C13, witness: a fresh tab whose provider cannot be reached. -/
theorem bootstrap_failure_is_anonymous_witness :
    (run offlineProvider (getInitialSession webCodec) () Local.initial).2.1.user = none ∧
      (run offlineProvider (getInitialSession webCodec) () Local.initial).2.1.userProfile = none ∧
      (run offlineProvider (getInitialSession webCodec) () Local.initial).2.1.session = none ∧
      (run offlineProvider (getInitialSession webCodec) () Local.initial).2.1.loading = false :=
  (bootstrap_failure_is_anonymous offlineProvider webCodec () Local.initial rfl).1
    ⟨"TypeError", "Failed to fetch", false⟩ rfl

/-! ## Identity change (C14) -/

theorem sessionUserId_of_user (session : Option Session) (u : AuthUser)
    (hu : sessionUser session = some u) : sessionUserId session = JsId.str u.id := by
  cases session with
  | none => cases hu
  | some x =>
    simp only [sessionUser] at hu
    simp only [sessionUserId, hu]

/-- The function `fetchUserProfile` never rejects. -/
theorem run_fetchUserProfile_ok {σ : Type} (P : Provider σ) (p : σ) (s : Local) (userId : String) :
    ∃ v, (run P (fetchUserProfile userId) p s).2.2 = Except.ok v := by
  cases hc : freshCached s userId with
  | some e => rw [run_fetchUserProfile_hit P p s userId e hc]; exact ⟨_, rfl⟩
  | none =>
    cases hf : s.fetchInProgress with
    | true => rw [run_fetchUserProfile_dropped P p s userId hc hf]; exact ⟨_, rfl⟩
    | false => rw [run_fetchUserProfile_miss P p s userId hc hf]; exact ⟨_, rfl⟩

/-- A task suspended inside the first part of a sequence is the sequence
suspended at the same point. -/
theorem settle_bind_pending {σ α β : Type} (P : Provider σ) (x : Prog α) (f : α → Prog β)
    (p : σ) (s : Local) (h : (settle P x p s).2.2.completion = none) :
    settle P (Prog.bind x f) p s =
      ((settle P x p s).1, (settle P x p s).2.1, Prog.bind (settle P x p s).2.2 f) := by
  induction x generalizing p s with
  | pure a => cases h
  | throw e => cases h
  | read k ih => exact ih s p s h
  | modify g k ih => exact ih p (g s) h
  | await r k _ => rfl
  | post r k ih => exact ih _ s h

theorem completion_bind_pending {α β : Type} (t : Prog α) (f : α → Prog β)
    (h : t.completion = none) : (Prog.bind t f).completion = none := by
  cases t with
  | pure a => cases h
  | throw e => cases h
  | read k => rfl
  | modify g k => rfl
  | await r k => rfl
  | post r k => rfl

/-- When the first part of a sequence ends with a value, the sequence goes on
with its second part in the same turn. -/
theorem settle_bind_done {σ α β : Type} (P : Provider σ) (x : Prog α) (f : α → Prog β)
    (p p1 : σ) (s s1 : Local) (a : α) (h : settle P x p s = (p1, s1, Prog.pure a)) :
    settle P (Prog.bind x f) p s = settle P (f a) p1 s1 := by
  induction x generalizing p s with
  | pure b =>
    simp only [settle] at h
    injection h with h1 h2; injection h2 with h2 h3; injection h3 with h3
    subst h1; subst h2; subst h3
    rfl
  | throw e =>
    simp only [settle] at h
    injection h with _ h2; injection h2 with _ h3; cases h3
  | read k ih => exact ih s p s h
  | modify g k ih => exact ih p (g s) h
  | await r k _ =>
    simp only [settle] at h
    injection h with _ h2; injection h2 with _ h3; cases h3
  | post r k ih => exact ih _ s h

theorem resume_bind_done {σ α β : Type} (P : Provider σ) (t : Prog α) (f : α → Prog β)
    (p p1 : σ) (s s1 : Local) (a : α) (ht : t.completion = none)
    (h : resume P t p s = (p1, s1, Prog.pure a)) :
    resume P (Prog.bind t f) p s = settle P (f a) p1 s1 := by
  cases t with
  | pure b => cases ht
  | throw e => cases ht
  | read k => exact settle_bind_done P (Prog.read k) f p p1 s s1 a h
  | modify g k => exact settle_bind_done P (Prog.modify g k) f p p1 s s1 a h
  | await r k => exact settle_bind_done P _ f _ p1 _ s1 a h
  | post r k => exact settle_bind_done P (Prog.post r k) f p p1 s s1 a h

theorem settle_read {σ α : Type} (P : Provider σ) (k : Local → Prog α) (p : σ) (s : Local) :
    settle P (Prog.read k) p s = settle P (k s) p s := rfl

theorem settle_update_bind {σ β : Type} (P : Provider σ) (g : Local → Local)
    (k : Unit → Prog β) (p : σ) (s : Local) :
    settle P (Prog.bind (Prog.update g) k) p s = settle P (k ()) p (g s) := rfl

/-- The run of the handler on a notification that carries a new identity. -/
theorem run_onAuthStateChange_changed {σ : Type} (P : Provider σ) (p : σ) (s : Local)
    (event : String) (session : Option Session) (u : AuthUser)
    (hout : event ≠ "SIGNED_OUT") (href : event ≠ "TOKEN_REFRESHED")
    (hu : sessionUser session = some u) (hid : JsId.str u.id ≠ s.userIdRef) :
    run P (onAuthStateChange event session) p s =
      ((run P (fetchUserProfile u.id) p
          { s with session := session, user := some u, userIdRef := JsId.str u.id }).1,
        { (run P (fetchUserProfile u.id) p
            { s with session := session, user := some u, userIdRef := JsId.str u.id }).2.1 with
          loading := false },
        Except.ok ()) := by
  have hid2 : ¬ sessionUserId session = s.userIdRef := by
    rw [sessionUserId_of_user session u hu]; exact hid
  unfold onAuthStateChange
  rw [if_neg hout, if_neg href]
  simp only [run_read, hid2, if_false, hu, bind_def, pure_def, run_bind, setSession, setUser,
    setUserIdRef, setLoading, run_update, andThen_ok]
  rcases run_fetchUserProfile_ok P p
    { s with session := session, user := some u, userIdRef := JsId.str u.id } u.id with ⟨v, hv⟩
  rcases hr : run P (fetchUserProfile u.id) p
    { s with session := session, user := some u, userIdRef := JsId.str u.id } with ⟨p1, s1, r⟩
  rw [hr] at hv
  simp only at hv
  subst hv
  rfl

/-- C14.  A notification other than `SIGNED_OUT` and `TOKEN_REFRESHED` that
carries a user whose id differs from the tracked id: the handler sets session
and user to those of the notification and the tracked id to the new id, runs
`fetchUserProfile` for that id from that state, and sets loading to false in
the state the fetch leaves, changing nothing else.  While the fetch is
suspended at its query, loading is still what it was; it becomes false in the
turn in which the answer of the query lands. -/
theorem onAuthStateChange_new_identity {σ : Type} (P : Provider σ) (p : σ) (s : Local)
    (event : String) (session : Option Session) (u : AuthUser)
    (hout : event ≠ "SIGNED_OUT") (href : event ≠ "TOKEN_REFRESHED")
    (hu : sessionUser session = some u) (hid : JsId.str u.id ≠ s.userIdRef) :
    run P (onAuthStateChange event session) p s =
        ((run P (fetchUserProfile u.id) p
            { s with session := session, user := some u, userIdRef := JsId.str u.id }).1,
          { (run P (fetchUserProfile u.id) p
              { s with session := session, user := some u, userIdRef := JsId.str u.id }).2.1 with
            loading := false },
          Except.ok ()) ∧
      ((settle P (fetchUserProfile u.id) p
            { s with session := session, user := some u,
                     userIdRef := JsId.str u.id }).2.2.completion = none →
        (settle P (onAuthStateChange event session) p s).2.2.completion = none ∧
          (settle P (onAuthStateChange event session) p s).2.1 =
            { s with session := session, user := some u, userIdRef := JsId.str u.id
                     fetchInProgress := true
                     log := s.log ++ [Event.request (Req.selectProfile u.id)] } ∧
          (settle P (onAuthStateChange event session) p s).2.1.loading = s.loading ∧
          ∀ (p1 : σ) (s1 : Local),
            (resume P (settle P (onAuthStateChange event session) p s).2.2 p1 s1).2.2.completion =
                some (Except.ok ()) ∧
              (resume P (settle P (onAuthStateChange event session) p s).2.2 p1 s1).2.1 =
                { (fetchLanded s1 u.id (P.respond (Req.selectProfile u.id) p1).2).1 with
                  loading := false }) := by
  have hid2 : ¬ sessionUserId session = s.userIdRef := by
    rw [sessionUserId_of_user session u hu]; exact hid
  constructor
  · exact run_onAuthStateChange_changed P p s event session u hout href hu hid
  · intro hpend
    have hshape : settle P (onAuthStateChange event session) p s =
        settle P (Prog.bind (fetchUserProfile u.id)
          fun _ => Prog.bind (Prog.pure PUnit.unit) fun _ => setLoading false) p
          { s with session := session, user := some u, userIdRef := JsId.str u.id } := by
      unfold onAuthStateChange
      rw [if_neg hout, if_neg href, settle_read]
      simp only [hid2, if_false, hu, bind_def, pure_def, setSession, setUser,
        setUserIdRef, settle_update_bind]
    have hcs : freshCached { s with session := session, user := some u
                                    userIdRef := JsId.str u.id } u.id = freshCached s u.id := rfl
    cases hc : freshCached s u.id with
    | some e =>
      rw [hc] at hcs
      rw [settle_fetchUserProfile_hit P p _ u.id e hcs] at hpend
      cases hpend
    | none =>
      rw [hc] at hcs
      cases hf : s.fetchInProgress with
      | true =>
        rw [settle_fetchUserProfile_dropped P p _ u.id hcs hf] at hpend
        cases hpend
      | false =>
        have hmiss := settle_fetchUserProfile_miss P p
          { s with session := session, user := some u, userIdRef := JsId.str u.id } u.id hcs hf
        have h1 := settle_bind_pending P (fetchUserProfile u.id)
          (fun _ => Prog.bind (Prog.pure PUnit.unit) fun _ => setLoading false) p _ hpend
        rw [hshape, h1]
        refine ⟨completion_bind_pending _ _ hpend, ?_, ?_, ?_⟩
        · show (settle P (fetchUserProfile u.id) p _).2.1 = _
          rw [hmiss.2.1]
        · show (settle P (fetchUserProfile u.id) p _).2.1.loading = _
          rw [hmiss.2.1]
        · intro p1 s1
          have hr := hmiss.2.2.2 p1 s1
          have hr1 := resume_bind_done P _
            (fun _ => Prog.bind (Prog.pure PUnit.unit) fun _ => setLoading false) p1 _ s1 _ _
            hpend hr
          show (resume P (Prog.bind (settle P (fetchUserProfile u.id) p _).2.2 _)
              p1 s1).2.2.completion = _ ∧
            (resume P (Prog.bind (settle P (fetchUserProfile u.id) p _).2.2 _) p1 s1).2.1 = _
          rw [hr1]
          exact ⟨rfl, rfl⟩

/-- C14, witness: a `SIGNED_IN` notification for `u1` on a fresh tab whose
provider cannot be reached. -/
theorem onAuthStateChange_new_identity_witness :
    run offlineProvider (onAuthStateChange "SIGNED_IN" (some ⟨some ⟨"u1", "a@b.c"⟩, "tok"⟩)) ()
        Local.initial =
      ((run offlineProvider (fetchUserProfile "u1") ()
          { Local.initial with session := some ⟨some ⟨"u1", "a@b.c"⟩, "tok"⟩,
                               user := some ⟨"u1", "a@b.c"⟩, userIdRef := JsId.str "u1" }).1,
        { (run offlineProvider (fetchUserProfile "u1") ()
            { Local.initial with session := some ⟨some ⟨"u1", "a@b.c"⟩, "tok"⟩,
                                 user := some ⟨"u1", "a@b.c"⟩, userIdRef := JsId.str "u1" }).2.1 with
          loading := false },
        Except.ok ()) :=
  (onAuthStateChange_new_identity offlineProvider () Local.initial "SIGNED_IN"
    (some ⟨some ⟨"u1", "a@b.c"⟩, "tok"⟩) ⟨"u1", "a@b.c"⟩ (by decide) (by decide) rfl
    (by decide)).1
/-! ## Sign-out and the profile cache (C17) -/

/-- C17, as amended.  Neither `signOut()` nor a `SIGNED_OUT` notification
touches the profile cache: after either, the cache holds exactly the entries
it held before.  So a later `fetchUserProfile` for the signed-out identity,
less than 5 minutes after its entry was stored, is a hit: it returns the cached
profile and sets it as the profile state, without querying the provider. -/
theorem signOut_keeps_profile_cache {σ : Type} (P : Provider σ) (p : σ) (s : Local)
    (session : Option Session) :
    (run P signOut p s).2.1.profileCache = s.profileCache ∧
      (run P (onAuthStateChange "SIGNED_OUT" session) p s).2.1.profileCache = s.profileCache ∧
      ∀ (userId : String) (entry : CacheEntry) (q : σ) (t : Local),
        s.profileCache userId = some entry →
        (t.profileCache = (run P signOut p s).2.1.profileCache ∨
          t.profileCache =
            (run P (onAuthStateChange "SIGNED_OUT" session) p s).2.1.profileCache) →
        t.now - entry.timestamp < PROFILE_CACHE_TTL →
        run P (fetchUserProfile userId) q t =
          (q, { t with userProfile := entry.data }, Except.ok (some entry.data)) := by
  have h1 : (run P signOut p s).2.1.profileCache = s.profileCache := by
    rw [run_signOut]; rfl
  have h2 : (run P (onAuthStateChange "SIGNED_OUT" session) p s).2.1.profileCache =
      s.profileCache := rfl
  refine ⟨h1, h2, ?_⟩
  intro userId entry q t he ht hnow
  have hc : t.profileCache = s.profileCache := by
    rcases ht with ht | ht
    · rw [ht, h1]
    · rw [ht, h2]
  apply run_fetchUserProfile_hit
  rw [freshCached_eq_some_iff]
  rw [hc]
  exact ⟨he, hnow⟩

/-- C17, witness: identity `u1` signs out with its profile cached; the fetch
that follows is a hit. -/
theorem signOut_keeps_profile_cache_witness :
    run (constantServices authOkU1 trackOk) (fetchUserProfile "u1") ()
        (run (constantServices authOkU1 trackOk) signOut () cachedTrackedLocal).2.1 =
      ((), { (run (constantServices authOkU1 trackOk) signOut () cachedTrackedLocal).2.1 with
               userProfile := some ⟨"u1", "a@b.c", "a7", "user", false, true, false, 1000⟩ },
        Except.ok (some (some ⟨"u1", "a@b.c", "a7", "user", false, true, false, 1000⟩))) :=
  (signOut_keeps_profile_cache (constantServices authOkU1 trackOk) () cachedTrackedLocal none).2.2 "u1"
    { data := some ⟨"u1", "a@b.c", "a7", "user", false, true, false, 1000⟩, timestamp := 1000 }
    () _ rfl (Or.inl rfl) (by decide)

/-- C17, as stated, fails.  Identity `u1` is signed in with its profile cached
one second ago.  After `signOut()` resolves, and likewise after a `SIGNED_OUT`
notification, the cache still holds the entry of `u1`, and a `fetchUserProfile`
for `u1` right after is a hit: it returns the cached profile and records no
request. -/
theorem signOut_leaves_cached_profile :
    ((run (constantServices authOkU1 trackOk) signOut () cachedTrackedLocal).2.2 =
        Except.ok { error := none } ∧
      (run (constantServices authOkU1 trackOk) signOut () cachedTrackedLocal).2.1.user = none ∧
      (run (constantServices authOkU1 trackOk) signOut () cachedTrackedLocal).2.1.profileCache "u1" =
        some { data := some ⟨"u1", "a@b.c", "a7", "user", false, true, false, 1000⟩,
               timestamp := 1000 } ∧
      (run (constantServices authOkU1 trackOk) (fetchUserProfile "u1") ()
          (run (constantServices authOkU1 trackOk) signOut () cachedTrackedLocal).2.1).2.2 =
        Except.ok (some (some ⟨"u1", "a@b.c", "a7", "user", false, true, false, 1000⟩)) ∧
      newRequests (run (constantServices authOkU1 trackOk) signOut () cachedTrackedLocal).2.1
        (run (constantServices authOkU1 trackOk) (fetchUserProfile "u1") ()
          (run (constantServices authOkU1 trackOk) signOut () cachedTrackedLocal).2.1).2.1 = []) ∧
    ((run (constantServices authOkU1 trackOk) (onAuthStateChange "SIGNED_OUT" none) ()
          cachedTrackedLocal).2.1.profileCache "u1" =
        some { data := some ⟨"u1", "a@b.c", "a7", "user", false, true, false, 1000⟩,
               timestamp := 1000 } ∧
      (run (constantServices authOkU1 trackOk) (fetchUserProfile "u1") ()
          (run (constantServices authOkU1 trackOk) (onAuthStateChange "SIGNED_OUT" none) ()
            cachedTrackedLocal).2.1).2.2 =
        Except.ok (some (some ⟨"u1", "a@b.c", "a7", "user", false, true, false, 1000⟩)) ∧
      newRequests (run (constantServices authOkU1 trackOk) (onAuthStateChange "SIGNED_OUT" none) ()
          cachedTrackedLocal).2.1
        (run (constantServices authOkU1 trackOk) (fetchUserProfile "u1") ()
          (run (constantServices authOkU1 trackOk) (onAuthStateChange "SIGNED_OUT" none) ()
            cachedTrackedLocal).2.1).2.1 = []) := by
  refine ⟨⟨by rfl, by rfl, by rfl, by rfl, by rfl⟩, by rfl, by rfl, by rfl⟩

/-! ## Which helpers can reject (C18) -/

/-- C18, as amended.  For every provider outcome (success, error envelope,
thrown exception), `fetchUserProfile`, `trackSession` and
`handleSupabaseRedirect` resolve without rejecting.  `createUserProfile`
resolves with the inserted row when the insert succeeds, and rejects, with the
error of the insert, when the insert returns an error envelope or throws. -/
theorem helpers_reject_only_in_createUserProfile {σ : Type} (P : Provider σ) (c : ParamCodec)
    (p : σ) (s : Local) (userId action email : String) (sid : Option String) (u : AuthUser) :
    (∃ v, (run P (fetchUserProfile userId) p s).2.2 = Except.ok v) ∧
      (∃ v, (run P (trackSession action email sid) p s).2.2 = Except.ok v) ∧
      (run P (handleSupabaseRedirect c) p s).2.2 = Except.ok () ∧
      (run P (createUserProfile u) p s).2.2 =
        (match (P.respond (Req.insertProfile (rowFor u s.randoms s.now)) p).2.result with
          | Except.ok ⟨data, none⟩ => Except.ok data
          | Except.ok ⟨_, some e⟩ => Except.error e
          | Except.error e => Except.error e) := by
  refine ⟨run_fetchUserProfile_ok P p s userId, ?_, ?_, ?_⟩
  · rw [run_trackSession]; exact ⟨_, rfl⟩
  · rw [run_handleSupabaseRedirect]
  · exact congrArg (fun r => r.2.2) (run_createUserProfile P p s u)

/-- C18, as stated, fails for `createUserProfile`: when the provider cannot be
reached, the insert throws and `createUserProfile` rejects with that error. -/
theorem createUserProfile_rejects :
    (run offlineProvider (createUserProfile ⟨"u1", "a@b.c"⟩) () Local.initial).2.2 =
      Except.error ⟨"TypeError", "Failed to fetch", false⟩ := by
  rfl

/-! ## Overlapping fetches (C19) -/

/-- C19.  While a profile fetch for an identity is in flight (its call is
suspended at the query), a second `fetchUserProfile` call for the same identity,
made at that moment or later in the flight, returns `undefined` at once and
leaves provider, request log, cache, profile state and everything else as they
are.  In particular, when two calls for the same identity are started one after
the other, the second has ended with `undefined` while the first is still
suspended, and only the query of the first has been recorded. -/
theorem overlapping_fetch_is_dropped {σ : Type} (P : Provider σ) (p : σ) (s : Local)
    (userId : String)
    (hflight : (settle P (fetchUserProfile userId) p s).2.2.completion = none) :
    (∀ (q : σ) (t : Local),
        t.profileCache = (settle P (fetchUserProfile userId) p s).2.1.profileCache →
        t.fetchInProgress = (settle P (fetchUserProfile userId) p s).2.1.fetchInProgress →
        (settle P (fetchUserProfile userId) p s).2.1.now ≤ t.now →
        run P (fetchUserProfile userId) q t = (q, t, Except.ok none) ∧
          settle P (fetchUserProfile userId) q t = (q, t, Prog.pure none)) ∧
      (Duo.turns P ⟨p, s, fetchUserProfile userId, fetchUserProfile userId⟩
          [false, true]).second.completion = some (Except.ok none) ∧
      (Duo.turns P ⟨p, s, fetchUserProfile userId, fetchUserProfile userId⟩
          [false, true]).first.completion = none ∧
      (Duo.turns P ⟨p, s, fetchUserProfile userId, fetchUserProfile userId⟩ [false, true]).prov =
        p ∧
      (Duo.turns P ⟨p, s, fetchUserProfile userId, fetchUserProfile userId⟩ [false, true]).tab =
        { s with fetchInProgress := true
                 log := s.log ++ [Event.request (Req.selectProfile userId)] } := by
  cases hc : freshCached s userId with
  | some e =>
    rw [settle_fetchUserProfile_hit P p s userId e hc] at hflight
    cases hflight
  | none =>
    cases hf : s.fetchInProgress with
    | true =>
      rw [settle_fetchUserProfile_dropped P p s userId hc hf] at hflight
      cases hflight
    | false =>
      have hmiss := settle_fetchUserProfile_miss P p s userId hc hf
      have key : ∀ (q : σ) (t : Local),
          t.profileCache = (settle P (fetchUserProfile userId) p s).2.1.profileCache →
          t.fetchInProgress = (settle P (fetchUserProfile userId) p s).2.1.fetchInProgress →
          (settle P (fetchUserProfile userId) p s).2.1.now ≤ t.now →
          run P (fetchUserProfile userId) q t = (q, t, Except.ok none) ∧
            settle P (fetchUserProfile userId) q t = (q, t, Prog.pure none) := by
        intro q t h1 h2 h3
        rw [hmiss.2.1] at h1 h2 h3
        have hfl : t.fetchInProgress = true := h2
        have hcache : t.profileCache = s.profileCache := h1
        have hnow : s.now ≤ t.now := h3
        have hmissT : freshCached t userId = none := by
          rw [freshCached_eq_none_iff] at hc ⊢
          rw [hcache]
          rintro ⟨e, he, hfresh⟩
          exact hc ⟨e, he, by omega⟩
        exact ⟨run_fetchUserProfile_dropped P q t userId hmissT hfl,
          settle_fetchUserProfile_dropped P q t userId hmissT hfl⟩
      refine ⟨key, ?_⟩
      have hresume : ∀ (x : Prog (Option (Option Profile))) (q : σ) (t : Local),
          (x = fetchUserProfile userId) → resume P x q t = settle P x q t := by
        intro x q t hx
        subst hx
        rfl
      have hturn : Duo.turns P ⟨p, s, fetchUserProfile userId, fetchUserProfile userId⟩
          [false, true] =
          { prov := (settle P (fetchUserProfile userId) (settle P (fetchUserProfile userId) p s).1
                      (settle P (fetchUserProfile userId) p s).2.1).1
            tab := (settle P (fetchUserProfile userId) (settle P (fetchUserProfile userId) p s).1
                      (settle P (fetchUserProfile userId) p s).2.1).2.1
            first := (settle P (fetchUserProfile userId) p s).2.2
            second := (settle P (fetchUserProfile userId)
                      (settle P (fetchUserProfile userId) p s).1
                      (settle P (fetchUserProfile userId) p s).2.1).2.2 } := rfl
      rw [hturn, (key (settle P (fetchUserProfile userId) p s).1
        (settle P (fetchUserProfile userId) p s).2.1 rfl rfl (le_refl _)).2]
      exact ⟨rfl, hflight, hmiss.1, hmiss.2.1⟩

/-- C19, witness: two calls for `u1` started one after the other on a fresh
tab. -/
theorem overlapping_fetch_is_dropped_witness :
    (Duo.turns offlineProvider ⟨(), Local.initial, fetchUserProfile "u1", fetchUserProfile "u1"⟩
        [false, true]).second.completion = some (Except.ok none) ∧
      (Duo.turns offlineProvider ⟨(), Local.initial, fetchUserProfile "u1", fetchUserProfile "u1"⟩
        [false, true]).first.completion = none :=
  ⟨(overlapping_fetch_is_dropped offlineProvider () Local.initial "u1" rfl).2.1,
    (overlapping_fetch_is_dropped offlineProvider () Local.initial "u1" rfl).2.2.1⟩

/-! ## Identity and profile (C15, C16) -/

/-- The handler on a notification without a user that changes the tracked id. -/
theorem run_onAuthStateChange_no_user {σ : Type} (P : Provider σ) (p : σ) (s : Local)
    (event : String) (session : Option Session)
    (hout : event ≠ "SIGNED_OUT") (href : event ≠ "TOKEN_REFRESHED")
    (hu : sessionUser session = none) (hid : sessionUserId session ≠ s.userIdRef) :
    run P (onAuthStateChange event session) p s =
      (p, { s with user := none, userProfile := none, session := none,
                   userIdRef := JsId.null, loading := false }, Except.ok ()) := by
  unfold onAuthStateChange
  rw [if_neg hout, if_neg href]
  simp only [run_read, hid, if_false, hu, bind_def, pure_def, run_bind, setSession, setUser,
    setUserProfile, setUserIdRef, setLoading, run_update, andThen_ok]

/-- C15, as amended.  Identity and profile are both null right after each
reset: a `SIGNED_OUT` notification, a notification without a user that changes
the tracked id, `signOut()`, and a bootstrap on a mounted provider whose session
read fails or finds no user.  But profile can be non-null while identity is
null: a profile fetch whose query is answered with a row sets the profile to
that row whatever the identity is at that moment (null after a `SIGNED_OUT`
notification), and `signUp`, when it creates a profile, sets the profile
and leaves the identity as it was. -/
theorem identity_profile_pairing {σ : Type} (P : Provider σ) (p : σ) (s : Local)
    (session : Option Session) :
    ((run P (onAuthStateChange "SIGNED_OUT" session) p s).2.1.user = none ∧
        (run P (onAuthStateChange "SIGNED_OUT" session) p s).2.1.userProfile = none) ∧
      (∀ event, event ≠ "SIGNED_OUT" → event ≠ "TOKEN_REFRESHED" →
        sessionUser session = none → sessionUserId session ≠ s.userIdRef →
        (run P (onAuthStateChange event session) p s).2.1.user = none ∧
          (run P (onAuthStateChange event session) p s).2.1.userProfile = none) ∧
      ((run P signOut p s).2.1.user = none ∧ (run P signOut p s).2.1.userProfile = none) ∧
      (∀ c, s.mounted = true →
        (∀ resp, (P.respond Req.authGetSession (afterRecoveryStep P c p s).1).2.result =
            Except.ok resp → resp.error = none → sessionUser resp.session = none) →
        (run P (getInitialSession c) p s).2.1.user = none ∧
          (run P (getInitialSession c) p s).2.1.userProfile = none) ∧
      (∀ userId, (settle P (fetchUserProfile userId) p s).2.2.completion = none →
        ∀ (p1 : σ) (s1 : Local) (resp : RowResp),
          (P.respond (Req.selectProfile userId) p1).2.result = Except.ok resp →
          resp.error = none →
          (resume P (settle P (fetchUserProfile userId) p s).2.2 p1 s1).2.1.userProfile =
              resp.data ∧
            (resume P (settle P (fetchUserProfile userId) p s).2.2 p1 s1).2.1.user = s1.user) ∧
      (∀ (email password : String) (u : AuthUser) (sess : Option Session)
          (data : Option Profile) (pA pC : σ) (elA elC : Int),
        P.respond (Req.authSignUp email password (s.origin ++ "/dashboard")) p =
          (pA, ⟨elA, Except.ok { data := { user := some u, session := sess }, error := none }⟩) →
        P.respond (Req.insertProfile (rowFor u s.randoms (s.now + elA))) pA =
          (pC, ⟨elC, Except.ok { data := data, error := none }⟩) →
        (run P (signUp email password) p s).2.1.userProfile = data ∧
          (run P (signUp email password) p s).2.1.user = s.user) := by
  refine ⟨⟨rfl, rfl⟩, ?_, ?_, ?_, ?_, ?_⟩
  · intro event hout href hu hid
    rw [run_onAuthStateChange_no_user P p s event session hout href hu hid]
    exact ⟨rfl, rfl⟩
  · rw [run_signOut]
    exact ⟨rfl, rfl⟩
  · intro c hm hno
    rcases hG : P.respond Req.authGetSession (afterRecoveryStep P c p s).1 with ⟨pG, ⟨elG, ans⟩⟩
    cases ans with
    | error e =>
      rw [run_getInitialSession_failed P c p pG s elG none e true hm (by rw [hG]; rfl)]
      exact ⟨rfl, rfl⟩
    | ok resp =>
      rcases resp with ⟨sess, er⟩
      cases er with
      | some e =>
        rw [run_getInitialSession_failed P c p pG s elG sess e false hm (by rw [hG]; rfl)]
        exact ⟨rfl, rfl⟩
      | none =>
        have hu : sessionUser sess = none := hno ⟨sess, none⟩ (by rw [hG]) rfl
        rw [run_getInitialSession_anonymous P c p pG s elG sess hm hu hG]
        exact ⟨rfl, rfl⟩
  · intro userId hflight p1 s1 resp hres herr
    cases hc : freshCached s userId with
    | some e =>
      rw [settle_fetchUserProfile_hit P p s userId e hc] at hflight
      cases hflight
    | none =>
      cases hf : s.fetchInProgress with
      | true =>
        rw [settle_fetchUserProfile_dropped P p s userId hc hf] at hflight
        cases hflight
      | false =>
        rw [(settle_fetchUserProfile_miss P p s userId hc hf).2.2.2 p1 s1]
        rcases resp with ⟨d, er⟩
        simp only at herr
        subst herr
        simp [fetchLanded, hres]
  · intro email password u sess data pA pC elA elC hA hC
    rw [run_signUp_created P p pA pC s email password u sess data elA elC hA hC]
    exact ⟨rfl, rfl⟩

/-- C15, witness: on a fresh tab, a sign-up that returns the user `u1` without
a session creates the profile of `u1` and leaves the identity null. -/
theorem identity_profile_pairing_witness :
    (run (tableProvider (constantServices authNoSessionU1 trackOk)) (signUp "new@x.y" "pw")
        emptyBackend Local.initial).2.1.userProfile =
        some (rowFor ⟨"u1", "new@x.y"⟩ [] 0) ∧
      (run (tableProvider (constantServices authNoSessionU1 trackOk)) (signUp "new@x.y" "pw")
        emptyBackend Local.initial).2.1.user = none :=
  (identity_profile_pairing (tableProvider (constantServices authNoSessionU1 trackOk))
    emptyBackend Local.initial none).2.2.2.2.2 "new@x.y" "pw" ⟨"u1", "new@x.y"⟩ none
    (some (rowFor ⟨"u1", "new@x.y"⟩ [] 0)) emptyBackend
    { emptyBackend with table := [rowFor ⟨"u1", "new@x.y"⟩ [] 0] } 0 0 rfl rfl

/-- C15, as stated, fails, on both of its examples.  A `SIGNED_IN` notification
for `u1` starts a profile fetch; a `SIGNED_OUT` notification is processed while
the query is in flight; then the answer lands: both handlers have ended, the
identity is null and the profile is the row of `u1`.  And on a fresh tab a
`signUp` that returns the user `u1` without a session creates the profile:
the identity is still null and the profile is the new row. -/
theorem profile_set_while_identity_null :
    ((Duo.turns (tableProvider (constantServices authOkU1 trackOk))
          ⟨backendU1, Local.initial,
            onAuthStateChange "SIGNED_IN" (some ⟨some ⟨"u1", "new@x.y"⟩, "tok"⟩),
            onAuthStateChange "SIGNED_OUT" none⟩ [false, true, false]).first.completion =
        some (Except.ok ()) ∧
      (Duo.turns (tableProvider (constantServices authOkU1 trackOk))
          ⟨backendU1, Local.initial,
            onAuthStateChange "SIGNED_IN" (some ⟨some ⟨"u1", "new@x.y"⟩, "tok"⟩),
            onAuthStateChange "SIGNED_OUT" none⟩ [false, true, false]).second.completion =
        some (Except.ok ()) ∧
      (Duo.turns (tableProvider (constantServices authOkU1 trackOk))
          ⟨backendU1, Local.initial,
            onAuthStateChange "SIGNED_IN" (some ⟨some ⟨"u1", "new@x.y"⟩, "tok"⟩),
            onAuthStateChange "SIGNED_OUT" none⟩ [false, true, false]).tab.user = none ∧
      (Duo.turns (tableProvider (constantServices authOkU1 trackOk))
          ⟨backendU1, Local.initial,
            onAuthStateChange "SIGNED_IN" (some ⟨some ⟨"u1", "new@x.y"⟩, "tok"⟩),
            onAuthStateChange "SIGNED_OUT" none⟩ [false, true, false]).tab.userProfile =
        some rowU1) ∧
    ((run (tableProvider (constantServices authNoSessionU1 trackOk)) (signUp "new@x.y" "pw")
        emptyBackend Local.initial).2.2 =
        Except.ok { success := true, data := some authNoSessionU1.data, error := none } ∧
      (run (tableProvider (constantServices authNoSessionU1 trackOk)) (signUp "new@x.y" "pw")
        emptyBackend Local.initial).2.1.user = none ∧
      (run (tableProvider (constantServices authNoSessionU1 trackOk)) (signUp "new@x.y" "pw")
        emptyBackend Local.initial).2.1.userProfile =
        some ⟨"u1", "new@x.y", "new0", "user", false, true, false, 0⟩) := by
  refine ⟨⟨by rfl, by rfl, by rfl, by rfl⟩, by rfl, by rfl, by rfl⟩

/-- C16, as amended.  On a notification that changes the identity to `B`,
session, identity and tracked id are replaced by those of the notification, but
the profile is replaced only when the profile fetch for `B` delivers one: by
the fresh cache entry of `B`, or by the data of a successful query.  When the
query fails (error envelope or rejection), or the fetch is dropped because
another fetch is in flight, the profile shown before stays in place, paired
with the identity `B`. -/
theorem identity_change_keeps_profile_unless_fetched {σ : Type} (P : Provider σ) (p : σ)
    (s : Local) (event : String) (session : Option Session) (u : AuthUser)
    (hout : event ≠ "SIGNED_OUT") (href : event ≠ "TOKEN_REFRESHED")
    (hu : sessionUser session = some u) (hid : JsId.str u.id ≠ s.userIdRef) :
    (run P (onAuthStateChange event session) p s).2.1.user = some u ∧
      (run P (onAuthStateChange event session) p s).2.1.session = session ∧
      (run P (onAuthStateChange event session) p s).2.1.userIdRef = JsId.str u.id ∧
      (∀ e, freshCached s u.id = some e →
        (run P (onAuthStateChange event session) p s).2.1.userProfile = e.data) ∧
      (freshCached s u.id = none → s.fetchInProgress = true →
        (run P (onAuthStateChange event session) p s).2.1.userProfile = s.userProfile) ∧
      (freshCached s u.id = none → s.fetchInProgress = false →
        (run P (onAuthStateChange event session) p s).2.1.userProfile =
          match (P.respond (Req.selectProfile u.id) p).2.result with
          | Except.ok ⟨data, none⟩ => data
          | _ => s.userProfile) := by
  rw [run_onAuthStateChange_changed P p s event session u hout href hu hid]
  have hcs : freshCached { s with session := session, user := some u
                                  userIdRef := JsId.str u.id } u.id = freshCached s u.id := rfl
  cases hc : freshCached s u.id with
  | some e =>
    rw [hc] at hcs
    rw [run_fetchUserProfile_hit P p _ u.id e hcs]
    refine ⟨rfl, rfl, rfl, ?_, ?_, ?_⟩
    · intro e1 he1
      cases he1
      rfl
    · intro h; cases h
    · intro h; cases h
  | none =>
    rw [hc] at hcs
    rcases Bool.eq_false_or_eq_true s.fetchInProgress with hf | hf
    · rw [run_fetchUserProfile_dropped P p _ u.id hcs hf]
      refine ⟨rfl, rfl, rfl, ?_, ?_, ?_⟩
      · intro e1 he1; cases he1
      · intro _ _; rfl
      · intro _ h; rw [hf] at h; cases h
    · rw [run_fetchUserProfile_miss P p _ u.id hcs hf]
      rcases P.respond (Req.selectProfile u.id) p with ⟨p1, ⟨el, res⟩⟩
      cases res with
      | error e =>
        refine ⟨rfl, rfl, rfl, ?_, ?_, ?_⟩
        · intro e1 he1; cases he1
        · intro _ h; rw [hf] at h; cases h
        · intro _ _; rfl
      | ok resp =>
        rcases resp with ⟨d, er⟩
        cases er with
        | some e =>
          refine ⟨rfl, rfl, rfl, ?_, ?_, ?_⟩
          · intro e1 he1; cases he1
          · intro _ h; rw [hf] at h; cases h
          · intro _ _; rfl
        | none =>
          refine ⟨rfl, rfl, rfl, ?_, ?_, ?_⟩
          · intro e1 he1; cases he1
          · intro _ h; rw [hf] at h; cases h
          · intro _ _; rfl

/-- C16, witness: the tab shows `a1` with its profile; a `SIGNED_IN`
notification for `b2` arrives while the provider cannot be reached. -/
theorem identity_change_keeps_profile_unless_fetched_witness :
    (run offlineProvider (onAuthStateChange "SIGNED_IN" (some ⟨some ⟨"b2", "b@x.y"⟩, "tokB"⟩)) ()
        signedInA1Local).2.1.userProfile = signedInA1Local.userProfile :=
  (identity_change_keeps_profile_unless_fetched offlineProvider () signedInA1Local "SIGNED_IN"
    (some ⟨some ⟨"b2", "b@x.y"⟩, "tokB"⟩) ⟨"b2", "b@x.y"⟩ (by decide) (by decide) rfl
    (by decide)).2.2.2.2.2 rfl rfl

/-- C16, as stated, fails.  The tab shows identity `a1` with the profile of
`a1`.  A `SIGNED_IN` notification for `b2` arrives and the profile query for
`b2` fails (the provider cannot be reached), or is dropped because another
fetch is in flight: the handler ends with identity `b2` paired with the
profile of `a1`. -/
theorem identity_b_with_profile_of_a :
    ((run offlineProvider
          (onAuthStateChange "SIGNED_IN" (some ⟨some ⟨"b2", "b@x.y"⟩, "tokB"⟩)) ()
          signedInA1Local).2.2 = Except.ok () ∧
      (run offlineProvider
          (onAuthStateChange "SIGNED_IN" (some ⟨some ⟨"b2", "b@x.y"⟩, "tokB"⟩)) ()
          signedInA1Local).2.1.user = some ⟨"b2", "b@x.y"⟩ ∧
      (run offlineProvider
          (onAuthStateChange "SIGNED_IN" (some ⟨some ⟨"b2", "b@x.y"⟩, "tokB"⟩)) ()
          signedInA1Local).2.1.userProfile =
        some ⟨"a1", "a@x.y", "a7", "admin", true, true, false, 5⟩) ∧
    ((run (tableProvider (constantServices authOkU1 trackOk))
          (onAuthStateChange "SIGNED_IN" (some ⟨some ⟨"b2", "b@x.y"⟩, "tokB"⟩)) backendU1
          { signedInA1Local with fetchInProgress := true }).2.1.user = some ⟨"b2", "b@x.y"⟩ ∧
      (run (tableProvider (constantServices authOkU1 trackOk))
          (onAuthStateChange "SIGNED_IN" (some ⟨some ⟨"b2", "b@x.y"⟩, "tokB"⟩)) backendU1
          { signedInA1Local with fetchInProgress := true }).2.1.userProfile =
        some ⟨"a1", "a@x.y", "a7", "admin", true, true, false, 5⟩) := by
  refine ⟨⟨by rfl, by rfl, by rfl⟩, by rfl, by rfl⟩

/-! ## Clearing the recovery parameters (C20) -/

theorem withoutKeys_eq_filter (keys : List String) (l : List (String × String)) :
    withoutKeys keys l = l.filter fun kv => decide (kv.1 ∉ keys) := by
  unfold withoutKeys
  induction keys generalizing l with
  | nil => simp
  | cons k ks ih =>
    rw [List.foldl_cons, ih, paramsDelete, List.filter_filter]
    congr 1
    funext kv
    by_cases h1 : kv.1 = k <;> by_cases h2 : kv.1 ∈ ks <;> simp [h1, h2]

theorem substring1_sep (sep : Char) (x : String) :
    substring1 (String.singleton sep ++ x) = x := by
  unfold substring1
  show String.mk ((String.singleton sep ++ x).data.drop 1) = x
  rw [String.data_append]
  rfl

theorem length_sep_append (sep : Char) (x : String) (hx : x ≠ "") :
    ¬ (String.singleton sep ++ x = "" ∨ (String.singleton sep ++ x).length ≤ 1) := by
  have hlen : (String.singleton sep ++ x).length = 1 + x.length := by
    rw [String.length_append]; rfl
  have hpos : 0 < x.length := by
    rcases x with ⟨d⟩
    cases d with
    | nil => exact absurd rfl hx
    | cons a r => simp [String.length]
  rintro (h | h)
  · rw [h] at hlen
    simp at hlen
    omega
  · omega

/-- Reading back the part of the location that `clearSupabaseParams()` wrote. -/
theorem parse_partFor (c : ParamCodec) (hc : c.Lawful) (sep : Char)
    (l : List (String × String)) :
    (if partFor c (String.singleton sep) l = "" ∨ (partFor c (String.singleton sep) l).length ≤ 1
      then [] else c.parse (substring1 (partFor c (String.singleton sep) l))) = l := by
  unfold partFor
  by_cases h : c.serialize l = ""
  · have hl : l = [] := (hc.serialize_eq_empty l).1 h
    have hne : ¬ c.serialize l ≠ "" := fun h1 => h1 h
    rw [if_neg hne, if_pos (Or.inl rfl), hl]
  · rw [if_pos h, if_neg (length_sep_append sep _ h), substring1_sep, hc.parse_serialize]

theorem partFor_eq (c : ParamCodec) (hc : c.Lawful) (sep : String) (l : List (String × String)) :
    partFor c sep l = if l = [] then "" else sep ++ c.serialize l := by
  unfold partFor
  by_cases h : l = []
  · have h0 := (hc.serialize_eq_empty l).2 h
    have hne : ¬ c.serialize l ≠ "" := fun h1 => h1 h0
    rw [if_neg hne, if_pos h]
  · have : c.serialize l ≠ "" := fun h1 => h ((hc.serialize_eq_empty l).1 h1)
    simp [h, this]

/-- C20.  For every location (path, query, fragment), `clearSupabaseParams()`
rewrites it to the same path, with the query parameters named `code`, `type`
or `redirect_to` and the fragment parameters named `access_token`,
`refresh_token`, `expires_in`, `token_type`, `type` or `provider_token` removed,
and every other query and fragment parameter kept with its value, in the same
order; `?` is written only when query parameters remain, `#` only when fragment
parameters remain; the rewritten URL is what `history.replaceState` receives. -/
theorem clearSupabaseParams_strips_only_recovery_keys {σ : Type} (P : Provider σ)
    (c : ParamCodec) (hc : c.Lawful) (p : σ) (s : Local) :
    (run P (clearSupabaseParams c) p s).1 = p ∧
      (run P (clearSupabaseParams c) p s).2.2 = Except.ok () ∧
      (run P (clearSupabaseParams c) p s).2.1.pathname = s.pathname ∧
      getSearchParams c (run P (clearSupabaseParams c) p s).2.1 =
        (getSearchParams c s).filter (fun kv => decide (kv.1 ∉ SEARCH_KEYS_TO_CLEAR)) ∧
      getHashParams c (run P (clearSupabaseParams c) p s).2.1 =
        (getHashParams c s).filter (fun kv => decide (kv.1 ∉ HASH_KEYS_TO_CLEAR)) ∧
      (run P (clearSupabaseParams c) p s).2.1.search =
        (if (getSearchParams c s).filter (fun kv => decide (kv.1 ∉ SEARCH_KEYS_TO_CLEAR)) = []
          then ""
          else "?" ++ c.serialize
            ((getSearchParams c s).filter (fun kv => decide (kv.1 ∉ SEARCH_KEYS_TO_CLEAR)))) ∧
      (run P (clearSupabaseParams c) p s).2.1.hash =
        (if (getHashParams c s).filter (fun kv => decide (kv.1 ∉ HASH_KEYS_TO_CLEAR)) = []
          then ""
          else "#" ++ c.serialize
            ((getHashParams c s).filter (fun kv => decide (kv.1 ∉ HASH_KEYS_TO_CLEAR)))) ∧
      (run P (clearSupabaseParams c) p s).2.1.log =
        s.log ++ [Event.historyReplaceState
          ((run P (clearSupabaseParams c) p s).2.1.pathname ++
            (run P (clearSupabaseParams c) p s).2.1.search ++
            (run P (clearSupabaseParams c) p s).2.1.hash)] := by
  rw [run_clearSupabaseParams]
  refine ⟨rfl, rfl, rfl, ?_, ?_, ?_, ?_, rfl⟩
  · show (if partFor c "?" _ = "" ∨ (partFor c "?" _).length ≤ 1 then []
      else c.parse (substring1 (partFor c "?" _))) = _
    rw [← withoutKeys_eq_filter]
    exact parse_partFor c hc '?' _
  · show (if partFor c "#" _ = "" ∨ (partFor c "#" _).length ≤ 1 then []
      else c.parse (substring1 (partFor c "#" _))) = _
    rw [← withoutKeys_eq_filter]
    exact parse_partFor c hc '#' _
  · show partFor c "?" _ = _
    rw [partFor_eq c hc, withoutKeys_eq_filter]
  · show partFor c "#" _ = _
    rw [partFor_eq c hc, withoutKeys_eq_filter]

/-- C20, witness: a recovery link that also carries `tab`, `ref` and `section`;
exactly these three are left, in place. -/
theorem clearSupabaseParams_strips_only_recovery_keys_witness :
    getSearchParams webCodec
        (run offlineProvider (clearSupabaseParams webCodec) () mixedParamsLocal).2.1 =
        (getSearchParams webCodec mixedParamsLocal).filter
          (fun kv => decide (kv.1 ∉ SEARCH_KEYS_TO_CLEAR)) ∧
      (run offlineProvider (clearSupabaseParams webCodec) () mixedParamsLocal).2.1.search =
        "?tab=1&ref=mail" ∧
      (run offlineProvider (clearSupabaseParams webCodec) () mixedParamsLocal).2.1.hash =
        "#section=top" :=
  ⟨(clearSupabaseParams_strips_only_recovery_keys offlineProvider webCodec webCodec_lawful ()
      mixedParamsLocal).2.2.2.1, by decide, by decide⟩

/-! ## The redirect middleware on cleaned and on recovery URLs (C21 to C24) -/

theorem paramsGet_filter_removed (keys : List String) (l : List (String × String))
    (key : String) (hk : key ∈ keys) :
    paramsGet (l.filter fun kv => decide (kv.1 ∉ keys)) key = none := by
  unfold paramsGet
  induction l with
  | nil => rfl
  | cons kv rest ih =>
    by_cases h : kv.1 ∈ keys
    · rw [List.filter_cons_of_neg (by simpa using h)]
      exact ih
    · rw [List.filter_cons_of_pos (by simpa using h)]
      have hne : ¬ key = kv.1 := fun e => h (e ▸ hk)
      rcases kv with ⟨k, v⟩
      rw [List.lookup_cons]
      have : (key == k) = false := by simpa using hne
      rw [this]
      exact ih

theorem getSearchParams_cleaned (c : ParamCodec) (hc : c.Lawful) (s : Local) :
    getSearchParams c (cleaned c s) =
      (getSearchParams c s).filter fun kv => decide (kv.1 ∉ SEARCH_KEYS_TO_CLEAR) := by
  show (if partFor c "?" _ = "" ∨ (partFor c "?" _).length ≤ 1 then []
    else c.parse (substring1 (partFor c "?" _))) = _
  rw [← withoutKeys_eq_filter]
  exact parse_partFor c hc '?' _

theorem getHashParams_cleaned (c : ParamCodec) (hc : c.Lawful) (s : Local) :
    getHashParams c (cleaned c s) =
      (getHashParams c s).filter fun kv => decide (kv.1 ∉ HASH_KEYS_TO_CLEAR) := by
  show (if partFor c "#" _ = "" ∨ (partFor c "#" _).length ≤ 1 then []
    else c.parse (substring1 (partFor c "#" _))) = _
  rw [← withoutKeys_eq_filter]
  exact parse_partFor c hc '#' _

theorem withoutKeys_withoutKeys (keys : List String) (l : List (String × String)) :
    withoutKeys keys (withoutKeys keys l) = withoutKeys keys l := by
  rw [withoutKeys_eq_filter, withoutKeys_eq_filter, List.filter_filter]
  congr 1
  funext kv
  simp

/-- A cleaned location carries no parameter that starts a recovery. -/
theorem recoveryRequest_cleaned (c : ParamCodec) (hc : c.Lawful) (s : Local) :
    recoveryRequest c (cleaned c s) = none := by
  have h1 : paramsGet (getSearchParams c (cleaned c s)) "code" = none := by
    rw [getSearchParams_cleaned c hc]
    exact paramsGet_filter_removed _ _ _ (by decide)
  have h2 : paramsGet (getSearchParams c (cleaned c s)) "type" = none := by
    rw [getSearchParams_cleaned c hc]
    exact paramsGet_filter_removed _ _ _ (by decide)
  have h3 : paramsGet (getHashParams c (cleaned c s)) "type" = none := by
    rw [getHashParams_cleaned c hc]
    exact paramsGet_filter_removed _ _ _ (by decide)
  unfold recoveryRequest recoveryType
  rw [h1, h2, h3]
  rfl

theorem cleaned_cleaned_location (c : ParamCodec) (hc : c.Lawful) (s : Local) :
    (cleaned c (cleaned c s)).pathname = (cleaned c s).pathname ∧
      (cleaned c (cleaned c s)).search = (cleaned c s).search ∧
      (cleaned c (cleaned c s)).hash = (cleaned c s).hash := by
  refine ⟨rfl, ?_, ?_⟩
  · show partFor c "?" (withoutKeys SEARCH_KEYS_TO_CLEAR (getSearchParams c (cleaned c s))) =
      partFor c "?" (withoutKeys SEARCH_KEYS_TO_CLEAR (getSearchParams c s))
    rw [getSearchParams_cleaned c hc, ← withoutKeys_eq_filter, withoutKeys_withoutKeys]
  · show partFor c "#" (withoutKeys HASH_KEYS_TO_CLEAR (getHashParams c (cleaned c s))) =
      partFor c "#" (withoutKeys HASH_KEYS_TO_CLEAR (getHashParams c s))
    rw [getHashParams_cleaned c hc, ← withoutKeys_eq_filter, withoutKeys_withoutKeys]

/-- C21.  Stripping is idempotent.  For every location, `clearSupabaseParams()`
applied to the location it has produced writes the very same path, query and
fragment again, and passes that same URL to `history.replaceState`; and
`handleSupabaseRedirect()` on a location that `clearSupabaseParams()` has
produced makes no provider call, records nothing and changes nothing. -/
theorem clearSupabaseParams_idempotent {σ : Type} (P : Provider σ) (c : ParamCodec)
    (hc : c.Lawful) (p q : σ) (s : Local) :
    (run P (clearSupabaseParams c) q (run P (clearSupabaseParams c) p s).2.1).2.1.pathname =
        (run P (clearSupabaseParams c) p s).2.1.pathname ∧
      (run P (clearSupabaseParams c) q (run P (clearSupabaseParams c) p s).2.1).2.1.search =
        (run P (clearSupabaseParams c) p s).2.1.search ∧
      (run P (clearSupabaseParams c) q (run P (clearSupabaseParams c) p s).2.1).2.1.hash =
        (run P (clearSupabaseParams c) p s).2.1.hash ∧
      (run P (clearSupabaseParams c) q (run P (clearSupabaseParams c) p s).2.1).2.1.log =
        (run P (clearSupabaseParams c) p s).2.1.log ++
          [Event.historyReplaceState
            ((run P (clearSupabaseParams c) p s).2.1.pathname ++
              (run P (clearSupabaseParams c) p s).2.1.search ++
              (run P (clearSupabaseParams c) p s).2.1.hash)] ∧
      run P (handleSupabaseRedirect c) q (run P (clearSupabaseParams c) p s).2.1 =
        (q, (run P (clearSupabaseParams c) p s).2.1, Except.ok ()) := by
  rw [run_clearSupabaseParams, run_clearSupabaseParams]
  have h := cleaned_cleaned_location c hc s
  refine ⟨h.1, h.2.1, h.2.2, ?_, ?_⟩
  · show (cleaned c (cleaned c s)).log = _
    have hlog : (cleaned c (cleaned c s)).log = (cleaned c s).log ++
        [Event.historyReplaceState ((cleaned c (cleaned c s)).pathname ++
          (cleaned c (cleaned c s)).search ++ (cleaned c (cleaned c s)).hash)] := rfl
    rw [hlog, h.1, h.2.1, h.2.2]
  · rw [run_handleSupabaseRedirect]
    unfold redirected
    rw [recoveryRequest_cleaned c hc s]

/-- C21, witness: the recovery link with application parameters, cleaned twice. -/
theorem clearSupabaseParams_idempotent_witness :
    (run offlineProvider (clearSupabaseParams webCodec) ()
        (run offlineProvider (clearSupabaseParams webCodec) () mixedParamsLocal).2.1).2.1.search =
        (run offlineProvider (clearSupabaseParams webCodec) () mixedParamsLocal).2.1.search ∧
      (run offlineProvider (clearSupabaseParams webCodec) () mixedParamsLocal).2.1.search =
        "?tab=1&ref=mail" :=
  ⟨(clearSupabaseParams_idempotent offlineProvider webCodec webCodec_lawful () ()
      mixedParamsLocal).2.1, by decide⟩
/-- A path that contains `reset-password` or `forgot-password`, in any letter
case, passes `isRecoveryRoute()`. -/
theorem isRecoveryRoute_of_contains (s : Local) (a w b : List Char)
    (hpath : s.pathname.toList = a ++ w ++ b)
    (hw : w.map Char.toLower = "reset-password".toList ∨
      w.map Char.toLower = "forgot-password".toList) :
    isRecoveryRoute s = true := by
  have key : ∀ part : String, w.map Char.toLower = part.toList →
      includes (String.mk (s.pathname.toList.map Char.toLower)) part = true := by
    intro part hpart
    unfold includes
    rw [List.any_eq_true]
    refine ⟨part.toList ++ b.map Char.toLower, ?_, ?_⟩
    · rw [List.mem_tails]
      show _ <:+ s.pathname.toList.map Char.toLower
      rw [hpath, List.map_append, List.map_append, hpart, List.append_assoc]
      exact List.suffix_append _ _
    · rw [ List.isPrefixOf_iff_prefix]
      exact List.prefix_append _ _
  unfold isRecoveryRoute
  rcases hw with hw | hw
  · rw [key _ hw]; rfl
  · rw [key _ hw, Bool.or_true]

/-- C22, as amended.  For every URL whose path contains `reset-password` or
`forgot-password` in any letter case and whose query carries a non-empty
`code`, the recovery flow is detected, whether or not a `type=recovery` marker
is present in the query or the fragment: `hasSupabaseRecoveryParams()` returns
true, and `handleSupabaseRedirect()` exchanges the code and, when the exchange
call returns, clears the recovery parameters. -/
theorem recovery_route_detects_code {σ : Type} (P : Provider σ) (c : ParamCodec) (p : σ)
    (s : Local) (a w b : List Char) (code : String)
    (hpath : s.pathname.toList = a ++ w ++ b)
    (hw : w.map Char.toLower = "reset-password".toList ∨
      w.map Char.toLower = "forgot-password".toList)
    (hcode : paramsGet (getSearchParams c s) "code" = some code) (hne : code ≠ "") :
    hasSupabaseRecoveryParams c s = true ∧
      recoveryRequest c s = some (Req.authExchangeCodeForSession code) ∧
      run P (handleSupabaseRedirect c) p s =
        ((P.respond (Req.authExchangeCodeForSession code) p).1,
          (match (P.respond (Req.authExchangeCodeForSession code) p).2.result with
            | Except.ok _ =>
                cleaned c
                  { s with
                      log := s.log ++ [Event.request (Req.authExchangeCodeForSession code)]
                      now := s.now + (P.respond (Req.authExchangeCodeForSession code) p).2.elapsed }
            | Except.error _ =>
                { s with
                    log := s.log ++ [Event.request (Req.authExchangeCodeForSession code)]
                    now := s.now +
                      (P.respond (Req.authExchangeCodeForSession code) p).2.elapsed }),
          Except.ok ()) := by
  have hroute := isRecoveryRoute_of_contains s a w b hpath hw
  have htr : truthy (paramsGet (getSearchParams c s) "code") = true := by
    rw [hcode]; simpa [truthy] using hne
  have hreq : recoveryRequest c s = some (Req.authExchangeCodeForSession code) := by
    unfold recoveryRequest
    rw [htr, hroute, hcode]
    simp
  refine ⟨?_, hreq, ?_⟩
  · unfold hasSupabaseRecoveryParams
    rw [htr, hroute]
    simp
  · rw [run_handleSupabaseRedirect]
    unfold redirected
    rw [hreq]
    simp only
    rcases P.respond (Req.authExchangeCodeForSession code) p with ⟨p1, ⟨el, res⟩⟩
    cases res with
    | error e => rfl
    | ok v => rfl

/-- C22, witness: the password-reset route written in capitals, with a code and
no `type` marker. -/
theorem recovery_route_detects_code_witness :
    hasSupabaseRecoveryParams webCodec codeNoTypeLocal = true ∧
      recoveryRequest webCodec codeNoTypeLocal = some (Req.authExchangeCodeForSession "C1") :=
  ⟨(recovery_route_detects_code offlineProvider webCodec () codeNoTypeLocal
      "/Auth/".toList "RESET-Password".toList [] "C1" (by decide) (by decide) (by decide)
      (by decide)).1,
    (recovery_route_detects_code offlineProvider webCodec () codeNoTypeLocal
      "/Auth/".toList "RESET-Password".toList [] "C1" (by decide) (by decide) (by decide)
      (by decide)).2.1⟩

/-- C22, as stated, fails.  On the path `/reset-password`, a fragment that
carries an access token and a refresh token without a `type=recovery` marker
is not detected: `hasSupabaseRecoveryParams()` returns false, and
`handleSupabaseRedirect()` makes no provider call and leaves the tokens in the
URL. -/
theorem recovery_route_tokens_without_type_undetected :
    isRecoveryRoute tokensNoTypeLocal = true ∧
      paramsGet (getHashParams webCodec tokensNoTypeLocal) "access_token" = some "T1" ∧
      paramsGet (getHashParams webCodec tokensNoTypeLocal) "refresh_token" = some "T2" ∧
      hasSupabaseRecoveryParams webCodec tokensNoTypeLocal = false ∧
      newRequests tokensNoTypeLocal
        (run (constantServices authOkU1 trackOk) (handleSupabaseRedirect webCodec) ()
          tokensNoTypeLocal).2.1 = [] ∧
      (run (constantServices authOkU1 trackOk) (handleSupabaseRedirect webCodec) ()
          tokensNoTypeLocal).2.1.hash = "#access_token=T1&refresh_token=T2" := by
  refine ⟨by decide, by decide, by decide, by decide, by rfl, by rfl⟩

/-- C23, as amended.  For every URL with no `code` query parameter whose
fragment carries `type=recovery`, a non-empty `access_token=A` and a non-empty
`refresh_token=R`, `handleSupabaseRedirect()` calls the provider's set-session
exactly once, with `(A, R)`, and makes no other request.  When that call
returns (with or without an error in its envelope), the URL is then rewritten
with the same path and with the recovery keys removed from the fragment;
when the call throws, the URL is left as it was. -/
theorem token_recovery_sets_session_once {σ : Type} (P : Provider σ) (c : ParamCodec)
    (hc : c.Lawful) (p : σ) (s : Local) (A R : String)
    (hcode : paramsGet (getSearchParams c s) "code" = none)
    (htype : paramsGet (getHashParams c s) "type" = some "recovery")
    (hA : paramsGet (getHashParams c s) "access_token" = some A) (hAne : A ≠ "")
    (hR : paramsGet (getHashParams c s) "refresh_token" = some R) (hRne : R ≠ "") :
    (run P (handleSupabaseRedirect c) p s).2.2 = Except.ok () ∧
      newRequests s (run P (handleSupabaseRedirect c) p s).2.1 = [Req.authSetSession A R] ∧
      (run P (handleSupabaseRedirect c) p s).1 = (P.respond (Req.authSetSession A R) p).1 ∧
      (run P (handleSupabaseRedirect c) p s).2.1.pathname = s.pathname ∧
      (∀ v, (P.respond (Req.authSetSession A R) p).2.result = Except.ok v →
        getHashParams c (run P (handleSupabaseRedirect c) p s).2.1 =
            (getHashParams c s).filter (fun kv => decide (kv.1 ∉ HASH_KEYS_TO_CLEAR)) ∧
          paramsGet (getHashParams c (run P (handleSupabaseRedirect c) p s).2.1)
            "access_token" = none ∧
          paramsGet (getHashParams c (run P (handleSupabaseRedirect c) p s).2.1)
            "refresh_token" = none ∧
          paramsGet (getHashParams c (run P (handleSupabaseRedirect c) p s).2.1) "type" = none ∧
          (run P (handleSupabaseRedirect c) p s).2.1.log =
            s.log ++ [Event.request (Req.authSetSession A R),
              Event.historyReplaceState
                ((run P (handleSupabaseRedirect c) p s).2.1.pathname ++
                  (run P (handleSupabaseRedirect c) p s).2.1.search ++
                  (run P (handleSupabaseRedirect c) p s).2.1.hash)]) ∧
      (∀ e, (P.respond (Req.authSetSession A R) p).2.result = Except.error e →
        (run P (handleSupabaseRedirect c) p s).2.1.search = s.search ∧
          (run P (handleSupabaseRedirect c) p s).2.1.hash = s.hash ∧
          (run P (handleSupabaseRedirect c) p s).2.1.log =
            s.log ++ [Event.request (Req.authSetSession A R)]) := by
  have hty : recoveryType c s = some "recovery" := by
    unfold recoveryType orElseValue
    rw [htype]
    rfl
  have hreq : recoveryRequest c s = some (Req.authSetSession A R) := by
    unfold recoveryRequest
    rw [hcode, hty, hA, hR]
    have h1 : truthy (some A) = true := by simpa [truthy] using hAne
    have h2 : truthy (some R) = true := by simpa [truthy] using hRne
    rw [h1, h2]
    rfl
  rw [run_handleSupabaseRedirect]
  unfold redirected
  rw [hreq]
  dsimp only
  rcases P.respond (Req.authSetSession A R) p with ⟨p1, ⟨el, res⟩⟩
  cases res with
  | error e =>
    refine ⟨rfl, ?_, rfl, rfl, ?_, ?_⟩
    · exact newRequests_of_log s _ [Event.request (Req.authSetSession A R)] rfl
    · intro v hv; cases hv
    · intro _ _; exact ⟨rfl, rfl, rfl⟩
  | ok v =>
    refine ⟨rfl, ?_, rfl, rfl, ?_, ?_⟩
    · exact (newRequests_of_log s _
        ([Event.request (Req.authSetSession A R)] ++ [Event.historyReplaceState
          (s.pathname ++
            partFor c "?" (withoutKeys SEARCH_KEYS_TO_CLEAR (getSearchParams c s)) ++
            partFor c "#" (withoutKeys HASH_KEYS_TO_CLEAR (getHashParams c s)))])
        (List.append_assoc _ _ _)).trans rfl
    · intro _ _
      have hh := getHashParams_cleaned c hc
        { s with log := s.log ++ [Event.request (Req.authSetSession A R)], now := s.now + el }
      refine ⟨hh, ?_, ?_, ?_, ?_⟩
      · rw [hh]; exact paramsGet_filter_removed _ _ _ (by decide)
      · rw [hh]; exact paramsGet_filter_removed _ _ _ (by decide)
      · rw [hh]; exact paramsGet_filter_removed _ _ _ (by decide)
      · show (s.log ++ [Event.request (Req.authSetSession A R)]) ++ [_] = _
        rw [List.append_assoc]
        rfl
    · intro e he; cases he

/-- C23, witness: path `/reset-password` with fragment
`access_token=T1&refresh_token=T2&type=recovery`; set-session is called with
`(T1, T2)` and the final URL is `/reset-password` with no fragment. -/
theorem token_recovery_sets_session_once_witness :
    newRequests recoveryLinkLocal
        (run (constantServices authOkU1 trackOk) (handleSupabaseRedirect webCodec) ()
          recoveryLinkLocal).2.1 = [Req.authSetSession "T1" "T2"] ∧
      (run (constantServices authOkU1 trackOk) (handleSupabaseRedirect webCodec) ()
          recoveryLinkLocal).2.1.pathname ++
        (run (constantServices authOkU1 trackOk) (handleSupabaseRedirect webCodec) ()
          recoveryLinkLocal).2.1.search ++
        (run (constantServices authOkU1 trackOk) (handleSupabaseRedirect webCodec) ()
          recoveryLinkLocal).2.1.hash = "/reset-password" :=
  ⟨(token_recovery_sets_session_once (constantServices authOkU1 trackOk) webCodec
      webCodec_lawful () recoveryLinkLocal "T1" "T2" (by decide) (by decide) (by decide)
      (by decide) (by decide) (by decide)).2.1, by decide⟩

/-- C23, as stated, fails when the set-session call throws.  On path
`/reset-password` with fragment `access_token=T1&refresh_token=T2&type=recovery`
and a provider that cannot be reached, `handleSupabaseRedirect()` calls
set-session once with `(T1, T2)` and resolves, but the URL is not rewritten:
the fragment still carries the tokens. -/
theorem token_recovery_keeps_url_when_call_throws :
    (run offlineProvider (handleSupabaseRedirect webCodec) () recoveryLinkLocal).2.2 =
        Except.ok () ∧
      newRequests recoveryLinkLocal
        (run offlineProvider (handleSupabaseRedirect webCodec) () recoveryLinkLocal).2.1 =
        [Req.authSetSession "T1" "T2"] ∧
      (run offlineProvider (handleSupabaseRedirect webCodec) () recoveryLinkLocal).2.1.hash =
        "#access_token=T1&refresh_token=T2&type=recovery" ∧
      paramsGet
        (getHashParams webCodec
          (run offlineProvider (handleSupabaseRedirect webCodec) () recoveryLinkLocal).2.1)
        "access_token" = some "T1" := by
  refine ⟨by rfl, by rfl, by rfl, by decide⟩

/-- C24, as amended.  `handleSupabaseRedirect()` always resolves.  When it
makes its provider call (a code with `type=recovery` or on a recovery route;
or `type=recovery` with an access and a refresh token) and the call returns,
with or without an error in its envelope, the URL afterwards contains none of
the recognized query keys and none of the recognized fragment keys.  When the
call throws, and when no call is made, query and fragment are left exactly as
they were, recovery parameters included. -/
theorem redirect_clears_url_only_after_returned_call {σ : Type} (P : Provider σ)
    (c : ParamCodec) (hc : c.Lawful) (p : σ) (s : Local) :
    (run P (handleSupabaseRedirect c) p s).2.2 = Except.ok () ∧
      (∀ r v, recoveryRequest c s = some r → (P.respond r p).2.result = Except.ok v →
        (∀ key ∈ SEARCH_KEYS_TO_CLEAR,
          paramsGet (getSearchParams c (run P (handleSupabaseRedirect c) p s).2.1) key = none) ∧
        (∀ key ∈ HASH_KEYS_TO_CLEAR,
          paramsGet (getHashParams c (run P (handleSupabaseRedirect c) p s).2.1) key = none)) ∧
      (∀ r e, recoveryRequest c s = some r → (P.respond r p).2.result = Except.error e →
        (run P (handleSupabaseRedirect c) p s).2.1.search = s.search ∧
          (run P (handleSupabaseRedirect c) p s).2.1.hash = s.hash) ∧
      (recoveryRequest c s = none → run P (handleSupabaseRedirect c) p s = (p, s, Except.ok ())) ∧
      (recoveryRequest c s).isSome =
        ((truthy (paramsGet (getSearchParams c s) "code") &&
            (recoveryType c s == some "recovery" || isRecoveryRoute s)) ||
          (recoveryType c s == some "recovery" &&
            truthy (paramsGet (getHashParams c s) "access_token") &&
            truthy (paramsGet (getHashParams c s) "refresh_token"))) := by
  rw [run_handleSupabaseRedirect]
  refine ⟨rfl, ?_, ?_, ?_, ?_⟩
  · intro r v hr hv
    unfold redirected
    rw [hr]
    simp only [hv]
    constructor
    · intro key hkey
      rw [getSearchParams_cleaned c hc]
      exact paramsGet_filter_removed _ _ _ hkey
    · intro key hkey
      rw [getHashParams_cleaned c hc]
      exact paramsGet_filter_removed _ _ _ hkey
  · intro r e hr he
    unfold redirected
    rw [hr]
    dsimp only
    rw [he]
    exact ⟨rfl, rfl⟩
  · intro hr
    unfold redirected
    rw [hr]
  · unfold recoveryRequest
    by_cases h1 : (truthy (paramsGet (getSearchParams c s) "code") &&
        (recoveryType c s == some "recovery" || isRecoveryRoute s)) = true
    · rw [if_pos h1, h1]; rfl
    · rw [if_neg h1]
      have h1f := Bool.eq_false_iff.2 h1
      rw [h1f, Bool.false_or]
      by_cases h2 : (recoveryType c s == some "recovery" &&
          truthy (paramsGet (getHashParams c s) "access_token") &&
          truthy (paramsGet (getHashParams c s) "refresh_token")) = true
      · rw [if_pos h2, h2]; rfl
      · rw [if_neg h2, Bool.eq_false_iff.2 h2]; rfl

/-- C24, witness: the recovery link with both tokens, against a provider that
answers; afterwards the fragment carries no token. -/
theorem redirect_clears_url_only_after_returned_call_witness :
    paramsGet
        (getHashParams webCodec
          (run (constantServices authOkU1 trackOk) (handleSupabaseRedirect webCodec) ()
            recoveryLinkLocal).2.1) "access_token" = none ∧
      paramsGet
        (getHashParams webCodec
          (run (constantServices authOkU1 trackOk) (handleSupabaseRedirect webCodec) ()
            recoveryLinkLocal).2.1) "refresh_token" = none :=
  ⟨((redirect_clears_url_only_after_returned_call (constantServices authOkU1 trackOk) webCodec
      webCodec_lawful () recoveryLinkLocal).2.1 (Req.authSetSession "T1" "T2") authOkU1
      (by decide) rfl).2 "access_token" (by decide),
    ((redirect_clears_url_only_after_returned_call (constantServices authOkU1 trackOk) webCodec
      webCodec_lawful () recoveryLinkLocal).2.1 (Req.authSetSession "T1" "T2") authOkU1
      (by decide) rfl).2 "refresh_token" (by decide)⟩

/-- C24, as stated, fails, in two ways.  When the provider call throws, the
URL is not cleaned: on `/Auth/RESET-Password?code=C1`, with a provider that
cannot be reached, the code exchange is attempted and afterwards the query
still carries the code.  And a URL that carries a one-time code away from the
recovery routes, without `type=recovery`, is not handled at all: no call is
made and the code stays in the URL. -/
theorem redirect_leaves_code_in_url :
    (newRequests codeNoTypeLocal
        (run offlineProvider (handleSupabaseRedirect webCodec) () codeNoTypeLocal).2.1 =
        [Req.authExchangeCodeForSession "C1"] ∧
      (run offlineProvider (handleSupabaseRedirect webCodec) () codeNoTypeLocal).2.2 =
        Except.ok () ∧
      (run offlineProvider (handleSupabaseRedirect webCodec) () codeNoTypeLocal).2.1.search =
        "?code=C1" ∧
      paramsGet
        (getSearchParams webCodec
          (run offlineProvider (handleSupabaseRedirect webCodec) () codeNoTypeLocal).2.1)
        "code" = some "C1") ∧
    (newRequests codeElsewhereLocal
        (run (constantServices authOkU1 trackOk) (handleSupabaseRedirect webCodec) ()
          codeElsewhereLocal).2.1 = [] ∧
      (run (constantServices authOkU1 trackOk) (handleSupabaseRedirect webCodec) ()
          codeElsewhereLocal).2.1.search = "?code=C1&tab=2" ∧
      paramsGet
        (getSearchParams webCodec
          (run (constantServices authOkU1 trackOk) (handleSupabaseRedirect webCodec) ()
            codeElsewhereLocal).2.1)
        "code" = some "C1") := by
  refine ⟨⟨by rfl, by rfl, by rfl, by decide⟩, by rfl, by rfl, by decide⟩

/-! ## The chat widget (C25) -/

theorem any_id_iff {ι : Type} [DecidableEq ι] (prev : List (ChatMessage ι))
    (newMsg : ChatMessage ι) :
    prev.any (fun msg => decide (msg.id = newMsg.id)) = true ↔
      newMsg.id ∈ prev.map (fun msg => msg.id) := by
  rw [List.any_eq_true, List.mem_map]
  constructor
  · rintro ⟨m, hm, h⟩
    exact ⟨m, hm, by simpa using h⟩
  · rintro ⟨m, hm, h⟩
    exact ⟨m, hm, by simpa using h⟩

/-- C25.  The chat widget deduplicates realtime inserts by id.  For every
message list with pairwise distinct ids and every INSERT payload: the updater
returns the list unchanged when a message with the payload's id is present,
and otherwise the list with the payload appended last; either way the ids stay
pairwise distinct and the old list is an initial segment of the new one, so
existing messages keep their order.  The handler applies the updater exactly
to the payloads between the current user and the active chat partner, in
either direction; any other payload leaves the list as it is. -/
theorem chat_insert_dedup {ι : Type} [DecidableEq ι] (userEmail activeChatEmail : String)
    (prev : List (ChatMessage ι)) (newMsg : ChatMessage ι)
    (hdistinct : (prev.map fun msg => msg.id).Nodup) :
    (newMsg.id ∈ prev.map (fun msg => msg.id) → appendUnlessPresent prev newMsg = prev) ∧
      (newMsg.id ∉ prev.map (fun msg => msg.id) →
        appendUnlessPresent prev newMsg = prev ++ [newMsg]) ∧
      ((appendUnlessPresent prev newMsg).map fun msg => msg.id).Nodup ∧
      prev <+: appendUnlessPresent prev newMsg ∧
      ((onInsert userEmail activeChatEmail prev newMsg).map fun msg => msg.id).Nodup ∧
      prev <+: onInsert userEmail activeChatEmail prev newMsg ∧
      (((newMsg.sender_email = userEmail ∧ newMsg.receiver_email = activeChatEmail) ∨
          (newMsg.sender_email = activeChatEmail ∧ newMsg.receiver_email = userEmail)) →
        onInsert userEmail activeChatEmail prev newMsg = appendUnlessPresent prev newMsg) ∧
      (¬ ((newMsg.sender_email = userEmail ∧ newMsg.receiver_email = activeChatEmail) ∨
          (newMsg.sender_email = activeChatEmail ∧ newMsg.receiver_email = userEmail)) →
        onInsert userEmail activeChatEmail prev newMsg = prev) := by
  have hin : newMsg.id ∈ prev.map (fun msg => msg.id) → appendUnlessPresent prev newMsg = prev := by
    intro h
    unfold appendUnlessPresent
    rw [if_pos ((any_id_iff prev newMsg).2 h)]
  have hout : newMsg.id ∉ prev.map (fun msg => msg.id) →
      appendUnlessPresent prev newMsg = prev ++ [newMsg] := by
    intro h
    unfold appendUnlessPresent
    rw [if_neg (fun h1 => h ((any_id_iff prev newMsg).1 h1))]
  have hnodup : ((appendUnlessPresent prev newMsg).map fun msg => msg.id).Nodup := by
    by_cases h : newMsg.id ∈ prev.map (fun msg => msg.id)
    · rw [hin h]; exact hdistinct
    · rw [hout h, List.map_append, List.map_singleton]
      rw [List.nodup_append]
      refine ⟨hdistinct, List.nodup_singleton _, ?_⟩
      intro x hx hx1
      rw [List.mem_singleton] at hx1
      exact h (hx1 ▸ hx)
  have hkeep : prev <+: appendUnlessPresent prev newMsg := by
    by_cases h : newMsg.id ∈ prev.map (fun msg => msg.id)
    · rw [hin h]
    · rw [hout h]; exact List.prefix_append _ _
  have hrel : isRelevant userEmail activeChatEmail newMsg = true ↔
      ((newMsg.sender_email = userEmail ∧ newMsg.receiver_email = activeChatEmail) ∨
        (newMsg.sender_email = activeChatEmail ∧ newMsg.receiver_email = userEmail)) := by
    simp [isRelevant]
  have hyes : ((newMsg.sender_email = userEmail ∧ newMsg.receiver_email = activeChatEmail) ∨
      (newMsg.sender_email = activeChatEmail ∧ newMsg.receiver_email = userEmail)) →
      onInsert userEmail activeChatEmail prev newMsg = appendUnlessPresent prev newMsg := by
    intro h
    unfold onInsert
    rw [if_pos (hrel.2 h)]
  have hno : ¬ ((newMsg.sender_email = userEmail ∧ newMsg.receiver_email = activeChatEmail) ∨
      (newMsg.sender_email = activeChatEmail ∧ newMsg.receiver_email = userEmail)) →
      onInsert userEmail activeChatEmail prev newMsg = prev := by
    intro h
    unfold onInsert
    rw [if_neg (fun h1 => h (hrel.1 h1))]
  refine ⟨hin, hout, hnodup, hkeep, ?_, ?_, hyes, hno⟩
  · by_cases h : ((newMsg.sender_email = userEmail ∧ newMsg.receiver_email = activeChatEmail) ∨
        (newMsg.sender_email = activeChatEmail ∧ newMsg.receiver_email = userEmail))
    · rw [hyes h]; exact hnodup
    · rw [hno h]; exact hdistinct
  · by_cases h : ((newMsg.sender_email = userEmail ∧ newMsg.receiver_email = activeChatEmail) ∨
        (newMsg.sender_email = activeChatEmail ∧ newMsg.receiver_email = userEmail))
    · rw [hyes h]; exact hkeep
    · rw [hno h]

/-- C25, witness: a repeated payload with id 2 is dropped, and a new message
with id 4 is appended last. -/
theorem chat_insert_dedup_witness :
    onInsert "me@x.y" "you@x.y" chatLog ⟨2, "you@x.y", "me@x.y", "hello", true⟩ = chatLog ∧
      onInsert "me@x.y" "you@x.y" chatLog ⟨4, "you@x.y", "me@x.y", "fine", false⟩ =
        chatLog ++ [⟨4, "you@x.y", "me@x.y", "fine", false⟩] ∧
      ((onInsert "me@x.y" "you@x.y" chatLog
          ⟨4, "you@x.y", "me@x.y", "fine", false⟩).map fun msg => msg.id).Nodup :=
  ⟨by decide, by decide,
    (chat_insert_dedup "me@x.y" "you@x.y" chatLog ⟨4, "you@x.y", "me@x.y", "fine", false⟩
      (by decide)).2.2.2.2.1⟩

/-! ## The admin route (C26) -/

/-- C26.  For every auth state, `AdminRoute` renders its children if and only
if loading is false, a user is signed in, and the profile has role `admin` or
a true `is_superuser`.  With loading false, a signed-out user is redirected to
`/login`, and a signed-in user whose profile is null or is neither `admin` nor
superuser is redirected to `/dashboard`.  While loading is true the loading
screen is rendered. -/
theorem adminRoute_admin_only (s : Local) :
    (AdminRoute s = Rendered.children ↔
        s.loading = false ∧ s.user ≠ none ∧
          ∃ profile, s.userProfile = some profile ∧
            (profile.role = "admin" ∨ profile.is_superuser = true)) ∧
      (s.loading = false → s.user = none → AdminRoute s = Rendered.navigate "/login") ∧
      (s.loading = false → s.user ≠ none →
        (s.userProfile = none ∨
          ∃ profile, s.userProfile = some profile ∧ profile.role ≠ "admin" ∧
            profile.is_superuser = false) →
        AdminRoute s = Rendered.navigate "/dashboard") ∧
      (s.loading = true → AdminRoute s = Rendered.loadingScreen) := by
  unfold AdminRoute isAuthenticated isAdmin
  cases hl : s.loading <;> cases hu : s.user <;> cases hp : s.userProfile <;>
    simp
  · rename_i u profile
    by_cases hr : profile.role = "admin" <;> cases hs : profile.is_superuser <;> simp [hr, hs]

/-- C26, witness: an admin is shown the children; the same user with the
profile not yet loaded is sent to `/dashboard`. -/
theorem adminRoute_admin_only_witness :
    AdminRoute adminLocal = Rendered.children ∧
      AdminRoute { adminLocal with userProfile := none } = Rendered.navigate "/dashboard" :=
  ⟨(adminRoute_admin_only adminLocal).1.2
      ⟨rfl, by decide, ⟨_, rfl, Or.inl rfl⟩⟩,
    (adminRoute_admin_only { adminLocal with userProfile := none }).2.2.1 rfl (by decide)
      (Or.inl rfl)⟩

/-! ## The in-flight flag is shared by all identities (C27) -/

/-- C27.  The in-flight flag is not keyed by identity.  While a profile fetch
for identity `A` is in flight (its call is suspended at the query), a
`fetchUserProfile(B)` for any identity `B` without a fresh cache entry returns
`undefined` at once, without querying the provider and without changing the
profile state or anything else.  In particular, when `fetchUserProfile(A)` and
then `fetchUserProfile(B)` are started one after the other, the second has
ended with `undefined` while the first is still suspended, only the query for
`A` has been recorded, and the profile in state is what it was before. -/
theorem fetch_for_other_identity_is_dropped {σ : Type} (P : Provider σ) (p : σ) (s : Local)
    (A B : String)
    (hflight : (settle P (fetchUserProfile A) p s).2.2.completion = none) :
    (∀ (q : σ) (t : Local),
        t.fetchInProgress = (settle P (fetchUserProfile A) p s).2.1.fetchInProgress →
        freshCached t B = none →
        run P (fetchUserProfile B) q t = (q, t, Except.ok none) ∧
          settle P (fetchUserProfile B) q t = (q, t, Prog.pure none)) ∧
      (freshCached s B = none →
        (Duo.turns P ⟨p, s, fetchUserProfile A, fetchUserProfile B⟩
            [false, true]).second.completion = some (Except.ok none) ∧
          (Duo.turns P ⟨p, s, fetchUserProfile A, fetchUserProfile B⟩
            [false, true]).first.completion = none ∧
          (Duo.turns P ⟨p, s, fetchUserProfile A, fetchUserProfile B⟩ [false, true]).prov = p ∧
          (Duo.turns P ⟨p, s, fetchUserProfile A, fetchUserProfile B⟩ [false, true]).tab =
            { s with fetchInProgress := true
                     log := s.log ++ [Event.request (Req.selectProfile A)] } ∧
          (Duo.turns P ⟨p, s, fetchUserProfile A, fetchUserProfile B⟩
            [false, true]).tab.userProfile = s.userProfile) := by
  cases hc : freshCached s A with
  | some e =>
    rw [settle_fetchUserProfile_hit P p s A e hc] at hflight
    cases hflight
  | none =>
    rcases Bool.eq_false_or_eq_true s.fetchInProgress with hf | hf
    · rw [settle_fetchUserProfile_dropped P p s A hc hf] at hflight
      cases hflight
    · have hmiss := settle_fetchUserProfile_miss P p s A hc hf
      have key : ∀ (q : σ) (t : Local),
          t.fetchInProgress = (settle P (fetchUserProfile A) p s).2.1.fetchInProgress →
          freshCached t B = none →
          run P (fetchUserProfile B) q t = (q, t, Except.ok none) ∧
            settle P (fetchUserProfile B) q t = (q, t, Prog.pure none) := by
        intro q t h1 h2
        rw [hmiss.2.1] at h1
        have hfl : t.fetchInProgress = true := h1
        exact ⟨run_fetchUserProfile_dropped P q t B h2 hfl,
          settle_fetchUserProfile_dropped P q t B h2 hfl⟩
      refine ⟨key, ?_⟩
      intro hB
      have hturn : Duo.turns P ⟨p, s, fetchUserProfile A, fetchUserProfile B⟩ [false, true] =
          { prov := (settle P (fetchUserProfile B) (settle P (fetchUserProfile A) p s).1
                      (settle P (fetchUserProfile A) p s).2.1).1
            tab := (settle P (fetchUserProfile B) (settle P (fetchUserProfile A) p s).1
                      (settle P (fetchUserProfile A) p s).2.1).2.1
            first := (settle P (fetchUserProfile A) p s).2.2
            second := (settle P (fetchUserProfile B) (settle P (fetchUserProfile A) p s).1
                      (settle P (fetchUserProfile A) p s).2.1).2.2 } := rfl
      have hB1 : freshCached (settle P (fetchUserProfile A) p s).2.1 B = none := by
        rw [hmiss.2.1]
        exact hB
      rw [hturn, (key (settle P (fetchUserProfile A) p s).1
        (settle P (fetchUserProfile A) p s).2.1 rfl hB1).2]
      refine ⟨rfl, hflight, hmiss.1, hmiss.2.1, ?_⟩
      show (settle P (fetchUserProfile A) p s).2.1.userProfile = s.userProfile
      rw [hmiss.2.1]

/-- C27, witness: the tab shows the profile of `a1`; a fetch for `u1` is
started, then one for `b2`. -/
theorem fetch_for_other_identity_is_dropped_witness :
    (Duo.turns offlineProvider
        ⟨(), signedInA1Local, fetchUserProfile "u1", fetchUserProfile "b2"⟩
        [false, true]).second.completion = some (Except.ok none) ∧
      (Duo.turns offlineProvider
        ⟨(), signedInA1Local, fetchUserProfile "u1", fetchUserProfile "b2"⟩
        [false, true]).tab.userProfile = signedInA1Local.userProfile :=
  ⟨((fetch_for_other_identity_is_dropped offlineProvider () signedInA1Local "u1" "b2" rfl).2
      rfl).1,
    ((fetch_for_other_identity_is_dropped offlineProvider () signedInA1Local "u1" "b2" rfl).2
      rfl).2.2.2.2⟩

/-! ## The result of `signOut()` (C28) -/

/-- C28.  `signOut()` returns `{ error: null }` whenever the provider's
sign-out call returns, also when the returned envelope carries an error; it
returns `{ error }` with a non-null error only when that call throws, and the
error is then the thrown one. -/
theorem signOut_error_only_when_thrown {σ : Type} (P : Provider σ) (p : σ) (s : Local) :
    (∀ v, (P.respond Req.authSignOut
          (afterTrackLogout P p s.user
            (storageGetItem s.sessionStorage "djangoSessionId"))).2.result = Except.ok v →
        (run P signOut p s).2.2 = Except.ok { error := none }) ∧
      (∀ e, (P.respond Req.authSignOut
          (afterTrackLogout P p s.user
            (storageGetItem s.sessionStorage "djangoSessionId"))).2.result =
            Except.ok { error := some e } →
        (run P signOut p s).2.2 = Except.ok { error := none }) ∧
      (∀ e, (P.respond Req.authSignOut
          (afterTrackLogout P p s.user
            (storageGetItem s.sessionStorage "djangoSessionId"))).2.result = Except.error e →
        (run P signOut p s).2.2 = Except.ok { error := some e }) ∧
      (∀ r, (run P signOut p s).2.2 = Except.ok r → r.error ≠ none →
        ∃ e, (P.respond Req.authSignOut
          (afterTrackLogout P p s.user
            (storageGetItem s.sessionStorage "djangoSessionId"))).2.result = Except.error e ∧
          r.error = some e) := by
  rw [run_signOut]
  rcases P.respond Req.authSignOut
      (afterTrackLogout P p s.user (storageGetItem s.sessionStorage "djangoSessionId"))
    with ⟨p1, ⟨el, res⟩⟩
  cases res with
  | ok v0 =>
    refine ⟨fun _ _ => rfl, fun _ _ => rfl, ?_, ?_⟩
    · intro e he; cases he
    · intro r hr hne
      injection hr with hr
      subst hr
      exact absurd rfl hne
  | error e0 =>
    refine ⟨?_, ?_, ?_, ?_⟩
    · intro v hv; cases hv
    · intro e he; cases he
    · intro e he
      injection he with he
      subst he
      rfl
    · intro r hr _
      injection hr with hr
      subst hr
      exact ⟨e0, rfl, rfl⟩

/-- C28, witness: a provider whose sign-out call returns. -/
theorem signOut_error_only_when_thrown_witness :
    (run (constantServices authOkU1 trackOk) signOut () cachedTrackedLocal).2.2 =
      Except.ok { error := none } :=
  (signOut_error_only_when_thrown (constantServices authOkU1 trackOk) ()
    cachedTrackedLocal).1 { error := none } rfl

/-! ## `updateProfile` and the profile cache (C29) -/

/-- The run of a successful `updateProfile(updates)` in closed form. -/
theorem run_updateProfile_ok {σ : Type} (P : Provider σ) (p pU : σ) (s : Local)
    (updates : ProfileUpdates) (u : AuthUser) (data : Option Profile) (elU : Int)
    (hu : s.user = some u)
    (hU : P.respond (Req.updateProfileRow u.id updates) p =
      (pU, ⟨elU, Except.ok { data := data, error := none }⟩)) :
    run P (updateProfile updates) p s =
      (pU,
        { s with
            log := s.log ++ [Event.request (Req.updateProfileRow u.id updates)]
            now := s.now + elU
            userProfile := data },
        Except.ok { data := data, error := none }) := by
  simp only [updateProfile, run_tryCatch, run_read, hu, bind_def, pure_def, run_bind, run_call,
    hU, andThen_ok, orElse_ok, setUserProfile, run_update, run_pure]

theorem updateProfile_cache {σ : Type} (P : Provider σ) (p : σ) (s : Local)
    (updates : ProfileUpdates) :
    (run P (updateProfile updates) p s).2.1.profileCache = s.profileCache := by
  cases hu : s.user with
  | none =>
    simp only [updateProfile, run_tryCatch, run_read, hu, run_throw, orElse_error, pure_def,
      run_pure]
  | some u =>
    rcases hU : P.respond (Req.updateProfileRow u.id updates) p with ⟨pU, ⟨elU, res⟩⟩
    cases res with
    | error e =>
      simp only [updateProfile, run_tryCatch, run_read, hu, bind_def, pure_def, run_bind,
        run_call, hU, andThen_ok, andThen_error, orElse_ok, orElse_error, setUserProfile,
        run_update, run_pure, run_throw]
    | ok resp =>
      rcases resp with ⟨d, er⟩
      cases er with
      | none =>
        rw [run_updateProfile_ok P p pU s updates u d elU hu hU]
      | some e =>
        simp only [updateProfile, run_tryCatch, run_read, hu, bind_def, pure_def, run_bind,
          run_call, hU, andThen_ok, andThen_error, orElse_ok, orElse_error, setUserProfile,
          run_update, run_pure, run_throw]

/-- C29.  `updateProfile` never writes the profile cache: after it, successful
or not, the cache holds exactly the entries it held before.  A successful
update puts the returned row into the profile state; a `fetchUserProfile` for
that user afterwards, less than 5 minutes after the cached entry was stored,
is a hit that returns the cached profile, as it was before the update, and
puts it back into the profile state without querying the provider. -/
theorem updateProfile_leaves_cache_stale {σ : Type} (P : Provider σ) (p : σ) (s : Local)
    (updates : ProfileUpdates) :
    (run P (updateProfile updates) p s).2.1.profileCache = s.profileCache ∧
      (∀ (u : AuthUser) (data : Option Profile) (pU : σ) (elU : Int),
        s.user = some u →
        P.respond (Req.updateProfileRow u.id updates) p =
          (pU, ⟨elU, Except.ok { data := data, error := none }⟩) →
        (run P (updateProfile updates) p s).2.2 = Except.ok { data := data, error := none } ∧
          (run P (updateProfile updates) p s).2.1.userProfile = data ∧
          ∀ (entry : CacheEntry) (q : σ) (t : Local),
            s.profileCache u.id = some entry →
            t.profileCache = (run P (updateProfile updates) p s).2.1.profileCache →
            t.now - entry.timestamp < PROFILE_CACHE_TTL →
            run P (fetchUserProfile u.id) q t =
              (q, { t with userProfile := entry.data }, Except.ok (some entry.data))) := by
  refine ⟨updateProfile_cache P p s updates, ?_⟩
  intro u data pU elU hu hU
  have hc := updateProfile_cache P p s updates
  rw [run_updateProfile_ok P p pU s updates u data elU hu hU] at hc ⊢
  refine ⟨rfl, rfl, ?_⟩
  intro entry q t he ht hnow
  apply run_fetchUserProfile_hit
  rw [freshCached_eq_some_iff, ht]
  exact ⟨he, hnow⟩
/-- C29, witness: `u1` renames itself; the update puts the renamed row into
state, and the fetch that follows puts the cached row, with the old username,
back. -/
theorem updateProfile_leaves_cache_stale_witness :
    (run (tableProvider (constantServices authOkU1 trackOk)) (updateProfile renameUpdates)
        backendU1 cachedTrackedLocal).2.1.userProfile =
        some ⟨"u1", "old@x.y", "renamed", "user", false, true, false, 5⟩ ∧
      run (tableProvider (constantServices authOkU1 trackOk)) (fetchUserProfile "u1")
          (run (tableProvider (constantServices authOkU1 trackOk)) (updateProfile renameUpdates)
            backendU1 cachedTrackedLocal).1
          (run (tableProvider (constantServices authOkU1 trackOk)) (updateProfile renameUpdates)
            backendU1 cachedTrackedLocal).2.1 =
        ((run (tableProvider (constantServices authOkU1 trackOk)) (updateProfile renameUpdates)
            backendU1 cachedTrackedLocal).1,
          { (run (tableProvider (constantServices authOkU1 trackOk))
                (updateProfile renameUpdates) backendU1 cachedTrackedLocal).2.1 with
              userProfile := some ⟨"u1", "a@b.c", "a7", "user", false, true, false, 1000⟩ },
          Except.ok (some (some ⟨"u1", "a@b.c", "a7", "user", false, true, false, 1000⟩))) :=
  ⟨((updateProfile_leaves_cache_stale (tableProvider (constantServices authOkU1 trackOk))
      backendU1 cachedTrackedLocal renameUpdates).2 ⟨"u1", "a@b.c"⟩
      (some ⟨"u1", "old@x.y", "renamed", "user", false, true, false, 5⟩)
      { backendU1 with table := [⟨"u1", "old@x.y", "renamed", "user", false, true, false, 5⟩] }
      0 rfl rfl).2.1,
    ((updateProfile_leaves_cache_stale (tableProvider (constantServices authOkU1 trackOk))
      backendU1 cachedTrackedLocal renameUpdates).2 ⟨"u1", "a@b.c"⟩
      (some ⟨"u1", "old@x.y", "renamed", "user", false, true, false, 5⟩)
      { backendU1 with table := [⟨"u1", "old@x.y", "renamed", "user", false, true, false, 5⟩] }
      0 rfl rfl).2.2
      { data := some ⟨"u1", "a@b.c", "a7", "user", false, true, false, 1000⟩, timestamp := 1000 }
      _ _ rfl rfl (by decide)⟩

/-! ## A notification without a session while nothing is tracked (C30) -/

/-- C30.  A notification other than `SIGNED_OUT` and `TOKEN_REFRESHED` that
carries no session (or a session without a user) while no identity is tracked
is not ignored by the same-identity check, because the id of the event,
`undefined`, is not strictly equal to the tracked id, `null`: the handler sets
user, profile and session to null and loading to false, and changes nothing
else.  This holds in every state, those in which the bootstrap has not yet
finished and loading is still true included. -/
theorem untracked_empty_notification_clears_loading {σ : Type} (P : Provider σ) (p : σ)
    (s : Local) (event : String) (session : Option Session)
    (hout : event ≠ "SIGNED_OUT") (href : event ≠ "TOKEN_REFRESHED")
    (hnone : sessionUser session = none) (htracked : s.userIdRef = JsId.null) :
    sessionUserId session = JsId.undefined ∧
      sessionUserId session ≠ s.userIdRef ∧
      run P (onAuthStateChange event session) p s =
        (p, { s with user := none, userProfile := none, session := none, loading := false },
          Except.ok ()) := by
  have hid : sessionUserId session = JsId.undefined := by
    cases session with
    | none => rfl
    | some x =>
      simp only [sessionUser] at hnone
      simp only [sessionUserId, hnone]
  have hne : sessionUserId session ≠ s.userIdRef := by
    rw [hid, htracked]
    intro h; cases h
  refine ⟨hid, hne, ?_⟩
  rw [run_onAuthStateChange_no_user P p s event session hout href hnone hne]
  rcases s with ⟨_, _, _, _, ref, _, _, _, _, _, _, _, _, _, _, _, _⟩
  simp only at htracked
  subst htracked
  rfl

/-- C30, witness: on a fresh tab the bootstrap is suspended at its session
read, loading still true, when an `INITIAL_SESSION` notification without a
session arrives; the handler sets loading to false. -/
theorem untracked_empty_notification_clears_loading_witness :
    (settle offlineProvider (getInitialSession webCodec) () Local.initial).2.2.completion = none ∧
      (settle offlineProvider (getInitialSession webCodec) () Local.initial).2.1.loading = true ∧
      (run offlineProvider (onAuthStateChange "INITIAL_SESSION" none) ()
        (settle offlineProvider (getInitialSession webCodec) ()
          Local.initial).2.1).2.1.loading = false :=
  ⟨by rfl, by rfl,
    congrArg (fun r => r.2.1.loading)
      (untracked_empty_notification_clears_loading offlineProvider ()
        (settle offlineProvider (getInitialSession webCodec) () Local.initial).2.1
        "INITIAL_SESSION" none (by decide) (by decide) rfl (by rfl)).2.2⟩

end PlayAttack
